import Mathlib

/-!
# Movement_Remake: the `AFPSCharacter` locomotion controller

A shallow embedding of `Source/Movement_Remake/FPSCharacter.{h,cpp}`.

* Every C++ member function of `AFPSCharacter` is a Lean function from the
  character state to the character state, with the source's name.
* `float`/`double` values are idealised as elements of an arbitrary linearly
  ordered field `R` (exact arithmetic, no rounding).  All definitions are
  computable; instantiating `R` with the rationals runs them.
* Library primitives that are not field operations (`sqrt`, `sin`, `cos`, the
  constant `PI`) are supplied by a `MathLib R` record.
* Engine calls (`FVector`, `FMath`, `LaunchCharacter`, timers) are modelled
  after the engine's documented behaviour; each such definition says so.
* On-screen debug messages have no effect on the character and are left out.
-/

namespace MovementRemake

/-! ## Engine vector type (`FVector`) -/

/-- The engine's `FVector`: three scalar components. -/
@[ext]
structure FVector (R : Type) where
  X : R
  Y : R
  Z : R
deriving DecidableEq

/-- Library primitives used by the source that are not field operations:
`sqrt` (behind `FVector::Length` and `FMath::InvSqrt`), `sin` and `cos` from
`<cmath>`, and the engine constant `PI`. -/
structure MathLib (R : Type) where
  sqrt : R → R
  sin : R → R
  cos : R → R
  PI : R

section Engine

variable {R : Type} [LinearOrderedField R]

namespace FVector

/-- Engine `FVector::ZeroVector`. -/
def ZeroVector : FVector R := ⟨0, 0, 0⟩

/-- Engine `FVector::UpVector`. -/
def UpVector : FVector R := ⟨0, 0, 1⟩

/-- Engine `FVector::DownVector`. -/
def DownVector : FVector R := ⟨0, 0, -1⟩

/-- Component-wise sum, `operator+`. -/
def add (a b : FVector R) : FVector R := ⟨a.X + b.X, a.Y + b.Y, a.Z + b.Z⟩

/-- Component-wise difference, `operator-`. -/
def sub (a b : FVector R) : FVector R := ⟨a.X - b.X, a.Y - b.Y, a.Z - b.Z⟩

/-- Unary minus. -/
def neg (a : FVector R) : FVector R := ⟨-a.X, -a.Y, -a.Z⟩

/-- Scaling by a scalar, `operator*` between a vector and a scalar. -/
def scale (a : FVector R) (k : R) : FVector R := ⟨a.X * k, a.Y * k, a.Z * k⟩

instance : Add (FVector R) := ⟨add⟩
instance : Sub (FVector R) := ⟨sub⟩
instance : Neg (FVector R) := ⟨neg⟩

/-- Engine `FVector::DotProduct`. -/
def DotProduct (a b : FVector R) : R := a.X * b.X + a.Y * b.Y + a.Z * b.Z

/-- Engine `FVector::SizeSquared`. -/
def SizeSquared (a : FVector R) : R := a.X * a.X + a.Y * a.Y + a.Z * a.Z

/-- Engine `FVector::SizeSquared2D`: squared length of the horizontal part. -/
def SizeSquared2D (a : FVector R) : R := a.X * a.X + a.Y * a.Y

/-- Engine `FVector::Length`: the square root of the squared size. -/
def Length (m : MathLib R) (a : FVector R) : R := m.sqrt a.SizeSquared

/-- Engine `FVector::IsZero`: all three components are exactly zero. -/
def IsZero (a : FVector R) : Bool := decide (a.X = 0) && decide (a.Y = 0) && decide (a.Z = 0)

end FVector

/-- The engine tolerance `SMALL_NUMBER` (1e-8). -/
def SMALL_NUMBER : R := 1 / 100000000

/-- Engine `FMath::InvSqrt`. -/
def InvSqrt (m : MathLib R) (x : R) : R := 1 / m.sqrt x

/-- Engine `FVector::GetSafeNormal` with the default tolerance: the vector itself when
its squared size is exactly one, the zero vector when the squared size is below
`SMALL_NUMBER`, the vector scaled by the inverse square root otherwise. -/
def FVector.GetSafeNormal (m : MathLib R) (a : FVector R) : FVector R :=
  if a.SizeSquared = 1 then a
  else if a.SizeSquared < SMALL_NUMBER then FVector.ZeroVector
  else a.scale (InvSqrt m a.SizeSquared)

/-- Engine `FVector::GetSafeNormal2D` with the default tolerance: the horizontal part
normalised (Z set to zero), or the zero vector when the horizontal squared size
is below `SMALL_NUMBER`. -/
def FVector.GetSafeNormal2D (m : MathLib R) (a : FVector R) : FVector R :=
  if a.SizeSquared2D = 1 then (if a.Z = 0 then a else ⟨a.X, a.Y, 0⟩)
  else if a.SizeSquared2D < SMALL_NUMBER then FVector.ZeroVector
  else ⟨a.X * InvSqrt m a.SizeSquared2D, a.Y * InvSqrt m a.SizeSquared2D, 0⟩

/-- Engine `FVector::VectorPlaneProject`: the vector minus its projection on the
plane normal. -/
def FVector.VectorPlaneProject (v n : FVector R) : FVector R :=
  v - n.scale (FVector.DotProduct v n)

/-- Engine `FMath::Sign`: 1 for positive, -1 for negative, 0 for zero. -/
def Sign (x : R) : R := if 0 < x then 1 else if x < 0 then -1 else 0

/-- Engine `FMath::Abs`. -/
def Abs (x : R) : R := if x < 0 then -x else x

/-- Engine `FMath::Clamp`. -/
def Clamp (x lo hi : R) : R := if x < lo then lo else if hi < x then hi else x

/-- Engine `FMath::IsNearlyEqual` with the default tolerance `SMALL_NUMBER`. -/
def IsNearlyEqual (a b : R) : Bool := decide (Abs (a - b) ≤ SMALL_NUMBER)

/-- Engine `FMath::FInterpTo`: the target when the speed is not positive or the
distance is negligible, otherwise a step of the distance scaled by
`DeltaTime * InterpSpeed` clamped to `[0, 1]`. -/
def FInterpTo (Current Target DeltaTime InterpSpeed : R) : R :=
  if InterpSpeed ≤ 0 then Target
  else if (Target - Current) * (Target - Current) < SMALL_NUMBER then Target
  else Current + (Target - Current) * Clamp (DeltaTime * InterpSpeed) 0 1

end Engine

/-! ## Engine data used by the character -/

/-- The engine's `EMovementMode`. -/
inductive EMovementMode where
  | MOVE_None
  | MOVE_Walking
  | MOVE_NavWalking
  | MOVE_Falling
  | MOVE_Swimming
  | MOVE_Flying
  | MOVE_Custom
deriving DecidableEq

/-- The parts of `FHitResult` the character reads: the hit component (a
pointer, `none` for null) and the impact normal. -/
structure FHitResult (R : Type) where
  Component : Option Nat
  Normal : FVector R
deriving DecidableEq

/-- An `FTimerHandle` together with the timer-manager entry it refers to.
`Valid` is `FTimerHandle::IsValid`, `Pending` says that the one-shot timer is
scheduled and has not fired, `Rate` is the delay it was set with. -/
structure FTimerHandle (R : Type) where
  Valid : Bool
  Pending : Bool
  Rate : R
deriving DecidableEq

/-- Engine `FTimerManager::SetTimer` for a one-shot timer: replaces whatever the
handle referred to by a fresh pending timer. -/
def FTimerHandle.SetTimer {R : Type} (_h : FTimerHandle R) (Rate : R) : FTimerHandle R :=
  ⟨true, true, Rate⟩

/-- Engine `FTimerManager::ClearTimer`: the timer is removed and the handle
invalidated. -/
def FTimerHandle.ClearTimer {R : Type} (h : FTimerHandle R) : FTimerHandle R :=
  ⟨false, false, h.Rate⟩

/-- The timer-manager entry after the one-shot timer fired: nothing is pending
any more, the handle variable itself is left as it was. -/
def FTimerHandle.Fired {R : Type} (h : FTimerHandle R) : FTimerHandle R :=
  ⟨h.Valid, false, h.Rate⟩

/-! ## The character -/

/-- The members of `AFPSCharacter` (`FPSCharacter.h`) together with the fields
of its engine components that the member functions read or write: the
character movement component, the actor transform, the camera's relative roll,
the world's frame delta and the particle emitters spawned so far.  Pointers to
engine components are `Option Nat` (`none` for `nullptr`). -/
structure AFPSCharacter (R : Type) where
  -- editable properties
  CrouchScale : R
  NormalScale : FVector R
  WalkSpeed : R
  CrouchSpeed : R
  SlideForce : R
  GradualSlideForce : R
  GradualSlideForceTime : R
  SlideFriction : R
  WallRunCounterGravity : R
  WallRunSpeed : R
  WallJumpForce : R
  WallRunAirControl : R
  AirJumpMax : Int
  AirStrafeMagnitude : R
  SlideCameraTiltSpeed : R
  CrouchTransitionSpeed : R
  WallRunTransitionSpeed : R
  WallRunCameraTiltAngle : R
  -- states to keep track of
  AirJumpCount : Int
  bIsCrouching : Bool
  bAppliedSlideForce : Bool
  bIsWallrunning : Bool
  WallNormalVector : FVector R
  WallPerpendicularNormalVector : FVector R
  WallRunTiltDirection : R
  CurrentWall : Option Nat
  AddVelocityMag : R
  MinSlideSpeed : R
  WalkingInput : FVector R
  AirControlResetTimer : FTimerHandle R
  WallRunTimer : FTimerHandle R
  -- GetCharacterMovement()
  Velocity : FVector R
  MovementMode : EMovementMode
  GravityScale : R
  AirControl : R
  GroundFriction : R
  BrakingFrictionFactor : R
  MaxWalkSpeed : R
  JumpZVelocity : R
  Mass : R
  GravityDirection : FVector R
  CurrentFloorNormal : FVector R
  bJumpAllowed : Bool
  PendingLaunchVelocity : FVector R
  -- actor and pawn
  ActorLocation : FVector R
  ActorScale3D : FVector R
  ActorRightVector : FVector R
  ActorForwardVector : FVector R
  ActorUpVector : FVector R
  ControlInputVector : FVector R
  -- CameraComp->GetRelativeRotation().Roll
  CameraRoll : R
  -- GetWorld()->GetDeltaSeconds()
  DeltaSeconds : R
  -- UGameplayStatics::SpawnEmitterAtLocation calls, newest first
  SpawnedEmitters : List (FVector R)

namespace AFPSCharacter

variable {R : Type} [LinearOrderedField R]

/-! ### Engine queries and calls -/

/-- Engine `UCharacterMovementComponent::IsFalling`. -/
def IsFalling (s : AFPSCharacter R) : Bool :=
  decide (s.MovementMode = EMovementMode.MOVE_Falling)

/-- Engine `UCharacterMovementComponent::IsMovingOnGround`. -/
def IsMovingOnGround (s : AFPSCharacter R) : Bool :=
  decide (s.MovementMode = EMovementMode.MOVE_Walking) ||
    decide (s.MovementMode = EMovementMode.MOVE_NavWalking)

/-- Engine `ACharacter::LaunchCharacter`, after the engine's documentation: sets the
pending launch velocity of the character; the XY part (resp. Z part) of the
current velocity is added to the launch velocity unless `bXYOverride` (resp.
`bZOverride`) is set.  The movement component applies the pending velocity on
its next update (`HandlePendingLaunch`). -/
def LaunchCharacter (s : AFPSCharacter R) (LaunchVelocity : FVector R)
    (bXYOverride bZOverride : Bool) : AFPSCharacter R :=
  { s with PendingLaunchVelocity :=
      ⟨if bXYOverride then LaunchVelocity.X else LaunchVelocity.X + s.Velocity.X,
       if bXYOverride then LaunchVelocity.Y else LaunchVelocity.Y + s.Velocity.Y,
       if bZOverride then LaunchVelocity.Z else LaunchVelocity.Z + s.Velocity.Z⟩ }

/-- Engine `UCharacterMovementComponent::HandlePendingLaunch`, run by the engine on
the movement update: a non-zero pending launch velocity becomes the velocity,
the character starts falling and the pending velocity is cleared. -/
def HandlePendingLaunch (s : AFPSCharacter R) : AFPSCharacter R :=
  if s.PendingLaunchVelocity.IsZero then s
  else { s with Velocity := s.PendingLaunchVelocity,
                MovementMode := EMovementMode.MOVE_Falling,
                PendingLaunchVelocity := FVector.ZeroVector }

/-- Engine `APawn::AddMovementInput` with the default scale 1: accumulates the input
for the next movement update. -/
def AddMovementInput (s : AFPSCharacter R) (WorldDirection : FVector R) : AFPSCharacter R :=
  { s with ControlInputVector := s.ControlInputVector + WorldDirection.scale 1 }

/-! ### Member functions of `FPSCharacter.cpp` -/

/-- The constructor `AFPSCharacter::AFPSCharacter`, applied to an object
`base` that supplies the property values and the engine-owned fields: first the
default member initialisers of the header for the state members, then the
constructor body (component setup that no member function reads is left
out). -/
def ctor (base : AFPSCharacter R) : AFPSCharacter R :=
  { base with
    bIsCrouching := false
    bAppliedSlideForce := false
    bIsWallrunning := false
    WallRunTiltDirection := 0
    CurrentWall := none
    AddVelocityMag := base.SlideForce
    MinSlideSpeed := base.WalkSpeed * (5 / 10)
    WalkingInput := ⟨0, 0, 0⟩
    AirControlResetTimer := ⟨false, false, 0⟩
    WallRunTimer := ⟨false, false, 0⟩
    MaxWalkSpeed := base.WalkSpeed
    AirControl := 7 / 10
    JumpZVelocity := 620
    AirJumpCount := base.AirJumpMax }

/-- The header's default values of the editable properties, on top of `base`. -/
def headerDefaults (base : AFPSCharacter R) : AFPSCharacter R :=
  { base with
    CrouchScale := 5 / 10
    NormalScale := ⟨15 / 10, 15 / 10, 15 / 10⟩
    WalkSpeed := 1000
    CrouchSpeed := 300
    SlideForce := 1000
    GradualSlideForce := 200
    GradualSlideForceTime := 20
    SlideFriction := 2 / 10
    WallRunCounterGravity := 1
    WallRunSpeed := 1000
    WallJumpForce := 420
    WallRunAirControl := 7 / 10
    AirJumpMax := 1
    AirStrafeMagnitude := 1
    SlideCameraTiltSpeed := 7
    CrouchTransitionSpeed := 25
    WallRunTransitionSpeed := 10
    WallRunCameraTiltAngle := 10 }

/-- Member function `AFPSCharacter::BeginPlay`. -/
def BeginPlay (s : AFPSCharacter R) : AFPSCharacter R :=
  { s with CrouchScale := s.CrouchScale * s.NormalScale.Z
           ActorScale3D := s.NormalScale }

/-- Member function `AFPSCharacter::AirAccelerate`. -/
def AirAccelerate (m : MathLib R) (s : AFPSCharacter R) (WishVelocity : FVector R) :
    AFPSCharacter R :=
  let WishSpeed := WishVelocity.Length m
  let WishVelocity := WishVelocity.GetSafeNormal m
  let WishSpeed := if WishSpeed > 30 then 30 else WishSpeed
  let CurrentSpeed := FVector.DotProduct WishVelocity ⟨s.Velocity.X, s.Velocity.Y, 0⟩
  let AddSpeed := WishSpeed - CurrentSpeed
  if AddSpeed ≤ 0 then s
  else
    let AccelSpeed := s.WalkingInput.Length m * s.DeltaSeconds
    { s with Velocity := s.Velocity +
        ((((WishVelocity.scale AccelSpeed).scale 10).scale s.AirStrafeMagnitude).scale
          (143 / 100)).scale s.AirControl }

/-- Member function `AFPSCharacter::Walk`; `Input` is `Instance.GetValue().Get<FVector>()`. -/
def Walk (m : MathLib R) (s : AFPSCharacter R) (Input : FVector R) : AFPSCharacter R :=
  let s := { s with WalkingInput := Input.scale s.MaxWalkSpeed }
  let s := { s with
    WalkingInput :=
      s.ActorRightVector.scale s.WalkingInput.X + s.ActorForwardVector.scale s.WalkingInput.Y }
  let s := s.AddMovementInput s.WalkingInput
  if s.IsFalling && !s.bIsWallrunning then AirAccelerate m s s.WalkingInput else s

/-- Member function `AFPSCharacter::Look`: forwards the input to the player controller and
leaves the character untouched. -/
def Look (s : AFPSCharacter R) (_Input : R × R) : AFPSCharacter R := s

/-- The condition of the `if` in `AFPSCharacter::StartSlide`: enough horizontal
speed and no slide force applied yet. -/
def StartSlideGuard (s : AFPSCharacter R) : Bool :=
  decide (s.Velocity.SizeSquared2D > s.MinSlideSpeed * s.MinSlideSpeed) && !s.bAppliedSlideForce

/-- Member function `AFPSCharacter::StartSlide`. -/
def StartSlide (m : MathLib R) (s : AFPSCharacter R) : AFPSCharacter R :=
  if StartSlideGuard s then
    { s with Velocity := s.Velocity + (s.Velocity.GetSafeNormal2D m).scale s.SlideForce
             bAppliedSlideForce := true
             AddVelocityMag := s.GradualSlideForce }
  else s

/-- Member function `AFPSCharacter::StartCrouch`. -/
def StartCrouch (m : MathLib R) (s : AFPSCharacter R) : AFPSCharacter R :=
  let s := { s with bIsCrouching := true
                    GroundFriction := s.SlideFriction
                    BrakingFrictionFactor := 1 / 10
                    MaxWalkSpeed := s.CrouchSpeed }
  if s.IsMovingOnGround then StartSlide m s else s

/-- Member function `AFPSCharacter::StopCrouch`. -/
def StopCrouch (s : AFPSCharacter R) : AFPSCharacter R :=
  let s := { s with bIsCrouching := false
                    GroundFriction := 8
                    BrakingFrictionFactor := 2
                    MaxWalkSpeed := s.WalkSpeed }
  if s.IsMovingOnGround then { s with bAppliedSlideForce := false } else s

/-- Member function `AFPSCharacter::GradualCrouch`. -/
def GradualCrouch (s : AFPSCharacter R) (ZScale DeltaTime : R) : AFPSCharacter R :=
  let s :=
    if !IsNearlyEqual s.ActorScale3D.Z ZScale then
      { s with ActorScale3D :=
          { s.ActorScale3D with
            Z := FInterpTo s.ActorScale3D.Z ZScale DeltaTime s.CrouchTransitionSpeed } }
    else s
  let TargetLocationZ :=
    s.ActorLocation.Z + (s.NormalScale.Z - ZScale) * (if s.bIsCrouching then -1 else 1)
  if !IsNearlyEqual s.ActorLocation.Z TargetLocationZ then
    { s with ActorLocation :=
        { s.ActorLocation with
          Z := FInterpTo s.ActorLocation.Z TargetLocationZ DeltaTime s.CrouchTransitionSpeed } }
  else s

/-- Member function `AFPSCharacter::GradualSlide`; the second component is the returned
`bool`. -/
def GradualSlide (m : MathLib R) (s : AFPSCharacter R) (DeltaTime : R) :
    AFPSCharacter R × Bool :=
  let s := { s with AddVelocityMag := FInterpTo s.AddVelocityMag 0 DeltaTime 20 }
  if !IsNearlyEqual s.AddVelocityMag 0 then
    ({ s with Velocity := s.Velocity +
        (((s.Velocity.GetSafeNormal2D m).scale s.AddVelocityMag).scale DeltaTime).scale 60 },
      true)
  else (s, false)

/-- Member function `AFPSCharacter::SmoothCameraTilt`. -/
def SmoothCameraTilt (s : AFPSCharacter R) (Angle TiltSpeed DeltaTime : R) : AFPSCharacter R :=
  if !IsNearlyEqual s.CameraRoll Angle then
    { s with CameraRoll := FInterpTo s.CameraRoll Angle DeltaTime TiltSpeed }
  else s

/-- Member function `AFPSCharacter::IsWall`. -/
def IsWall (Normal : FVector R) : Bool :=
  decide (Normal.Z ≥ -(1 / 100)) && decide (Normal.Z ≤ 5 / 10)

/-- Member function `AFPSCharacter::VectorRotate`. -/
def VectorRotate (m : MathLib R) (vec : FVector R) (yaw pitch roll : R) : FVector R :=
  let s0 := m.sin yaw
  let s1 := m.sin pitch
  let s2 := m.sin roll
  let c0 := m.cos yaw
  let c1 := m.cos pitch
  let c2 := m.cos roll
  ⟨vec.X * (s0 * s1 * s2 + c0 * c2) + vec.Y * (-s0 * c1) + vec.Z * (s0 * s1 * c2 - c0 * s2),
   vec.X * (s0 * c1 - c0 * s1 * s2) + vec.Y * (c0 * c1) + vec.Z * (-c0 * s1 * c2 - s0 * s2),
   vec.X * (c1 * s2) + vec.Y * s1 + vec.Z * (c1 * c2)⟩

/-- Member function `AFPSCharacter::StartWallRun`. -/
def StartWallRun (m : MathLib R) (s : AFPSCharacter R) (Hit : FHitResult R) : AFPSCharacter R :=
  if s.IsFalling then
    let s :=
      if !s.bIsWallrunning then
        { s with CurrentWall := Hit.Component
                 Velocity := { s.Velocity with Z := 250 }
                 bIsWallrunning := true
                 AirJumpCount := s.AirJumpMax
                 GravityScale := 1 }
      else s
    let s := { s with WallNormalVector := Hit.Normal }
    let s := { s with
      WallRunTiltDirection := Sign (FVector.DotProduct s.ActorRightVector s.WallNormalVector) }
    let s := { s with
      WallPerpendicularNormalVector := VectorRotate m s.WallNormalVector (m.PI / 2) 0 0 }
    let s := { s with
      WallPerpendicularNormalVector :=
        s.WallPerpendicularNormalVector.scale
          (Sign (FVector.DotProduct s.Velocity s.WallPerpendicularNormalVector)) }
    { s with AirControl := s.WallRunAirControl }
  else s

/-- Member function `AFPSCharacter::WallRun`. -/
def WallRun (s : AFPSCharacter R) (DeltaTime : R) : AFPSCharacter R :=
  let s := { s with
    Velocity := s.Velocity + ((-s.WallNormalVector).scale DeltaTime).scale s.WallRunSpeed }
  let s := { s with
    Velocity := s.Velocity +
      ((-s.GravityDirection).scale (DeltaTime * s.Mass * s.WallRunCounterGravity)).scale (4 / 10) }
  { s with
    Velocity := s.Velocity +
      ((s.WallPerpendicularNormalVector.scale DeltaTime).scale s.WallRunSpeed).scale (2 / 10) }

/-- The callback of `AirControlResetTimer` set in `StopWallRun`. -/
def AirControlResetCallback (s : AFPSCharacter R) : AFPSCharacter R :=
  { s with AirControl := 7 / 10 }

/-- Member function `AFPSCharacter::StopWallRun`. -/
def StopWallRun (s : AFPSCharacter R) : AFPSCharacter R :=
  let s := { s with
    Velocity := s.Velocity + (s.WallNormalVector.scale s.WallRunSpeed).scale s.DeltaSeconds }
  let s := { s with bIsWallrunning := false, CurrentWall := none }
  if s.IsFalling then
    let s := { s with GravityScale := 15 / 10, AirControl := 1 / 10 }
    let s :=
      if s.AirControlResetTimer.Valid then
        { s with AirControlResetTimer := s.AirControlResetTimer.ClearTimer }
      else s
    { s with AirControlResetTimer := s.AirControlResetTimer.SetTimer (4 / 10) }
  else s

/-- Member function `AFPSCharacter::WallJump`. -/
def WallJump (s : AFPSCharacter R) : AFPSCharacter R :=
  if s.bIsWallrunning then
    let s := s.StopWallRun
    s.LaunchCharacter
      (((FVector.UpVector : FVector R).scale 1 +
          (FVector.VectorPlaneProject s.WallNormalVector FVector.UpVector).scale 2).scale
        s.WallJumpForce)
      false true
  else s

/-- Member function `AFPSCharacter::OnJumpLand`. -/
def OnJumpLand (m : MathLib R) (s : AFPSCharacter R) (_Hit : FHitResult R) : AFPSCharacter R :=
  let s := if s.bIsCrouching then StartSlide m s else { s with bAppliedSlideForce := false }
  let s := if s.bIsWallrunning then s.StopWallRun else s
  { s with AirJumpCount := s.AirJumpMax, GravityScale := 1 }

/-- Member function `AFPSCharacter::AirJump`. -/
def AirJump (s : AFPSCharacter R) : AFPSCharacter R :=
  let s := { s with GravityScale := 15 / 10 }
  if s.IsFalling && !s.bIsWallrunning && decide (s.AirJumpCount > 0) then
    let Location : FVector R := { s.ActorLocation with Z := s.ActorLocation.Z - 55 }
    let s := { s with SpawnedEmitters := Location :: s.SpawnedEmitters }
    let s := s.LaunchCharacter (s.ActorUpVector.scale s.JumpZVelocity) false true
    { s with AirJumpCount := s.AirJumpCount - 1 }
  else s

/-- The callback of `WallRunTimer` set in `OnLineWallTraceHit`. -/
def WallRunTimerCallback (s : AFPSCharacter R) : AFPSCharacter R := s.StopWallRun

/-- Member function `AFPSCharacter::OnLineWallTraceHit`. -/
def OnLineWallTraceHit (m : MathLib R) (s : AFPSCharacter R) (Hit : FHitResult R) :
    AFPSCharacter R :=
  let s :=
    if Hit.Component.isSome && s.CurrentWall.isSome && decide (Hit.Component = s.CurrentWall) then
      let s :=
        if s.WallRunTimer.Valid then { s with WallRunTimer := s.WallRunTimer.ClearTimer } else s
      { s with WallRunTimer := s.WallRunTimer.SetTimer (1 / 10) }
    else s
  if IsWall Hit.Normal then StartWallRun m s Hit else s

/-- Member function `AFPSCharacter::OnComponentHitCharacter`: broadcasts the hit on
`WallLineTraceDelegate`, to which `BeginPlay` binds `OnLineWallTraceHit`. -/
def OnComponentHitCharacter (m : MathLib R) (s : AFPSCharacter R) (Hit : FHitResult R) :
    AFPSCharacter R :=
  OnLineWallTraceHit m s Hit

/-- Member function `AFPSCharacter::Tick`. -/
def Tick (m : MathLib R) (s : AFPSCharacter R) (DeltaTime : R) : AFPSCharacter R :=
  let s :=
    if s.bIsCrouching then
      let s := if !s.bIsWallrunning then s.SmoothCameraTilt (-3) s.SlideCameraTiltSpeed DeltaTime
               else s
      let s := s.GradualCrouch s.CrouchScale DeltaTime
      if s.IsMovingOnGround && s.bJumpAllowed then
        let ProjectedVector :=
          FVector.VectorPlaneProject (FVector.DownVector : FVector R) s.CurrentFloorNormal
        let s := { s with
          Velocity := s.Velocity +
            ((ProjectedVector.scale
                (Abs (FVector.DotProduct s.ActorForwardVector
                  (ProjectedVector.GetSafeNormal2D m)))).scale DeltaTime).scale 10000 }
        (GradualSlide m s DeltaTime).1
      else s
    else
      let s := if !s.bIsWallrunning then s.SmoothCameraTilt 0 s.SlideCameraTiltSpeed DeltaTime
               else s
      s.GradualCrouch s.NormalScale.Z DeltaTime
  if s.bIsWallrunning then
    let s := s.WallRun DeltaTime
    s.SmoothCameraTilt (s.WallRunTiltDirection * s.WallRunCameraTiltAngle)
      s.WallRunTransitionSpeed DeltaTime
  else s

end AFPSCharacter

/-! ## Events

The character is driven by the engine: input actions, delegates, timers and the
frame tick call its member functions, and between two calls the engine's
movement update changes the fields it owns. -/

/-- What a movement update of the engine may change: the fields of the
movement component, of the actor transform and of the world that the engine
owns.  `ACharacter::Jump` (bound to the jump action) only acts through such an
update. -/
structure EngineUpdate (R : Type) where
  Velocity : FVector R
  MovementMode : EMovementMode
  Mass : R
  GravityDirection : FVector R
  CurrentFloorNormal : FVector R
  bJumpAllowed : Bool
  PendingLaunchVelocity : FVector R
  ActorLocation : FVector R
  ActorRightVector : FVector R
  ActorForwardVector : FVector R
  ActorUpVector : FVector R
  ControlInputVector : FVector R
  DeltaSeconds : R

/-- The calls the engine makes into the character. -/
inductive Event (R : Type) where
  | BeginPlay
  | Tick (DeltaTime : R)
  | Walk (Input : FVector R)
  | Look (Input : R × R)
  | WallJump
  | AirJump
  | StartCrouch
  | StopCrouch
  | OnComponentHitCharacter (Hit : FHitResult R)
  | OnJumpLand (Hit : FHitResult R)
  | StartWallRun (Hit : FHitResult R)
  | StopWallRun
  | WallRunTimerFire
  | AirControlResetTimerFire
  | Engine (u : EngineUpdate R)

section Events

variable {R : Type} [LinearOrderedField R]

/-- The engine's movement update: overwrites the engine-owned fields. -/
def AFPSCharacter.ApplyEngineUpdate (s : AFPSCharacter R) (u : EngineUpdate R) :
    AFPSCharacter R :=
  { s with
    Velocity := u.Velocity
    MovementMode := u.MovementMode
    Mass := u.Mass
    GravityDirection := u.GravityDirection
    CurrentFloorNormal := u.CurrentFloorNormal
    bJumpAllowed := u.bJumpAllowed
    PendingLaunchVelocity := u.PendingLaunchVelocity
    ActorLocation := u.ActorLocation
    ActorRightVector := u.ActorRightVector
    ActorForwardVector := u.ActorForwardVector
    ActorUpVector := u.ActorUpVector
    ControlInputVector := u.ControlInputVector
    DeltaSeconds := u.DeltaSeconds }

/-- One event: the member function it calls.  A timer event runs the timer's
callback if the timer is pending and does nothing otherwise. -/
def step (m : MathLib R) (s : AFPSCharacter R) : Event R → AFPSCharacter R
  | Event.BeginPlay => s.BeginPlay
  | Event.Tick DeltaTime => s.Tick m DeltaTime
  | Event.Walk Input => s.Walk m Input
  | Event.Look Input => s.Look Input
  | Event.WallJump => s.WallJump
  | Event.AirJump => s.AirJump
  | Event.StartCrouch => s.StartCrouch m
  | Event.StopCrouch => s.StopCrouch
  | Event.OnComponentHitCharacter Hit => s.OnComponentHitCharacter m Hit
  | Event.OnJumpLand Hit => s.OnJumpLand m Hit
  | Event.StartWallRun Hit => s.StartWallRun m Hit
  | Event.StopWallRun => s.StopWallRun
  | Event.WallRunTimerFire =>
      if s.WallRunTimer.Pending then
        AFPSCharacter.WallRunTimerCallback { s with WallRunTimer := s.WallRunTimer.Fired }
      else s
  | Event.AirControlResetTimerFire =>
      if s.AirControlResetTimer.Pending then
        AFPSCharacter.AirControlResetCallback
          { s with AirControlResetTimer := s.AirControlResetTimer.Fired }
      else s
  | Event.Engine u => s.ApplyEngineUpdate u

/-- A finite sequence of events, oldest first. -/
def run (m : MathLib R) (s : AFPSCharacter R) (es : List (Event R)) : AFPSCharacter R :=
  es.foldl (step m) s

/-- The event reaches `StartSlide` with its condition true, that is, it applies
the one-time slide impulse: `StartCrouch` on the ground, or `OnJumpLand` while
crouching. -/
def AppliesSlideImpulse (s : AFPSCharacter R) : Event R → Bool
  | Event.StartCrouch => s.IsMovingOnGround && s.StartSlideGuard
  | Event.OnJumpLand _ => s.bIsCrouching && s.StartSlideGuard
  | _ => false

/-- The event is a landing, or a `StopCrouch` issued on the ground. -/
def IsLandingOrGroundedStopCrouch (s : AFPSCharacter R) : Event R → Bool
  | Event.OnJumpLand _ => true
  | Event.StopCrouch => s.IsMovingOnGround
  | _ => false

/-- No event of the sequence, run from `s`, is a landing or a `StopCrouch`
issued on the ground. -/
def NoLandingOrGroundedStopCrouch (m : MathLib R) :
    AFPSCharacter R → List (Event R) → Bool
  | _, [] => true
  | s, e :: es =>
      !IsLandingOrGroundedStopCrouch s e && NoLandingOrGroundedStopCrouch m (step m s e) es

/-- The bounds of the air-jump counter: between 0 and `AirJumpMax`. -/
def AirJumpInv (s : AFPSCharacter R) : Prop :=
  0 ≤ s.AirJumpCount ∧ s.AirJumpCount ≤ s.AirJumpMax

/-- The event is an `OnJumpLand`. -/
def Event.IsOnJumpLand : Event R → Bool
  | Event.OnJumpLand _ => true
  | _ => false

end Events

/-! ## A rational instance

The definitions run on the rationals.  The sample math library takes square
roots through integer square roots; its `sin` and `cos` are the rational parametrisation of
the unit circle, with the angle unit chosen so that `PI / 2` is the quarter
turn. -/

/-- Integer square root by upward search from `k`, at most `fuel` steps: the
first `k` with `n < (k + 1) * (k + 1)`. -/
def natSqrtFrom : Nat → Nat → Nat → Nat
  | 0, k, _ => k
  | fuel + 1, k, n => if n < (k + 1) * (k + 1) then k else natSqrtFrom fuel (k + 1) n

/-- Integer square root. -/
def natSqrt (n : Nat) : Nat := natSqrtFrom n 0 n

/-- Square root on the rationals through the integer square roots of numerator
and denominator. -/
def ratSqrt (q : ℚ) : ℚ := (natSqrt q.num.natAbs : ℚ) / (natSqrt q.den : ℚ)

/-- A math library on the rationals. -/
def ratMath : MathLib ℚ where
  sqrt := ratSqrt
  sin := fun x => (2 * (x / 2)) / (1 + (x / 2) * (x / 2))
  cos := fun x => (1 - (x / 2) * (x / 2)) / (1 + (x / 2) * (x / 2))
  PI := 4

/-- A character at rest at the origin, upright, walking on flat ground, with
all members zero or empty; `sampleCharacter` builds on it. -/
def blankCharacter : AFPSCharacter ℚ where
  CrouchScale := 0
  NormalScale := ⟨0, 0, 0⟩
  WalkSpeed := 0
  CrouchSpeed := 0
  SlideForce := 0
  GradualSlideForce := 0
  GradualSlideForceTime := 0
  SlideFriction := 0
  WallRunCounterGravity := 0
  WallRunSpeed := 0
  WallJumpForce := 0
  WallRunAirControl := 0
  AirJumpMax := 0
  AirStrafeMagnitude := 0
  SlideCameraTiltSpeed := 0
  CrouchTransitionSpeed := 0
  WallRunTransitionSpeed := 0
  WallRunCameraTiltAngle := 0
  AirJumpCount := 0
  bIsCrouching := false
  bAppliedSlideForce := false
  bIsWallrunning := false
  WallNormalVector := ⟨0, 0, 0⟩
  WallPerpendicularNormalVector := ⟨0, 0, 0⟩
  WallRunTiltDirection := 0
  CurrentWall := none
  AddVelocityMag := 0
  MinSlideSpeed := 0
  WalkingInput := ⟨0, 0, 0⟩
  AirControlResetTimer := ⟨false, false, 0⟩
  WallRunTimer := ⟨false, false, 0⟩
  Velocity := ⟨0, 0, 0⟩
  MovementMode := EMovementMode.MOVE_Walking
  GravityScale := 1
  AirControl := 0
  GroundFriction := 8
  BrakingFrictionFactor := 2
  MaxWalkSpeed := 0
  JumpZVelocity := 0
  Mass := 100
  GravityDirection := ⟨0, 0, -1⟩
  CurrentFloorNormal := ⟨0, 0, 1⟩
  bJumpAllowed := true
  PendingLaunchVelocity := ⟨0, 0, 0⟩
  ActorLocation := ⟨0, 0, 0⟩
  ActorScale3D := ⟨1, 1, 1⟩
  ActorRightVector := ⟨0, 1, 0⟩
  ActorForwardVector := ⟨1, 0, 0⟩
  ActorUpVector := ⟨0, 0, 1⟩
  ControlInputVector := ⟨0, 0, 0⟩
  CameraRoll := 0
  DeltaSeconds := 1 / 100
  SpawnedEmitters := []

/-- The character as constructed with the header's property defaults, standing
on flat ground. -/
def sampleCharacter : AFPSCharacter ℚ := AFPSCharacter.ctor (AFPSCharacter.headerDefaults blankCharacter)

/-- The sample character in the air, moving forward at 600 units per second and
falling at 100. -/
def sampleFalling : AFPSCharacter ℚ :=
  { sampleCharacter with MovementMode := EMovementMode.MOVE_Falling, Velocity := ⟨600, 0, -100⟩ }

/-- The sample character running forward on the ground at 600 units per
second. -/
def sampleRunning : AFPSCharacter ℚ :=
  { sampleCharacter with Velocity := ⟨600, 0, 0⟩ }

/-- A contact with a vertical wall to the left of the sample character,
component 7. -/
def sampleWallHit : FHitResult ℚ := ⟨some 7, ⟨0, 1, 0⟩⟩

/-- The falling sample character after touching the sample wall: it runs along
the wall. -/
def sampleWallRunning : AFPSCharacter ℚ :=
  AFPSCharacter.OnComponentHitCharacter ratMath sampleFalling sampleWallHit

/-- Half of the wall-run bookkeeping: outside a wall run no wall is tracked. -/
def NoWallOutsideWallRun {R : Type} (s : AFPSCharacter R) : Prop :=
  s.bIsWallrunning = false → s.CurrentWall = none

/-- The wall-run bookkeeping: a wall is tracked exactly during a wall run. -/
def WallTrackedIffWallRun {R : Type} (s : AFPSCharacter R) : Prop :=
  s.CurrentWall = none ↔ s.bIsWallrunning = false

/-- The hit carried by the event, if any, names its component (the pointer is
not null). -/
def Event.HitHasComponent {R : Type} : Event R → Bool
  | Event.OnComponentHitCharacter Hit => Hit.Component.isSome
  | Event.OnJumpLand Hit => Hit.Component.isSome
  | Event.StartWallRun Hit => Hit.Component.isSome
  | _ => true

/-- Engine `FVector::CrossProduct`; it is the zero vector exactly for parallel
vectors. -/
def FVector.CrossProduct {R : Type} [LinearOrderedField R] (a b : FVector R) : FVector R :=
  ⟨a.Y * b.Z - a.Z * b.Y, a.Z * b.X - a.X * b.Z, a.X * b.Y - a.Y * b.X⟩

/-- The constructed default character, with wall-run air control `w`, after it
fell, touched wall 7, wall-jumped and was launched by the engine: it is falling,
no wall run is active and the air-control reset timer armed by `StopWallRun`
is pending. -/
def sampleAfterWallJump (w : ℚ) : AFPSCharacter ℚ :=
  run ratMath
    (AFPSCharacter.ctor { AFPSCharacter.headerDefaults blankCharacter with WallRunAirControl := w })
    [Event.Engine ⟨⟨600, 0, -100⟩, EMovementMode.MOVE_Falling, 100, ⟨0, 0, -1⟩, ⟨0, 0, 1⟩,
        true, ⟨0, 0, 0⟩, ⟨0, 0, 200⟩, ⟨0, 1, 0⟩, ⟨1, 0, 0⟩, ⟨0, 0, 1⟩, ⟨0, 0, 0⟩, 1 / 100⟩,
      Event.OnComponentHitCharacter ⟨some 7, ⟨0, 1, 0⟩⟩,
      Event.WallJump,
      Event.Engine ⟨⟨600, 850, 420⟩, EMovementMode.MOVE_Falling, 100, ⟨0, 0, -1⟩, ⟨0, 0, 1⟩,
        true, ⟨0, 0, 0⟩, ⟨0, 0, 200⟩, ⟨0, 1, 0⟩, ⟨1, 0, 0⟩, ⟨0, 0, 1⟩, ⟨0, 0, 0⟩, 1 / 100⟩]

/-- The constructed default character after `BeginPlay`, a crouch press while
standing still and one long frame (0.2 s): crouched, with camera roll and
Z scale at their crouch targets -3 and 0.75. -/
def sampleCrouchedSteady : AFPSCharacter ℚ :=
  run ratMath (AFPSCharacter.ctor (AFPSCharacter.headerDefaults blankCharacter))
    [Event.BeginPlay, Event.StartCrouch, Event.Tick (1 / 5)]

/-- The math library `ratMath` with a `PI` slightly larger than twice its
quarter turn, as the engine's single-precision `PI` is slightly larger than
the circle constant: `cos (PI / 2)` is a small negative number (about
-4.4e-8) and `sin (PI / 2)` is slightly less than 1, while `sin 0 = 0`,
`cos 0 = 1` and `sin x * sin x + cos x * cos x = 1` hold exactly. -/
def ratMathWidePI : MathLib ℚ := { ratMath with PI := 4 + 7 / 40000000 }

/-! ### Frame lemmas: members a function leaves alone -/

section Frames

variable {R : Type} [LinearOrderedField R]

open AFPSCharacter

@[simp]
theorem LaunchCharacter_AirJumpMax (s : AFPSCharacter R) (L : FVector R) (b1 b2 : Bool) :
    (s.LaunchCharacter L b1 b2).AirJumpMax = s.AirJumpMax := by
  simp only [LaunchCharacter, apply_ite Prod.fst, apply_ite AFPSCharacter.AirJumpMax,
    ite_self]

@[simp]
theorem AddMovementInput_AirJumpMax (s : AFPSCharacter R) (W : FVector R) :
    (s.AddMovementInput W).AirJumpMax = s.AirJumpMax := by
  simp only [AddMovementInput, apply_ite Prod.fst, apply_ite AFPSCharacter.AirJumpMax,
    ite_self]

@[simp]
theorem BeginPlay_AirJumpMax (s : AFPSCharacter R) :
    s.BeginPlay.AirJumpMax = s.AirJumpMax := by
  simp only [BeginPlay, apply_ite Prod.fst, apply_ite AFPSCharacter.AirJumpMax,
    ite_self]

@[simp]
theorem AirAccelerate_AirJumpMax (m : MathLib R) (s : AFPSCharacter R) (W : FVector R) :
    (AirAccelerate m s W).AirJumpMax = s.AirJumpMax := by
  simp only [AirAccelerate, apply_ite Prod.fst, apply_ite AFPSCharacter.AirJumpMax,
    ite_self]

@[simp]
theorem Walk_AirJumpMax (m : MathLib R) (s : AFPSCharacter R) (W : FVector R) :
    (Walk m s W).AirJumpMax = s.AirJumpMax := by
  simp only [Walk, AirAccelerate_AirJumpMax, AddMovementInput_AirJumpMax, apply_ite Prod.fst, apply_ite AFPSCharacter.AirJumpMax,
    ite_self]

@[simp]
theorem StartSlide_AirJumpMax (m : MathLib R) (s : AFPSCharacter R) :
    (StartSlide m s).AirJumpMax = s.AirJumpMax := by
  simp only [StartSlide, apply_ite Prod.fst, apply_ite AFPSCharacter.AirJumpMax,
    ite_self]

@[simp]
theorem StartCrouch_AirJumpMax (m : MathLib R) (s : AFPSCharacter R) :
    (StartCrouch m s).AirJumpMax = s.AirJumpMax := by
  simp only [StartCrouch, StartSlide_AirJumpMax, apply_ite Prod.fst, apply_ite AFPSCharacter.AirJumpMax,
    ite_self]

@[simp]
theorem StopCrouch_AirJumpMax (s : AFPSCharacter R) :
    s.StopCrouch.AirJumpMax = s.AirJumpMax := by
  simp only [StopCrouch, apply_ite Prod.fst, apply_ite AFPSCharacter.AirJumpMax,
    ite_self]

@[simp]
theorem GradualCrouch_AirJumpMax (s : AFPSCharacter R) (z d : R) :
    (s.GradualCrouch z d).AirJumpMax = s.AirJumpMax := by
  simp only [GradualCrouch, apply_ite Prod.fst, apply_ite AFPSCharacter.AirJumpMax,
    ite_self]

@[simp]
theorem GradualSlide_AirJumpMax (m : MathLib R) (s : AFPSCharacter R) (d : R) :
    (GradualSlide m s d).1.AirJumpMax = s.AirJumpMax := by
  simp only [GradualSlide, apply_ite Prod.fst, apply_ite AFPSCharacter.AirJumpMax,
    ite_self]

@[simp]
theorem SmoothCameraTilt_AirJumpMax (s : AFPSCharacter R) (a b d : R) :
    (s.SmoothCameraTilt a b d).AirJumpMax = s.AirJumpMax := by
  simp only [SmoothCameraTilt, apply_ite Prod.fst, apply_ite AFPSCharacter.AirJumpMax,
    ite_self]

@[simp]
theorem WallRun_AirJumpMax (s : AFPSCharacter R) (d : R) :
    (s.WallRun d).AirJumpMax = s.AirJumpMax := by
  simp only [WallRun, apply_ite Prod.fst, apply_ite AFPSCharacter.AirJumpMax,
    ite_self]

@[simp]
theorem StopWallRun_AirJumpMax (s : AFPSCharacter R) :
    s.StopWallRun.AirJumpMax = s.AirJumpMax := by
  simp only [StopWallRun, apply_ite Prod.fst, apply_ite AFPSCharacter.AirJumpMax,
    ite_self]

@[simp]
theorem WallJump_AirJumpMax (s : AFPSCharacter R) :
    s.WallJump.AirJumpMax = s.AirJumpMax := by
  simp only [WallJump, StopWallRun_AirJumpMax, LaunchCharacter_AirJumpMax, apply_ite Prod.fst, apply_ite AFPSCharacter.AirJumpMax,
    ite_self]

@[simp]
theorem StartWallRun_AirJumpMax (m : MathLib R) (s : AFPSCharacter R) (H : FHitResult R) :
    (StartWallRun m s H).AirJumpMax = s.AirJumpMax := by
  simp only [StartWallRun, apply_ite Prod.fst, apply_ite AFPSCharacter.AirJumpMax,
    ite_self]

@[simp]
theorem OnLineWallTraceHit_AirJumpMax (m : MathLib R) (s : AFPSCharacter R) (H : FHitResult R) :
    (OnLineWallTraceHit m s H).AirJumpMax = s.AirJumpMax := by
  simp only [OnLineWallTraceHit, StartWallRun_AirJumpMax, apply_ite Prod.fst, apply_ite AFPSCharacter.AirJumpMax,
    ite_self]

@[simp]
theorem OnJumpLand_AirJumpMax (m : MathLib R) (s : AFPSCharacter R) (H : FHitResult R) :
    (OnJumpLand m s H).AirJumpMax = s.AirJumpMax := by
  simp only [OnJumpLand, StartSlide_AirJumpMax, StopWallRun_AirJumpMax, apply_ite Prod.fst, apply_ite AFPSCharacter.AirJumpMax,
    ite_self]

@[simp]
theorem AirJump_AirJumpMax (s : AFPSCharacter R) :
    s.AirJump.AirJumpMax = s.AirJumpMax := by
  simp only [AirJump, LaunchCharacter_AirJumpMax, apply_ite Prod.fst, apply_ite AFPSCharacter.AirJumpMax,
    ite_self]

@[simp]
theorem Tick_AirJumpMax (m : MathLib R) (s : AFPSCharacter R) (d : R) :
    (Tick m s d).AirJumpMax = s.AirJumpMax := by
  simp only [Tick, SmoothCameraTilt_AirJumpMax, GradualCrouch_AirJumpMax, GradualSlide_AirJumpMax, WallRun_AirJumpMax, apply_ite Prod.fst, apply_ite AFPSCharacter.AirJumpMax,
    ite_self]

@[simp]
theorem LaunchCharacter_AirJumpCount (s : AFPSCharacter R) (L : FVector R) (b1 b2 : Bool) :
    (s.LaunchCharacter L b1 b2).AirJumpCount = s.AirJumpCount := by
  simp only [LaunchCharacter, apply_ite Prod.fst, apply_ite AFPSCharacter.AirJumpCount,
    ite_self]

@[simp]
theorem AddMovementInput_AirJumpCount (s : AFPSCharacter R) (W : FVector R) :
    (s.AddMovementInput W).AirJumpCount = s.AirJumpCount := by
  simp only [AddMovementInput, apply_ite Prod.fst, apply_ite AFPSCharacter.AirJumpCount,
    ite_self]

@[simp]
theorem BeginPlay_AirJumpCount (s : AFPSCharacter R) :
    s.BeginPlay.AirJumpCount = s.AirJumpCount := by
  simp only [BeginPlay, apply_ite Prod.fst, apply_ite AFPSCharacter.AirJumpCount,
    ite_self]

@[simp]
theorem AirAccelerate_AirJumpCount (m : MathLib R) (s : AFPSCharacter R) (W : FVector R) :
    (AirAccelerate m s W).AirJumpCount = s.AirJumpCount := by
  simp only [AirAccelerate, apply_ite Prod.fst, apply_ite AFPSCharacter.AirJumpCount,
    ite_self]

@[simp]
theorem Walk_AirJumpCount (m : MathLib R) (s : AFPSCharacter R) (W : FVector R) :
    (Walk m s W).AirJumpCount = s.AirJumpCount := by
  simp only [Walk, AirAccelerate_AirJumpCount, AddMovementInput_AirJumpCount, apply_ite Prod.fst, apply_ite AFPSCharacter.AirJumpCount,
    ite_self]

@[simp]
theorem StartSlide_AirJumpCount (m : MathLib R) (s : AFPSCharacter R) :
    (StartSlide m s).AirJumpCount = s.AirJumpCount := by
  simp only [StartSlide, apply_ite Prod.fst, apply_ite AFPSCharacter.AirJumpCount,
    ite_self]

@[simp]
theorem StartCrouch_AirJumpCount (m : MathLib R) (s : AFPSCharacter R) :
    (StartCrouch m s).AirJumpCount = s.AirJumpCount := by
  simp only [StartCrouch, StartSlide_AirJumpCount, apply_ite Prod.fst, apply_ite AFPSCharacter.AirJumpCount,
    ite_self]

@[simp]
theorem StopCrouch_AirJumpCount (s : AFPSCharacter R) :
    s.StopCrouch.AirJumpCount = s.AirJumpCount := by
  simp only [StopCrouch, apply_ite Prod.fst, apply_ite AFPSCharacter.AirJumpCount,
    ite_self]

@[simp]
theorem GradualCrouch_AirJumpCount (s : AFPSCharacter R) (z d : R) :
    (s.GradualCrouch z d).AirJumpCount = s.AirJumpCount := by
  simp only [GradualCrouch, apply_ite Prod.fst, apply_ite AFPSCharacter.AirJumpCount,
    ite_self]

@[simp]
theorem GradualSlide_AirJumpCount (m : MathLib R) (s : AFPSCharacter R) (d : R) :
    (GradualSlide m s d).1.AirJumpCount = s.AirJumpCount := by
  simp only [GradualSlide, apply_ite Prod.fst, apply_ite AFPSCharacter.AirJumpCount,
    ite_self]

@[simp]
theorem SmoothCameraTilt_AirJumpCount (s : AFPSCharacter R) (a b d : R) :
    (s.SmoothCameraTilt a b d).AirJumpCount = s.AirJumpCount := by
  simp only [SmoothCameraTilt, apply_ite Prod.fst, apply_ite AFPSCharacter.AirJumpCount,
    ite_self]

@[simp]
theorem WallRun_AirJumpCount (s : AFPSCharacter R) (d : R) :
    (s.WallRun d).AirJumpCount = s.AirJumpCount := by
  simp only [WallRun, apply_ite Prod.fst, apply_ite AFPSCharacter.AirJumpCount,
    ite_self]

@[simp]
theorem StopWallRun_AirJumpCount (s : AFPSCharacter R) :
    s.StopWallRun.AirJumpCount = s.AirJumpCount := by
  simp only [StopWallRun, apply_ite Prod.fst, apply_ite AFPSCharacter.AirJumpCount,
    ite_self]

@[simp]
theorem WallJump_AirJumpCount (s : AFPSCharacter R) :
    s.WallJump.AirJumpCount = s.AirJumpCount := by
  simp only [WallJump, StopWallRun_AirJumpCount, LaunchCharacter_AirJumpCount, apply_ite Prod.fst, apply_ite AFPSCharacter.AirJumpCount,
    ite_self]

@[simp]
theorem Tick_AirJumpCount (m : MathLib R) (s : AFPSCharacter R) (d : R) :
    (Tick m s d).AirJumpCount = s.AirJumpCount := by
  simp only [Tick, SmoothCameraTilt_AirJumpCount, GradualCrouch_AirJumpCount, GradualSlide_AirJumpCount, WallRun_AirJumpCount, apply_ite Prod.fst, apply_ite AFPSCharacter.AirJumpCount,
    ite_self]

@[simp]
theorem LaunchCharacter_bIsCrouching (s : AFPSCharacter R) (L : FVector R) (b1 b2 : Bool) :
    (s.LaunchCharacter L b1 b2).bIsCrouching = s.bIsCrouching := by
  simp only [LaunchCharacter, apply_ite Prod.fst, apply_ite AFPSCharacter.bIsCrouching,
    ite_self]

@[simp]
theorem AddMovementInput_bIsCrouching (s : AFPSCharacter R) (W : FVector R) :
    (s.AddMovementInput W).bIsCrouching = s.bIsCrouching := by
  simp only [AddMovementInput, apply_ite Prod.fst, apply_ite AFPSCharacter.bIsCrouching,
    ite_self]

@[simp]
theorem BeginPlay_bIsCrouching (s : AFPSCharacter R) :
    s.BeginPlay.bIsCrouching = s.bIsCrouching := by
  simp only [BeginPlay, apply_ite Prod.fst, apply_ite AFPSCharacter.bIsCrouching,
    ite_self]

@[simp]
theorem AirAccelerate_bIsCrouching (m : MathLib R) (s : AFPSCharacter R) (W : FVector R) :
    (AirAccelerate m s W).bIsCrouching = s.bIsCrouching := by
  simp only [AirAccelerate, apply_ite Prod.fst, apply_ite AFPSCharacter.bIsCrouching,
    ite_self]

@[simp]
theorem Walk_bIsCrouching (m : MathLib R) (s : AFPSCharacter R) (W : FVector R) :
    (Walk m s W).bIsCrouching = s.bIsCrouching := by
  simp only [Walk, AirAccelerate_bIsCrouching, AddMovementInput_bIsCrouching, apply_ite Prod.fst, apply_ite AFPSCharacter.bIsCrouching,
    ite_self]

@[simp]
theorem StartSlide_bIsCrouching (m : MathLib R) (s : AFPSCharacter R) :
    (StartSlide m s).bIsCrouching = s.bIsCrouching := by
  simp only [StartSlide, apply_ite Prod.fst, apply_ite AFPSCharacter.bIsCrouching,
    ite_self]

@[simp]
theorem GradualCrouch_bIsCrouching (s : AFPSCharacter R) (z d : R) :
    (s.GradualCrouch z d).bIsCrouching = s.bIsCrouching := by
  simp only [GradualCrouch, apply_ite Prod.fst, apply_ite AFPSCharacter.bIsCrouching,
    ite_self]

@[simp]
theorem GradualSlide_bIsCrouching (m : MathLib R) (s : AFPSCharacter R) (d : R) :
    (GradualSlide m s d).1.bIsCrouching = s.bIsCrouching := by
  simp only [GradualSlide, apply_ite Prod.fst, apply_ite AFPSCharacter.bIsCrouching,
    ite_self]

@[simp]
theorem SmoothCameraTilt_bIsCrouching (s : AFPSCharacter R) (a b d : R) :
    (s.SmoothCameraTilt a b d).bIsCrouching = s.bIsCrouching := by
  simp only [SmoothCameraTilt, apply_ite Prod.fst, apply_ite AFPSCharacter.bIsCrouching,
    ite_self]

@[simp]
theorem WallRun_bIsCrouching (s : AFPSCharacter R) (d : R) :
    (s.WallRun d).bIsCrouching = s.bIsCrouching := by
  simp only [WallRun, apply_ite Prod.fst, apply_ite AFPSCharacter.bIsCrouching,
    ite_self]

@[simp]
theorem StopWallRun_bIsCrouching (s : AFPSCharacter R) :
    s.StopWallRun.bIsCrouching = s.bIsCrouching := by
  simp only [StopWallRun, apply_ite Prod.fst, apply_ite AFPSCharacter.bIsCrouching,
    ite_self]

@[simp]
theorem WallJump_bIsCrouching (s : AFPSCharacter R) :
    s.WallJump.bIsCrouching = s.bIsCrouching := by
  simp only [WallJump, StopWallRun_bIsCrouching, LaunchCharacter_bIsCrouching, apply_ite Prod.fst, apply_ite AFPSCharacter.bIsCrouching,
    ite_self]

@[simp]
theorem StartWallRun_bIsCrouching (m : MathLib R) (s : AFPSCharacter R) (H : FHitResult R) :
    (StartWallRun m s H).bIsCrouching = s.bIsCrouching := by
  simp only [StartWallRun, apply_ite Prod.fst, apply_ite AFPSCharacter.bIsCrouching,
    ite_self]

@[simp]
theorem OnLineWallTraceHit_bIsCrouching (m : MathLib R) (s : AFPSCharacter R) (H : FHitResult R) :
    (OnLineWallTraceHit m s H).bIsCrouching = s.bIsCrouching := by
  simp only [OnLineWallTraceHit, StartWallRun_bIsCrouching, apply_ite Prod.fst, apply_ite AFPSCharacter.bIsCrouching,
    ite_self]

@[simp]
theorem OnJumpLand_bIsCrouching (m : MathLib R) (s : AFPSCharacter R) (H : FHitResult R) :
    (OnJumpLand m s H).bIsCrouching = s.bIsCrouching := by
  simp only [OnJumpLand, StartSlide_bIsCrouching, StopWallRun_bIsCrouching, apply_ite Prod.fst, apply_ite AFPSCharacter.bIsCrouching,
    ite_self]

@[simp]
theorem AirJump_bIsCrouching (s : AFPSCharacter R) :
    s.AirJump.bIsCrouching = s.bIsCrouching := by
  simp only [AirJump, LaunchCharacter_bIsCrouching, apply_ite Prod.fst, apply_ite AFPSCharacter.bIsCrouching,
    ite_self]

@[simp]
theorem Tick_bIsCrouching (m : MathLib R) (s : AFPSCharacter R) (d : R) :
    (Tick m s d).bIsCrouching = s.bIsCrouching := by
  simp only [Tick, SmoothCameraTilt_bIsCrouching, GradualCrouch_bIsCrouching, GradualSlide_bIsCrouching, WallRun_bIsCrouching, apply_ite Prod.fst, apply_ite AFPSCharacter.bIsCrouching,
    ite_self]

@[simp]
theorem LaunchCharacter_bAppliedSlideForce (s : AFPSCharacter R) (L : FVector R) (b1 b2 : Bool) :
    (s.LaunchCharacter L b1 b2).bAppliedSlideForce = s.bAppliedSlideForce := by
  simp only [LaunchCharacter, apply_ite Prod.fst, apply_ite AFPSCharacter.bAppliedSlideForce,
    ite_self]

@[simp]
theorem AddMovementInput_bAppliedSlideForce (s : AFPSCharacter R) (W : FVector R) :
    (s.AddMovementInput W).bAppliedSlideForce = s.bAppliedSlideForce := by
  simp only [AddMovementInput, apply_ite Prod.fst, apply_ite AFPSCharacter.bAppliedSlideForce,
    ite_self]

@[simp]
theorem BeginPlay_bAppliedSlideForce (s : AFPSCharacter R) :
    s.BeginPlay.bAppliedSlideForce = s.bAppliedSlideForce := by
  simp only [BeginPlay, apply_ite Prod.fst, apply_ite AFPSCharacter.bAppliedSlideForce,
    ite_self]

@[simp]
theorem AirAccelerate_bAppliedSlideForce (m : MathLib R) (s : AFPSCharacter R) (W : FVector R) :
    (AirAccelerate m s W).bAppliedSlideForce = s.bAppliedSlideForce := by
  simp only [AirAccelerate, apply_ite Prod.fst, apply_ite AFPSCharacter.bAppliedSlideForce,
    ite_self]

@[simp]
theorem Walk_bAppliedSlideForce (m : MathLib R) (s : AFPSCharacter R) (W : FVector R) :
    (Walk m s W).bAppliedSlideForce = s.bAppliedSlideForce := by
  simp only [Walk, AirAccelerate_bAppliedSlideForce, AddMovementInput_bAppliedSlideForce, apply_ite Prod.fst, apply_ite AFPSCharacter.bAppliedSlideForce,
    ite_self]

@[simp]
theorem GradualCrouch_bAppliedSlideForce (s : AFPSCharacter R) (z d : R) :
    (s.GradualCrouch z d).bAppliedSlideForce = s.bAppliedSlideForce := by
  simp only [GradualCrouch, apply_ite Prod.fst, apply_ite AFPSCharacter.bAppliedSlideForce,
    ite_self]

@[simp]
theorem GradualSlide_bAppliedSlideForce (m : MathLib R) (s : AFPSCharacter R) (d : R) :
    (GradualSlide m s d).1.bAppliedSlideForce = s.bAppliedSlideForce := by
  simp only [GradualSlide, apply_ite Prod.fst, apply_ite AFPSCharacter.bAppliedSlideForce,
    ite_self]

@[simp]
theorem SmoothCameraTilt_bAppliedSlideForce (s : AFPSCharacter R) (a b d : R) :
    (s.SmoothCameraTilt a b d).bAppliedSlideForce = s.bAppliedSlideForce := by
  simp only [SmoothCameraTilt, apply_ite Prod.fst, apply_ite AFPSCharacter.bAppliedSlideForce,
    ite_self]

@[simp]
theorem WallRun_bAppliedSlideForce (s : AFPSCharacter R) (d : R) :
    (s.WallRun d).bAppliedSlideForce = s.bAppliedSlideForce := by
  simp only [WallRun, apply_ite Prod.fst, apply_ite AFPSCharacter.bAppliedSlideForce,
    ite_self]

@[simp]
theorem StopWallRun_bAppliedSlideForce (s : AFPSCharacter R) :
    s.StopWallRun.bAppliedSlideForce = s.bAppliedSlideForce := by
  simp only [StopWallRun, apply_ite Prod.fst, apply_ite AFPSCharacter.bAppliedSlideForce,
    ite_self]

@[simp]
theorem WallJump_bAppliedSlideForce (s : AFPSCharacter R) :
    s.WallJump.bAppliedSlideForce = s.bAppliedSlideForce := by
  simp only [WallJump, StopWallRun_bAppliedSlideForce, LaunchCharacter_bAppliedSlideForce, apply_ite Prod.fst, apply_ite AFPSCharacter.bAppliedSlideForce,
    ite_self]

@[simp]
theorem StartWallRun_bAppliedSlideForce (m : MathLib R) (s : AFPSCharacter R) (H : FHitResult R) :
    (StartWallRun m s H).bAppliedSlideForce = s.bAppliedSlideForce := by
  simp only [StartWallRun, apply_ite Prod.fst, apply_ite AFPSCharacter.bAppliedSlideForce,
    ite_self]

@[simp]
theorem OnLineWallTraceHit_bAppliedSlideForce (m : MathLib R) (s : AFPSCharacter R) (H : FHitResult R) :
    (OnLineWallTraceHit m s H).bAppliedSlideForce = s.bAppliedSlideForce := by
  simp only [OnLineWallTraceHit, StartWallRun_bAppliedSlideForce, apply_ite Prod.fst, apply_ite AFPSCharacter.bAppliedSlideForce,
    ite_self]

@[simp]
theorem AirJump_bAppliedSlideForce (s : AFPSCharacter R) :
    s.AirJump.bAppliedSlideForce = s.bAppliedSlideForce := by
  simp only [AirJump, LaunchCharacter_bAppliedSlideForce, apply_ite Prod.fst, apply_ite AFPSCharacter.bAppliedSlideForce,
    ite_self]

@[simp]
theorem Tick_bAppliedSlideForce (m : MathLib R) (s : AFPSCharacter R) (d : R) :
    (Tick m s d).bAppliedSlideForce = s.bAppliedSlideForce := by
  simp only [Tick, SmoothCameraTilt_bAppliedSlideForce, GradualCrouch_bAppliedSlideForce, GradualSlide_bAppliedSlideForce, WallRun_bAppliedSlideForce, apply_ite Prod.fst, apply_ite AFPSCharacter.bAppliedSlideForce,
    ite_self]

@[simp]
theorem LaunchCharacter_MinSlideSpeed (s : AFPSCharacter R) (L : FVector R) (b1 b2 : Bool) :
    (s.LaunchCharacter L b1 b2).MinSlideSpeed = s.MinSlideSpeed := by
  simp only [LaunchCharacter, apply_ite Prod.fst, apply_ite AFPSCharacter.MinSlideSpeed,
    ite_self]

@[simp]
theorem AddMovementInput_MinSlideSpeed (s : AFPSCharacter R) (W : FVector R) :
    (s.AddMovementInput W).MinSlideSpeed = s.MinSlideSpeed := by
  simp only [AddMovementInput, apply_ite Prod.fst, apply_ite AFPSCharacter.MinSlideSpeed,
    ite_self]

@[simp]
theorem BeginPlay_MinSlideSpeed (s : AFPSCharacter R) :
    s.BeginPlay.MinSlideSpeed = s.MinSlideSpeed := by
  simp only [BeginPlay, apply_ite Prod.fst, apply_ite AFPSCharacter.MinSlideSpeed,
    ite_self]

@[simp]
theorem AirAccelerate_MinSlideSpeed (m : MathLib R) (s : AFPSCharacter R) (W : FVector R) :
    (AirAccelerate m s W).MinSlideSpeed = s.MinSlideSpeed := by
  simp only [AirAccelerate, apply_ite Prod.fst, apply_ite AFPSCharacter.MinSlideSpeed,
    ite_self]

@[simp]
theorem Walk_MinSlideSpeed (m : MathLib R) (s : AFPSCharacter R) (W : FVector R) :
    (Walk m s W).MinSlideSpeed = s.MinSlideSpeed := by
  simp only [Walk, AirAccelerate_MinSlideSpeed, AddMovementInput_MinSlideSpeed, apply_ite Prod.fst, apply_ite AFPSCharacter.MinSlideSpeed,
    ite_self]

@[simp]
theorem StartSlide_MinSlideSpeed (m : MathLib R) (s : AFPSCharacter R) :
    (StartSlide m s).MinSlideSpeed = s.MinSlideSpeed := by
  simp only [StartSlide, apply_ite Prod.fst, apply_ite AFPSCharacter.MinSlideSpeed,
    ite_self]

@[simp]
theorem StartCrouch_MinSlideSpeed (m : MathLib R) (s : AFPSCharacter R) :
    (StartCrouch m s).MinSlideSpeed = s.MinSlideSpeed := by
  simp only [StartCrouch, StartSlide_MinSlideSpeed, apply_ite Prod.fst, apply_ite AFPSCharacter.MinSlideSpeed,
    ite_self]

@[simp]
theorem StopCrouch_MinSlideSpeed (s : AFPSCharacter R) :
    s.StopCrouch.MinSlideSpeed = s.MinSlideSpeed := by
  simp only [StopCrouch, apply_ite Prod.fst, apply_ite AFPSCharacter.MinSlideSpeed,
    ite_self]

@[simp]
theorem GradualCrouch_MinSlideSpeed (s : AFPSCharacter R) (z d : R) :
    (s.GradualCrouch z d).MinSlideSpeed = s.MinSlideSpeed := by
  simp only [GradualCrouch, apply_ite Prod.fst, apply_ite AFPSCharacter.MinSlideSpeed,
    ite_self]

@[simp]
theorem GradualSlide_MinSlideSpeed (m : MathLib R) (s : AFPSCharacter R) (d : R) :
    (GradualSlide m s d).1.MinSlideSpeed = s.MinSlideSpeed := by
  simp only [GradualSlide, apply_ite Prod.fst, apply_ite AFPSCharacter.MinSlideSpeed,
    ite_self]

@[simp]
theorem SmoothCameraTilt_MinSlideSpeed (s : AFPSCharacter R) (a b d : R) :
    (s.SmoothCameraTilt a b d).MinSlideSpeed = s.MinSlideSpeed := by
  simp only [SmoothCameraTilt, apply_ite Prod.fst, apply_ite AFPSCharacter.MinSlideSpeed,
    ite_self]

@[simp]
theorem WallRun_MinSlideSpeed (s : AFPSCharacter R) (d : R) :
    (s.WallRun d).MinSlideSpeed = s.MinSlideSpeed := by
  simp only [WallRun, apply_ite Prod.fst, apply_ite AFPSCharacter.MinSlideSpeed,
    ite_self]

@[simp]
theorem StopWallRun_MinSlideSpeed (s : AFPSCharacter R) :
    s.StopWallRun.MinSlideSpeed = s.MinSlideSpeed := by
  simp only [StopWallRun, apply_ite Prod.fst, apply_ite AFPSCharacter.MinSlideSpeed,
    ite_self]

@[simp]
theorem WallJump_MinSlideSpeed (s : AFPSCharacter R) :
    s.WallJump.MinSlideSpeed = s.MinSlideSpeed := by
  simp only [WallJump, StopWallRun_MinSlideSpeed, LaunchCharacter_MinSlideSpeed, apply_ite Prod.fst, apply_ite AFPSCharacter.MinSlideSpeed,
    ite_self]

@[simp]
theorem StartWallRun_MinSlideSpeed (m : MathLib R) (s : AFPSCharacter R) (H : FHitResult R) :
    (StartWallRun m s H).MinSlideSpeed = s.MinSlideSpeed := by
  simp only [StartWallRun, apply_ite Prod.fst, apply_ite AFPSCharacter.MinSlideSpeed,
    ite_self]

@[simp]
theorem OnLineWallTraceHit_MinSlideSpeed (m : MathLib R) (s : AFPSCharacter R) (H : FHitResult R) :
    (OnLineWallTraceHit m s H).MinSlideSpeed = s.MinSlideSpeed := by
  simp only [OnLineWallTraceHit, StartWallRun_MinSlideSpeed, apply_ite Prod.fst, apply_ite AFPSCharacter.MinSlideSpeed,
    ite_self]

@[simp]
theorem OnJumpLand_MinSlideSpeed (m : MathLib R) (s : AFPSCharacter R) (H : FHitResult R) :
    (OnJumpLand m s H).MinSlideSpeed = s.MinSlideSpeed := by
  simp only [OnJumpLand, StartSlide_MinSlideSpeed, StopWallRun_MinSlideSpeed, apply_ite Prod.fst, apply_ite AFPSCharacter.MinSlideSpeed,
    ite_self]

@[simp]
theorem AirJump_MinSlideSpeed (s : AFPSCharacter R) :
    s.AirJump.MinSlideSpeed = s.MinSlideSpeed := by
  simp only [AirJump, LaunchCharacter_MinSlideSpeed, apply_ite Prod.fst, apply_ite AFPSCharacter.MinSlideSpeed,
    ite_self]

@[simp]
theorem Tick_MinSlideSpeed (m : MathLib R) (s : AFPSCharacter R) (d : R) :
    (Tick m s d).MinSlideSpeed = s.MinSlideSpeed := by
  simp only [Tick, SmoothCameraTilt_MinSlideSpeed, GradualCrouch_MinSlideSpeed, GradualSlide_MinSlideSpeed, WallRun_MinSlideSpeed, apply_ite Prod.fst, apply_ite AFPSCharacter.MinSlideSpeed,
    ite_self]
end Frames

/-! ## Verified properties -/

section Properties

variable {R : Type} [LinearOrderedField R]

open AFPSCharacter

/-! ### Wall classification -/

/-- C1: `IsWall` accepts a normal exactly when its Z component lies in the
closed interval from -0.01 to 0.5, whatever X and Y are; the normal (1,0,0) is
a wall and the floor normal (0,0,1) is not. -/
theorem IsWall_iff_Z_in_band :
    (∀ n : FVector R, IsWall n = true ↔ (-(1 / 100) ≤ n.Z ∧ n.Z ≤ 1 / 2)) ∧
      IsWall (⟨1, 0, 0⟩ : FVector R) = true ∧ IsWall (⟨0, 0, 1⟩ : FVector R) = false := by
  refine ⟨?_, ?_, ?_⟩
  · intro n
    simp only [IsWall, Bool.and_eq_true, decide_eq_true_eq, ge_iff_le]
    norm_num
  · simp only [IsWall, Bool.and_eq_true, decide_eq_true_eq, ge_iff_le]
    norm_num
  · simp only [IsWall, Bool.and_eq_false_iff, decide_eq_false_iff_not, ge_iff_le, not_le]
    right
    norm_num

end Properties

/-! ### The air-jump counter -/

section AirJumpCounter

variable {R : Type} [LinearOrderedField R]

open AFPSCharacter

theorem StartWallRun_AirJumpCount (m : MathLib R) (s : AFPSCharacter R) (H : FHitResult R) :
    (StartWallRun m s H).AirJumpCount =
      if s.IsFalling = true ∧ s.bIsWallrunning = false then s.AirJumpMax else s.AirJumpCount := by
  simp only [StartWallRun]
  cases hf : s.IsFalling <;> cases hw : s.bIsWallrunning <;> simp

theorem OnLineWallTraceHit_AirJumpCount (m : MathLib R) (s : AFPSCharacter R)
    (H : FHitResult R) :
    (OnLineWallTraceHit m s H).AirJumpCount =
      if IsWall H.Normal = true ∧ s.IsFalling = true ∧ s.bIsWallrunning = false then s.AirJumpMax
      else s.AirJumpCount := by
  simp only [OnLineWallTraceHit]
  cases hwall : IsWall H.Normal
  · simp [apply_ite AFPSCharacter.AirJumpCount]
  · simp only [if_true, StartWallRun_AirJumpCount, true_and]
    split_ifs <;> simp_all [IsFalling, apply_ite AFPSCharacter.AirJumpCount,
      apply_ite AFPSCharacter.AirJumpMax]

theorem OnJumpLand_AirJumpCount (m : MathLib R) (s : AFPSCharacter R) (H : FHitResult R) :
    (OnJumpLand m s H).AirJumpCount = s.AirJumpMax := by
  simp only [OnJumpLand, apply_ite AFPSCharacter.AirJumpMax, StopWallRun_AirJumpMax,
    StartSlide_AirJumpMax, ite_self]

theorem AirJump_AirJumpCount (s : AFPSCharacter R) :
    s.AirJump.AirJumpCount =
      if s.IsFalling = true ∧ s.bIsWallrunning = false ∧ 0 < s.AirJumpCount then
        s.AirJumpCount - 1
      else s.AirJumpCount := by
  simp only [AirJump, IsFalling, LaunchCharacter]
  split_ifs <;> simp_all

theorem step_AirJumpMax (m : MathLib R) (s : AFPSCharacter R) (e : Event R) :
    (step m s e).AirJumpMax = s.AirJumpMax := by
  cases e <;>
    simp [step, OnComponentHitCharacter, WallRunTimerCallback, AirControlResetCallback,
      ApplyEngineUpdate, Look, apply_ite AFPSCharacter.AirJumpMax]

theorem step_AirJumpInv (m : MathLib R) (s : AFPSCharacter R) (e : Event R)
    (h : AirJumpInv s) : AirJumpInv (step m s e) := by
  obtain ⟨h0, h1⟩ := h
  unfold AirJumpInv
  rw [step_AirJumpMax]
  cases e <;>
    simp only [step, OnComponentHitCharacter, WallRunTimerCallback, AirControlResetCallback,
      ApplyEngineUpdate, Look, BeginPlay_AirJumpCount, Tick_AirJumpCount, Walk_AirJumpCount,
      WallJump_AirJumpCount, StartCrouch_AirJumpCount, StopCrouch_AirJumpCount,
      StopWallRun_AirJumpCount, AirJump_AirJumpCount, OnJumpLand_AirJumpCount,
      OnLineWallTraceHit_AirJumpCount, StartWallRun_AirJumpCount,
      apply_ite AFPSCharacter.AirJumpCount, ite_self] <;>
    first
      | exact ⟨h0, h1⟩
      | exact ⟨le_trans h0 h1, le_refl _⟩
      | (split_ifs <;> constructor <;> omega)

theorem run_AirJumpInv (m : MathLib R) (es : List (Event R)) :
    ∀ s : AFPSCharacter R, AirJumpInv s →
      AirJumpInv (run m s es) ∧ (run m s es).AirJumpMax = s.AirJumpMax := by
  induction es with
  | nil => intro s h; exact ⟨h, rfl⟩
  | cons e es ih =>
    intro s h
    have h2 := ih (step m s e) (step_AirJumpInv m s e h)
    refine ⟨h2.1, ?_⟩
    have := h2.2
    rw [step_AirJumpMax] at this
    exact this

/-- C2: from the constructed state (counter equal to `AirJumpMax`, with
`AirJumpMax` not negative) every finite sequence of events leaves the air-jump
counter between 0 and `AirJumpMax`, and `AirJumpMax` itself never changes. -/
theorem AirJumpCount_within_bounds (m : MathLib R) (base : AFPSCharacter R)
    (es : List (Event R)) (hmax : 0 ≤ base.AirJumpMax) :
    (ctor base).AirJumpCount = base.AirJumpMax ∧
      0 ≤ (run m (ctor base) es).AirJumpCount ∧
      (run m (ctor base) es).AirJumpCount ≤ (run m (ctor base) es).AirJumpMax ∧
      (run m (ctor base) es).AirJumpMax = base.AirJumpMax := by
  have hinit : AirJumpInv (ctor base) := ⟨hmax, le_refl _⟩
  obtain ⟨⟨h0, h1⟩, h2⟩ := run_AirJumpInv m es (ctor base) hinit
  exact ⟨rfl, h0, h1, h2⟩

/-- Witness for C2: the default character through a run with air jumps, a
wall contact, a landing and timer firings. -/
theorem AirJumpCount_within_bounds_witness :
    (0 : Int) ≤ (AFPSCharacter.headerDefaults blankCharacter).AirJumpMax ∧
      0 ≤ (run ratMath sampleCharacter
        [Event.Engine ⟨⟨600, 0, -100⟩, EMovementMode.MOVE_Falling, 100, ⟨0, 0, -1⟩, ⟨0, 0, 1⟩,
            true, ⟨0, 0, 0⟩, ⟨0, 0, 200⟩, ⟨0, 1, 0⟩, ⟨1, 0, 0⟩, ⟨0, 0, 1⟩, ⟨0, 0, 0⟩, 1 / 100⟩,
          Event.AirJump, Event.AirJump,
          Event.OnComponentHitCharacter ⟨some 7, ⟨0, 1, 0⟩⟩, Event.AirJump,
          Event.WallRunTimerFire, Event.AirJump, Event.OnJumpLand ⟨some 1, ⟨0, 0, 1⟩⟩,
          Event.AirControlResetTimerFire]).AirJumpCount := by
  have h := AirJumpCount_within_bounds ratMath (AFPSCharacter.headerDefaults blankCharacter)
    [Event.Engine ⟨⟨600, 0, -100⟩, EMovementMode.MOVE_Falling, 100, ⟨0, 0, -1⟩, ⟨0, 0, 1⟩,
        true, ⟨0, 0, 0⟩, ⟨0, 0, 200⟩, ⟨0, 1, 0⟩, ⟨1, 0, 0⟩, ⟨0, 0, 1⟩, ⟨0, 0, 0⟩, 1 / 100⟩,
      Event.AirJump, Event.AirJump,
      Event.OnComponentHitCharacter ⟨some 7, ⟨0, 1, 0⟩⟩, Event.AirJump,
      Event.WallRunTimerFire, Event.AirJump, Event.OnJumpLand ⟨some 1, ⟨0, 0, 1⟩⟩,
      Event.AirControlResetTimerFire] (by decide)
  exact ⟨by decide, h.2.1⟩

end AirJumpCounter

section AirJumpCalls

variable {R : Type} [LinearOrderedField R]

open AFPSCharacter

/-- C3: every landing resets the air-jump counter to `AirJumpMax` and the
gravity scale to 1, from any state; entering a wall run (falling, not yet wall
running) resets the counter to `AirJumpMax` as well. -/
theorem AirJumpCount_reset_on_land_and_wall_run (m : MathLib R) (s : AFPSCharacter R)
    (Hit : FHitResult R) :
    ((OnJumpLand m s Hit).AirJumpCount = s.AirJumpMax ∧
        (OnJumpLand m s Hit).AirJumpMax = s.AirJumpMax ∧
        (OnJumpLand m s Hit).GravityScale = 1) ∧
      (s.IsFalling = true → s.bIsWallrunning = false →
        (StartWallRun m s Hit).AirJumpCount = s.AirJumpMax ∧
          (StartWallRun m s Hit).AirJumpMax = s.AirJumpMax ∧
          (StartWallRun m s Hit).bIsWallrunning = true) := by
  refine ⟨⟨OnJumpLand_AirJumpCount m s Hit, OnJumpLand_AirJumpMax m s Hit, ?_⟩, ?_⟩
  · simp only [OnJumpLand]
  · intro hf hw
    refine ⟨?_, StartWallRun_AirJumpMax m s Hit, ?_⟩
    · rw [StartWallRun_AirJumpCount, if_pos ⟨hf, hw⟩]
    · simp [StartWallRun, hf, hw]

/-- Witness for C3: the falling sample character, with its air jump spent,
touches a wall. -/
theorem AirJumpCount_reset_on_land_and_wall_run_witness :
    sampleFalling.AirJump.IsFalling = true ∧ sampleFalling.AirJump.bIsWallrunning = false ∧
      sampleFalling.AirJump.AirJumpCount = 0 ∧
      (StartWallRun ratMath sampleFalling.AirJump ⟨some 7, ⟨0, 1, 0⟩⟩).AirJumpCount = 1 :=
  ⟨by decide, by decide, by decide,
    ((AirJumpCount_reset_on_land_and_wall_run ratMath sampleFalling.AirJump
      ⟨some 7, ⟨0, 1, 0⟩⟩).2 (by decide) (by decide)).1⟩

/-- C4: in a state that is falling, not wall running and has air jumps left,
with the character upright, `AirJump` takes exactly one jump off the counter,
sets the gravity scale to 1.5 and launches the character with the launch
velocity (v.x, v.y, JumpZVelocity): the horizontal velocity is kept and the
vertical velocity is replaced by `JumpZVelocity`.  When the engine handles the
launch, the horizontal velocity is unchanged and, for a non-zero
`JumpZVelocity`, the velocity is exactly that launch velocity. -/
theorem AirJump_launches (s : AFPSCharacter R) (hf : s.IsFalling = true)
    (hw : s.bIsWallrunning = false) (hc : 0 < s.AirJumpCount)
    (hup : s.ActorUpVector = ⟨0, 0, 1⟩) :
    s.AirJump.AirJumpCount = s.AirJumpCount - 1 ∧
      s.AirJump.GravityScale = 15 / 10 ∧
      s.AirJump.PendingLaunchVelocity = ⟨s.Velocity.X, s.Velocity.Y, s.JumpZVelocity⟩ ∧
      s.AirJump.Velocity = s.Velocity ∧
      s.AirJump.HandlePendingLaunch.Velocity.X = s.Velocity.X ∧
      s.AirJump.HandlePendingLaunch.Velocity.Y = s.Velocity.Y ∧
      (s.JumpZVelocity ≠ 0 →
        s.AirJump.HandlePendingLaunch.Velocity = ⟨s.Velocity.X, s.Velocity.Y, s.JumpZVelocity⟩) := by
  have hf2 : s.MovementMode = EMovementMode.MOVE_Falling := by
    simpa [IsFalling] using hf
  have hp : s.AirJump.PendingLaunchVelocity = ⟨s.Velocity.X, s.Velocity.Y, s.JumpZVelocity⟩ := by
    simp [AirJump, IsFalling, LaunchCharacter, hf2, hw, hc, hup, FVector.scale]
  have hv : s.AirJump.Velocity = s.Velocity := by
    simp [AirJump, IsFalling, LaunchCharacter, hf2, hw, hc]
  refine ⟨?_, ?_, hp, hv, ?_, ?_, ?_⟩
  · rw [AirJump_AirJumpCount, if_pos ⟨hf, hw, hc⟩]
  · simp [AirJump, IsFalling, LaunchCharacter, hf2, hw, hc]
  · unfold HandlePendingLaunch
    split_ifs with hz
    · rw [hv]
    · simp [hp]
  · unfold HandlePendingLaunch
    split_ifs with hz
    · rw [hv]
    · simp [hp]
  · intro hj
    have hz : ¬ (s.AirJump.PendingLaunchVelocity.IsZero = true) := by
      simp [hp, FVector.IsZero, hj]
    unfold HandlePendingLaunch
    rw [if_neg hz]
    exact hp

/-- Witness for C4: the falling sample character air-jumps. -/
theorem AirJump_launches_witness :
    sampleFalling.IsFalling = true ∧ sampleFalling.bIsWallrunning = false ∧
      0 < sampleFalling.AirJumpCount ∧ sampleFalling.ActorUpVector = ⟨0, 0, 1⟩ ∧
      sampleFalling.AirJump.AirJumpCount = sampleFalling.AirJumpCount - 1 ∧
      sampleFalling.AirJump.PendingLaunchVelocity =
        ⟨sampleFalling.Velocity.X, sampleFalling.Velocity.Y, sampleFalling.JumpZVelocity⟩ :=
  ⟨by decide, by decide, by decide, by decide,
    (AirJump_launches sampleFalling (by decide) (by decide) (by decide) (by decide)).1,
    (AirJump_launches sampleFalling (by decide) (by decide) (by decide) (by decide)).2.2.1⟩

/-- C5, as stated, fails: on the ground (not falling) `AirJump` still raises
the gravity scale from 1 to 1.5, so the state does not stay unchanged. -/
theorem AirJump_not_noop_on_ground :
    sampleCharacter.IsFalling = false ∧ sampleCharacter.GravityScale = 1 ∧
      sampleCharacter.AirJump.GravityScale = 15 / 10 ∧
      sampleCharacter.AirJump ≠ sampleCharacter := by
  have h1 : sampleCharacter.GravityScale = 1 := rfl
  have h2 : sampleCharacter.AirJump.GravityScale = 15 / 10 := rfl
  refine ⟨by decide, h1, h2, ?_⟩
  intro h
  rw [h, h1] at h2
  norm_num at h2

/-- C5, amended: outside its valid conditions (not falling, or wall running,
or no air jump left) `AirJump` changes the gravity scale, set to 1.5, and
nothing else: velocity, pending launch, counter, air control, flags and every
other member are unchanged. -/
theorem AirJump_outside_conditions (s : AFPSCharacter R)
    (h : s.IsFalling = false ∨ s.bIsWallrunning = true ∨ s.AirJumpCount ≤ 0) :
    s.AirJump = { s with GravityScale := 15 / 10 } := by
  simp only [AirJump, IsFalling]
  rw [if_neg]
  simp only [IsFalling] at h
  simp only [Bool.and_eq_true, decide_eq_true_eq, Bool.not_eq_true', not_and, not_lt]
  rintro ⟨h1, h2⟩
  rcases h with h | h | h
  · simp [h1] at h
  · simp [h2] at h
  · exact h

/-- Witness for C5 (amended): the standing sample character presses jump. -/
theorem AirJump_outside_conditions_witness :
    sampleCharacter.IsFalling = false ∧
      sampleCharacter.AirJump = { sampleCharacter with GravityScale := 15 / 10 } :=
  ⟨by decide, AirJump_outside_conditions sampleCharacter (Or.inl (by decide))⟩

end AirJumpCalls

/-! ### Air acceleration -/

section AirStrafe

variable {R : Type} [LinearOrderedField R]

open AFPSCharacter

/-- The clamped wish speed of `AirAccelerate` is the minimum of the length of
the wish vector and 30. -/
theorem wishSpeed_clamp (x : R) : (if x > 30 then 30 else x) = min x 30 := by
  split_ifs with h
  · exact (min_eq_right (le_of_lt h)).symm
  · exact (min_eq_left (not_lt.mp h)).symm

/-- C6: if the clamped wish speed min(|w|, 30) minus the projection of the
horizontal velocity on the safe-normalised wish direction is not positive,
`AirAccelerate` changes nothing, the velocity in particular; this covers the
zero wish vector (whose safe normal is the zero vector) for a math library
with sqrt 0 = 0. -/
theorem AirAccelerate_noop_when_addSpeed_nonpositive (m : MathLib R) (s : AFPSCharacter R)
    (w : FVector R) :
    (min (w.Length m) 30 -
          FVector.DotProduct (w.GetSafeNormal m) ⟨s.Velocity.X, s.Velocity.Y, 0⟩ ≤ 0 →
        AirAccelerate m s w = s ∧ (AirAccelerate m s w).Velocity = s.Velocity) ∧
      (m.sqrt 0 = 0 →
        FVector.GetSafeNormal m (⟨0, 0, 0⟩ : FVector R) = ⟨0, 0, 0⟩ ∧
          AirAccelerate m s ⟨0, 0, 0⟩ = s) := by
  have key : ∀ w : FVector R,
      min (w.Length m) 30 -
          FVector.DotProduct (w.GetSafeNormal m) ⟨s.Velocity.X, s.Velocity.Y, 0⟩ ≤ 0 →
        AirAccelerate m s w = s := by
    intro w h
    simp only [AirAccelerate, wishSpeed_clamp]
    rw [if_pos h]
  refine ⟨fun h => ⟨key w h, by rw [key w h]⟩, ?_⟩
  intro h0
  have hn : FVector.GetSafeNormal m (⟨0, 0, 0⟩ : FVector R) = ⟨0, 0, 0⟩ := by
    simp [FVector.GetSafeNormal, FVector.SizeSquared, SMALL_NUMBER, FVector.ZeroVector]
  refine ⟨hn, key _ ?_⟩
  rw [hn]
  simp [FVector.Length, FVector.SizeSquared, FVector.DotProduct, h0]

/-- Witness for C6: the falling sample character already moves forward at 600,
so a forward wish vector of length 100 adds nothing. -/
theorem AirAccelerate_noop_when_addSpeed_nonpositive_witness :
    min (FVector.Length ratMath (⟨100, 0, 0⟩ : FVector ℚ)) 30 -
          FVector.DotProduct (FVector.GetSafeNormal ratMath (⟨100, 0, 0⟩ : FVector ℚ))
            ⟨sampleFalling.Velocity.X, sampleFalling.Velocity.Y, 0⟩ ≤ 0 ∧
      ratMath.sqrt 0 = 0 ∧
      AirAccelerate ratMath sampleFalling ⟨100, 0, 0⟩ = sampleFalling ∧
      AirAccelerate ratMath sampleFalling ⟨0, 0, 0⟩ = sampleFalling :=
  ⟨by decide!, by decide!,
    ((AirAccelerate_noop_when_addSpeed_nonpositive ratMath sampleFalling ⟨100, 0, 0⟩).1
      (by decide!)).1,
    ((AirAccelerate_noop_when_addSpeed_nonpositive ratMath sampleFalling ⟨100, 0, 0⟩).2
      (by decide!)).2⟩

/-- C7, as stated, fails on the `Walk` path: two inputs giving wish vectors of
the same direction and of lengths 50 and 100, both above 30, give different
velocities from the same state and frame delta, because the velocity increment
is scaled by the unclamped length of the stored `WalkingInput`. -/
theorem Walk_velocity_depends_on_wish_length :
    (Walk ratMath sampleFalling ⟨1 / 20, 0, 0⟩).WalkingInput = ⟨0, 50, 0⟩ ∧
      (Walk ratMath sampleFalling ⟨1 / 10, 0, 0⟩).WalkingInput = ⟨0, 100, 0⟩ ∧
      FVector.Length ratMath (⟨0, 50, 0⟩ : FVector ℚ) = 50 ∧
      FVector.Length ratMath (⟨0, 100, 0⟩ : FVector ℚ) = 100 ∧
      FVector.GetSafeNormal ratMath (⟨0, 50, 0⟩ : FVector ℚ) = ⟨0, 1, 0⟩ ∧
      FVector.GetSafeNormal ratMath (⟨0, 100, 0⟩ : FVector ℚ) = ⟨0, 1, 0⟩ ∧
      (Walk ratMath sampleFalling ⟨1 / 20, 0, 0⟩).Velocity = ⟨600, 1001 / 200, -100⟩ ∧
      (Walk ratMath sampleFalling ⟨1 / 10, 0, 0⟩).Velocity = ⟨600, 1001 / 100, -100⟩ ∧
      (Walk ratMath sampleFalling ⟨1 / 20, 0, 0⟩).Velocity ≠
        (Walk ratMath sampleFalling ⟨1 / 10, 0, 0⟩).Velocity := by
  decide!

/-- C7, amended: in `AirAccelerate` the wish speed is capped at 30.  From one
state (the stored `WalkingInput` and the frame delta included), two wish
vectors with the same safe normal and lengths above 30 give the same result,
which is the one computed with wish speed 30: no change if 30 minus the
projected speed is not positive, otherwise an increment along the wish
direction scaled by the length of the stored `WalkingInput`. -/
theorem AirAccelerate_wish_speed_capped (m : MathLib R) (s : AFPSCharacter R)
    (w1 w2 : FVector R) (h1 : 30 < w1.Length m) (h2 : 30 < w2.Length m)
    (hd : w1.GetSafeNormal m = w2.GetSafeNormal m) :
    AirAccelerate m s w1 = AirAccelerate m s w2 ∧
      AirAccelerate m s w1 =
        if 30 - FVector.DotProduct (w1.GetSafeNormal m) ⟨s.Velocity.X, s.Velocity.Y, 0⟩ ≤ 0
        then s
        else { s with Velocity := s.Velocity +
          (((((w1.GetSafeNormal m).scale (s.WalkingInput.Length m * s.DeltaSeconds)).scale
            10).scale s.AirStrafeMagnitude).scale (143 / 100)).scale s.AirControl } := by
  have key : ∀ w : FVector R, 30 < w.Length m →
      AirAccelerate m s w =
        if 30 - FVector.DotProduct (w.GetSafeNormal m) ⟨s.Velocity.X, s.Velocity.Y, 0⟩ ≤ 0
        then s
        else { s with Velocity := s.Velocity +
          (((((w.GetSafeNormal m).scale (s.WalkingInput.Length m * s.DeltaSeconds)).scale
            10).scale s.AirStrafeMagnitude).scale (143 / 100)).scale s.AirControl } := by
    intro w h
    simp only [AirAccelerate, wishSpeed_clamp, min_eq_right (le_of_lt h)]
  refine ⟨?_, key w1 h1⟩
  rw [key w1 h1, key w2 h2, hd]

/-- Witness for C7 (amended): wish vectors of lengths 50 and 100 to the right
of the falling sample character. -/
theorem AirAccelerate_wish_speed_capped_witness :
    30 < FVector.Length ratMath (⟨0, 50, 0⟩ : FVector ℚ) ∧
      30 < FVector.Length ratMath (⟨0, 100, 0⟩ : FVector ℚ) ∧
      FVector.GetSafeNormal ratMath (⟨0, 50, 0⟩ : FVector ℚ) =
        FVector.GetSafeNormal ratMath ⟨0, 100, 0⟩ ∧
      AirAccelerate ratMath sampleFalling ⟨0, 50, 0⟩ =
        AirAccelerate ratMath sampleFalling ⟨0, 100, 0⟩ :=
  ⟨by decide!, by decide!, by decide!,
    (AirAccelerate_wish_speed_capped ratMath sampleFalling ⟨0, 50, 0⟩ ⟨0, 100, 0⟩ (by decide!)
      (by decide!) (by decide!)).1⟩

end AirStrafe

/-! ### Slide entry -/

section SlideEntry

variable {R : Type} [LinearOrderedField R]

open AFPSCharacter

theorem GetSafeNormal2D_Z (m : MathLib R) (a : FVector R) : (a.GetSafeNormal2D m).Z = 0 := by
  unfold FVector.GetSafeNormal2D
  split_ifs with h1 h2 h3
  · exact h2
  · rfl
  · rfl
  · rfl

theorem add_X (a b : FVector R) : (a + b).X = a.X + b.X := rfl

theorem add_Y (a b : FVector R) : (a + b).Y = a.Y + b.Y := rfl

theorem add_Z (a b : FVector R) : (a + b).Z = a.Z + b.Z := rfl

theorem StartSlide_of_guard (m : MathLib R) (s : AFPSCharacter R)
    (h : s.StartSlideGuard = true) :
    StartSlide m s =
      { s with Velocity := s.Velocity + (s.Velocity.GetSafeNormal2D m).scale s.SlideForce
               bAppliedSlideForce := true
               AddVelocityMag := s.GradualSlideForce } := by
  unfold StartSlide
  rw [if_pos h]

theorem StartSlide_of_not_guard (m : MathLib R) (s : AFPSCharacter R)
    (h : s.StartSlideGuard = false) : StartSlide m s = s := by
  unfold StartSlide
  rw [if_neg (by simp [h])]

theorem StartSlideGuard_iff (s : AFPSCharacter R) :
    s.StartSlideGuard = true ↔
      (s.Velocity.SizeSquared2D > s.MinSlideSpeed * s.MinSlideSpeed ∧
        s.bAppliedSlideForce = false) := by
  simp [StartSlideGuard]

/-- What `StartCrouch` does to the slide members: the slide entry if the
character is on the ground and the condition of `StartSlide` holds, nothing
otherwise. -/
theorem StartCrouch_slide (m : MathLib R) (s : AFPSCharacter R) :
    ((s.IsMovingOnGround = true ∧ s.StartSlideGuard = true) →
        (StartCrouch m s).Velocity =
            s.Velocity + (s.Velocity.GetSafeNormal2D m).scale s.SlideForce ∧
          (StartCrouch m s).bAppliedSlideForce = true ∧
          (StartCrouch m s).AddVelocityMag = s.GradualSlideForce) ∧
      (¬ (s.IsMovingOnGround = true ∧ s.StartSlideGuard = true) →
        (StartCrouch m s).Velocity = s.Velocity ∧
          (StartCrouch m s).bAppliedSlideForce = s.bAppliedSlideForce ∧
          (StartCrouch m s).AddVelocityMag = s.AddVelocityMag) := by
  constructor
  · rintro ⟨hg, hs⟩
    have hg2 : (decide (s.MovementMode = EMovementMode.MOVE_Walking) ||
        decide (s.MovementMode = EMovementMode.MOVE_NavWalking)) = true := hg
    have hs2 : (decide (s.Velocity.SizeSquared2D > s.MinSlideSpeed * s.MinSlideSpeed) &&
        !s.bAppliedSlideForce) = true := hs
    simp only [StartCrouch, IsMovingOnGround, StartSlide, StartSlideGuard, hg2, hs2, if_true]
    refine ⟨?_, ?_, ?_⟩ <;> trivial
  · intro h
    by_cases hg : s.IsMovingOnGround = true
    · have hs : ¬ ((decide (s.Velocity.SizeSquared2D > s.MinSlideSpeed * s.MinSlideSpeed) &&
          !s.bAppliedSlideForce) = true) := fun hs => h ⟨hg, hs⟩
      have hg2 : (decide (s.MovementMode = EMovementMode.MOVE_Walking) ||
          decide (s.MovementMode = EMovementMode.MOVE_NavWalking)) = true := hg
      simp only [StartCrouch, IsMovingOnGround, StartSlide, StartSlideGuard, hg2, if_true,
        if_neg hs]
      refine ⟨?_, ?_, ?_⟩ <;> trivial
    · have hg2 : ¬ ((decide (s.MovementMode = EMovementMode.MOVE_Walking) ||
          decide (s.MovementMode = EMovementMode.MOVE_NavWalking)) = true) := hg
      simp only [StartCrouch, IsMovingOnGround, if_neg hg2]
      refine ⟨?_, ?_, ?_⟩ <;> trivial

/-- C8: on the ground, with horizontal speed squared strictly above
`MinSlideSpeed` squared and no slide force applied yet, `StartCrouch` adds the
impulse normalize2D(v) * SlideForce to the velocity v, sets
`bAppliedSlideForce` and arms `AddVelocityMag` with `GradualSlideForce`; the
vertical velocity is unchanged, and (for a square root r of the horizontal
speed squared, above the normalisation tolerance) the horizontal velocity is
the old one scaled by (r + SlideForce) / r, of squared length
(r + SlideForce)^2.  If one of the three conditions fails, speed squared equal
to the threshold included, velocity, `bAppliedSlideForce` and `AddVelocityMag`
are unchanged. -/
theorem StartCrouch_slide_entry (m : MathLib R) (s : AFPSCharacter R) :
    ((s.IsMovingOnGround = true ∧
          s.Velocity.SizeSquared2D > s.MinSlideSpeed * s.MinSlideSpeed ∧
          s.bAppliedSlideForce = false) →
        (StartCrouch m s).Velocity =
            s.Velocity + (s.Velocity.GetSafeNormal2D m).scale s.SlideForce ∧
          (StartCrouch m s).Velocity.Z = s.Velocity.Z ∧
          (StartCrouch m s).bAppliedSlideForce = true ∧
          (StartCrouch m s).AddVelocityMag = s.GradualSlideForce ∧
          (∀ r : R, m.sqrt s.Velocity.SizeSquared2D = r → r * r = s.Velocity.SizeSquared2D →
            0 < r → SMALL_NUMBER ≤ s.Velocity.SizeSquared2D →
            (StartCrouch m s).Velocity.X = s.Velocity.X * ((r + s.SlideForce) / r) ∧
              (StartCrouch m s).Velocity.Y = s.Velocity.Y * ((r + s.SlideForce) / r) ∧
              (StartCrouch m s).Velocity.SizeSquared2D =
                (r + s.SlideForce) * (r + s.SlideForce))) ∧
      (¬ (s.IsMovingOnGround = true ∧
          s.Velocity.SizeSquared2D > s.MinSlideSpeed * s.MinSlideSpeed ∧
          s.bAppliedSlideForce = false) →
        (StartCrouch m s).Velocity = s.Velocity ∧
          (StartCrouch m s).bAppliedSlideForce = s.bAppliedSlideForce ∧
          (StartCrouch m s).AddVelocityMag = s.AddVelocityMag) ∧
      (s.Velocity.SizeSquared2D = s.MinSlideSpeed * s.MinSlideSpeed →
        (StartCrouch m s).Velocity = s.Velocity ∧
          (StartCrouch m s).bAppliedSlideForce = s.bAppliedSlideForce ∧
          (StartCrouch m s).AddVelocityMag = s.AddVelocityMag) := by
  have hno : ¬ (s.IsMovingOnGround = true ∧
      s.Velocity.SizeSquared2D > s.MinSlideSpeed * s.MinSlideSpeed ∧
      s.bAppliedSlideForce = false) →
      (StartCrouch m s).Velocity = s.Velocity ∧
        (StartCrouch m s).bAppliedSlideForce = s.bAppliedSlideForce ∧
        (StartCrouch m s).AddVelocityMag = s.AddVelocityMag := by
    intro h
    refine (StartCrouch_slide m s).2 ?_
    rintro ⟨hg, hs⟩
    exact h ⟨hg, (StartSlideGuard_iff s).mp hs⟩
  refine ⟨?_, hno, ?_⟩
  · rintro ⟨hg, hv, hflag⟩
    obtain ⟨e1, e2, e3⟩ :=
      (StartCrouch_slide m s).1 ⟨hg, (StartSlideGuard_iff s).mpr ⟨hv, hflag⟩⟩
    refine ⟨e1, ?_, e2, e3, ?_⟩
    · rw [e1, add_Z]
      simp [FVector.scale, GetSafeNormal2D_Z]
    · intro r hr hrr hpos htol
      have hr0 : r ≠ 0 := ne_of_gt hpos
      rw [e1]
      by_cases h1 : s.Velocity.SizeSquared2D = 1
      · have hr1 : r = 1 := by
          have h2 : (r - 1) * (r + 1) = 0 := by
            have : r * r = 1 := by rw [hrr, h1]
            linear_combination this
          rcases mul_eq_zero.mp h2 with h3 | h3
          · linarith
          · linarith
        have hn : s.Velocity.GetSafeNormal2D m = ⟨s.Velocity.X, s.Velocity.Y, 0⟩ := by
          unfold FVector.GetSafeNormal2D
          rw [if_pos h1]
          split_ifs with hz
          · ext <;> simp [hz]
          · rfl
        rw [hn, hr1]
        simp only [add_X, add_Y, FVector.scale, FVector.SizeSquared2D] at *
        refine ⟨by ring, by ring, ?_⟩
        linear_combination (1 + s.SlideForce) * (1 + s.SlideForce) * h1
      · have hn : s.Velocity.GetSafeNormal2D m =
            ⟨s.Velocity.X * (1 / r), s.Velocity.Y * (1 / r), 0⟩ := by
          unfold FVector.GetSafeNormal2D
          rw [if_neg h1, if_neg (not_lt.mpr htol)]
          simp only [InvSqrt, hr]
        rw [hn]
        simp only [add_X, add_Y, FVector.scale, FVector.SizeSquared2D] at *
        refine ⟨by field_simp; ring, by field_simp; ring, ?_⟩
        have : (s.Velocity.X + s.Velocity.X * (1 / r) * s.SlideForce) *
              (s.Velocity.X + s.Velocity.X * (1 / r) * s.SlideForce) +
            (s.Velocity.Y + s.Velocity.Y * (1 / r) * s.SlideForce) *
              (s.Velocity.Y + s.Velocity.Y * (1 / r) * s.SlideForce) =
            (s.Velocity.X * s.Velocity.X + s.Velocity.Y * s.Velocity.Y) *
              (((r + s.SlideForce) / r) * ((r + s.SlideForce) / r)) := by
          field_simp
          ring
        rw [this, ← hrr]
        field_simp
  · intro heq
    refine hno ?_
    rintro ⟨_, hv, _⟩
    exact absurd heq (ne_of_gt hv)

/-- Witness for C8: the sample character runs at 600 on the ground (threshold
500, slide force 1000) and crouches: its velocity becomes (1600, 0, 0). -/
theorem StartCrouch_slide_entry_witness :
    (sampleRunning.IsMovingOnGround = true ∧
        sampleRunning.Velocity.SizeSquared2D >
          sampleRunning.MinSlideSpeed * sampleRunning.MinSlideSpeed ∧
        sampleRunning.bAppliedSlideForce = false) ∧
      ratMath.sqrt sampleRunning.Velocity.SizeSquared2D = 600 ∧
      (StartCrouch ratMath sampleRunning).Velocity = ⟨1600, 0, 0⟩ ∧
      (StartCrouch ratMath sampleRunning).Velocity.SizeSquared2D =
        (600 + sampleRunning.SlideForce) * (600 + sampleRunning.SlideForce) :=
  ⟨by decide!, by decide!, by decide!,
    (((StartCrouch_slide_entry ratMath sampleRunning).1 (by decide!)).2.2.2.2 600 (by decide!)
      (by decide!) (by decide!) (by decide!)).2.2⟩

end SlideEntry

/-! ### One slide impulse per crouch cycle -/

section SlideCycle

variable {R : Type} [LinearOrderedField R]

open AFPSCharacter

theorem StartCrouch_bIsCrouching (m : MathLib R) (s : AFPSCharacter R) :
    (StartCrouch m s).bIsCrouching = true := by
  simp only [StartCrouch, apply_ite AFPSCharacter.bIsCrouching, StartSlide_bIsCrouching,
    ite_self]

theorem StartSlide_flag_of_flag (m : MathLib R) (s : AFPSCharacter R)
    (h : s.bAppliedSlideForce = true) : (StartSlide m s).bAppliedSlideForce = true := by
  rw [StartSlide_of_not_guard m s (by simp [StartSlideGuard, h])]
  exact h

theorem StartCrouch_flag_of_flag (m : MathLib R) (s : AFPSCharacter R)
    (h : s.bAppliedSlideForce = true) : (StartCrouch m s).bAppliedSlideForce = true := by
  have h2 := (StartCrouch_slide m s).2 (by simp [StartSlideGuard, h])
  rw [h2.2.1]
  exact h

theorem OnJumpLand_flag_of_crouching (m : MathLib R) (s : AFPSCharacter R) (H : FHitResult R)
    (hc : s.bIsCrouching = true) (h : s.bAppliedSlideForce = true) :
    (OnJumpLand m s H).bAppliedSlideForce = true := by
  simp only [OnJumpLand, hc, if_true, apply_ite AFPSCharacter.bAppliedSlideForce,
    StopWallRun_bAppliedSlideForce, ite_self]
  exact StartSlide_flag_of_flag m s h

/-- The slide flag of the state after one event, for the events that do not
reach `StartSlide` or reset the flag. -/
theorem step_flag_frame (m : MathLib R) (s : AFPSCharacter R) (e : Event R)
    (h1 : e ≠ Event.StartCrouch) (h2 : e ≠ Event.StopCrouch) (h3 : e.IsOnJumpLand = false) :
    (step m s e).bAppliedSlideForce = s.bAppliedSlideForce ∧
      (step m s e).bIsCrouching = s.bIsCrouching := by
  cases e with
  | StartCrouch => exact absurd rfl h1
  | StopCrouch => exact absurd rfl h2
  | OnJumpLand H => simp [Event.IsOnJumpLand] at h3
  | _ =>
    simp [step, OnComponentHitCharacter, WallRunTimerCallback, AirControlResetCallback,
      ApplyEngineUpdate, Look, apply_ite AFPSCharacter.bAppliedSlideForce,
      apply_ite AFPSCharacter.bIsCrouching]

/-- While crouching with the slide force applied, every event other than
`StopCrouch` keeps both facts. -/
theorem step_keeps_applied_while_crouching (m : MathLib R) (s : AFPSCharacter R) (e : Event R)
    (hne : e ≠ Event.StopCrouch) (hflag : s.bAppliedSlideForce = true)
    (hc : s.bIsCrouching = true) :
    (step m s e).bAppliedSlideForce = true ∧ (step m s e).bIsCrouching = true := by
  by_cases h1 : e = Event.StartCrouch
  · subst h1
    exact ⟨StartCrouch_flag_of_flag m s hflag, StartCrouch_bIsCrouching m s⟩
  · cases h3 : e.IsOnJumpLand
    · obtain ⟨f1, f2⟩ := step_flag_frame m s e h1 hne h3
      exact ⟨f1.trans hflag, f2.trans hc⟩
    · cases e with
      | OnJumpLand H =>
        exact ⟨OnJumpLand_flag_of_crouching m s H hc hflag,
          (OnJumpLand_bIsCrouching m s H).trans hc⟩
      | _ => simp [Event.IsOnJumpLand] at h3

theorem run_keeps_applied_while_crouching (m : MathLib R) (es : List (Event R)) :
    ∀ s : AFPSCharacter R, Event.StopCrouch ∉ es → s.bAppliedSlideForce = true →
      s.bIsCrouching = true →
      (run m s es).bAppliedSlideForce = true ∧ (run m s es).bIsCrouching = true := by
  induction es with
  | nil => intro s _ h1 h2; exact ⟨h1, h2⟩
  | cons e es ih =>
    intro s hmem h1 h2
    have hne : e ≠ Event.StopCrouch := fun h => hmem (h ▸ List.mem_cons_self _ _)
    have hrest : Event.StopCrouch ∉ es := fun h => hmem (List.mem_cons_of_mem _ h)
    obtain ⟨g1, g2⟩ := step_keeps_applied_while_crouching m s e hne h1 h2
    exact ih (step m s e) hrest g1 g2

/-- An event applies the slide impulse exactly when it takes
`bAppliedSlideForce` from false to true. -/
theorem AppliesSlideImpulse_iff (m : MathLib R) (s : AFPSCharacter R) (e : Event R) :
    AppliesSlideImpulse s e = true ↔
      (s.bAppliedSlideForce = false ∧ (step m s e).bAppliedSlideForce = true) := by
  by_cases h1 : e = Event.StartCrouch
  · subst h1
    by_cases hc : s.IsMovingOnGround = true ∧ s.StartSlideGuard = true
    · have := (StartCrouch_slide m s).1 hc
      have hg := (StartSlideGuard_iff s).mp hc.2
      simp [AppliesSlideImpulse, step, hc.1, hc.2, this.2.1, hg.2]
    · have := (StartCrouch_slide m s).2 hc
      have hn : AppliesSlideImpulse s Event.StartCrouch = false := by
        simp only [AppliesSlideImpulse]
        simpa using hc
      simp only [hn, step, this.2.1]
      constructor
      · intro h; exact absurd h (by simp)
      · rintro ⟨a, b⟩; rw [a] at b; exact absurd b (by simp)
  · by_cases h2 : e = Event.StopCrouch
    · subst h2
      simp only [AppliesSlideImpulse, step, StopCrouch, apply_ite AFPSCharacter.bAppliedSlideForce]
      constructor
      · intro h; exact absurd h (by simp)
      · rintro ⟨a, b⟩
        split_ifs at b
        rw [a] at b
        exact absurd b (by simp)
    · cases h3 : e.IsOnJumpLand
      · obtain ⟨f1, _⟩ := step_flag_frame m s e h1 h2 h3
        have hn : AppliesSlideImpulse s e = false := by
          cases e with
          | StartCrouch => exact absurd rfl h1
          | OnJumpLand H => simp [Event.IsOnJumpLand] at h3
          | _ => rfl
        rw [hn, f1]
        constructor
        · intro h; exact absurd h (by simp)
        · rintro ⟨a, b⟩; rw [a] at b; exact absurd b (by simp)
      · cases e with
        | OnJumpLand H =>
          simp only [AppliesSlideImpulse, step, OnJumpLand,
            apply_ite AFPSCharacter.bAppliedSlideForce, StopWallRun_bAppliedSlideForce, ite_self]
          cases hc : s.bIsCrouching
          · simp
          · cases hg : s.StartSlideGuard
            · rw [StartSlide_of_not_guard m s hg]
              simp
            · rw [StartSlide_of_guard m s hg]
              have := (StartSlideGuard_iff s).mp hg
              simp [this.2]
        | _ => simp [Event.IsOnJumpLand] at h3

/-- C9: in every run from the constructed state, between two events that apply
the one-time slide impulse (a `StartCrouch` on the ground or an `OnJumpLand`
while crouching, with the condition of `StartSlide` true) there is a
`StopCrouch`; while `bAppliedSlideForce` is true no event applies the impulse
and `StartSlide`, reached from a crouch press or a landing, changes nothing.
An event applies the impulse exactly when it turns `bAppliedSlideForce` from
false to true. -/
theorem slide_impulse_once_per_crouch_cycle (m : MathLib R) (base : AFPSCharacter R) :
    (∀ (pre mid : List (Event R)) (e1 e2 : Event R),
        AppliesSlideImpulse (run m (ctor base) pre) e1 = true →
        AppliesSlideImpulse (run m (step m (run m (ctor base) pre) e1) mid) e2 = true →
        Event.StopCrouch ∈ mid) ∧
      (∀ (s : AFPSCharacter R) (e : Event R), s.bAppliedSlideForce = true →
        AppliesSlideImpulse s e = false ∧ StartSlide m s = s) ∧
      (∀ (s : AFPSCharacter R) (e : Event R),
        AppliesSlideImpulse s e = true ↔
          (s.bAppliedSlideForce = false ∧ (step m s e).bAppliedSlideForce = true)) := by
  have hflag : ∀ (s : AFPSCharacter R) (e : Event R), s.bAppliedSlideForce = true →
      AppliesSlideImpulse s e = false := by
    intro s e h
    cases e <;> simp [AppliesSlideImpulse, StartSlideGuard, h]
  refine ⟨?_, ?_, AppliesSlideImpulse_iff m⟩
  · intro pre mid e1 e2 h1 h2
    by_contra hmem
    have hs1 := ((AppliesSlideImpulse_iff m _ e1).mp h1).2
    have hc1 : (step m (run m (ctor base) pre) e1).bIsCrouching = true := by
      cases e1 with
      | StartCrouch => exact StartCrouch_bIsCrouching m _
      | OnJumpLand H =>
        simp only [AppliesSlideImpulse, Bool.and_eq_true] at h1
        exact (OnJumpLand_bIsCrouching m _ H).trans h1.1
      | _ => simp [AppliesSlideImpulse] at h1
    have h3 := (run_keeps_applied_while_crouching m mid _ hmem hs1 hc1).1
    rw [hflag _ e2 h3] at h2
    exact absurd h2 (by simp)
  · intro s e h
    exact ⟨hflag s e h, StartSlide_of_not_guard m s (by simp [StartSlideGuard, h])⟩

/-- Witness for C9: the constructed default character runs at 600, crouches
(impulse), releases crouch on the ground and crouches again (impulse). -/
theorem slide_impulse_once_per_crouch_cycle_witness :
    AppliesSlideImpulse
        (run ratMath (ctor (headerDefaults blankCharacter))
          [Event.Engine ⟨⟨600, 0, 0⟩, EMovementMode.MOVE_Walking, 100, ⟨0, 0, -1⟩, ⟨0, 0, 1⟩,
            true, ⟨0, 0, 0⟩, ⟨0, 0, 0⟩, ⟨0, 1, 0⟩, ⟨1, 0, 0⟩, ⟨0, 0, 1⟩, ⟨0, 0, 0⟩, 1 / 100⟩])
        Event.StartCrouch = true ∧
      (Event.StopCrouch : Event ℚ) ∈ [Event.StopCrouch] :=
  ⟨by decide!,
    (slide_impulse_once_per_crouch_cycle ratMath (headerDefaults blankCharacter)).1
      [Event.Engine ⟨⟨600, 0, 0⟩, EMovementMode.MOVE_Walking, 100, ⟨0, 0, -1⟩, ⟨0, 0, 1⟩,
        true, ⟨0, 0, 0⟩, ⟨0, 0, 0⟩, ⟨0, 1, 0⟩, ⟨1, 0, 0⟩, ⟨0, 0, 1⟩, ⟨0, 0, 0⟩, 1 / 100⟩]
      [Event.StopCrouch] Event.StartCrouch Event.StartCrouch (by decide!) (by decide!)⟩

end SlideCycle

/-! ### A second crouch press -/

section SecondPress

variable {R : Type} [LinearOrderedField R]

open AFPSCharacter

/-- C10, as stated, fails: the running sample character crouches (impulse,
velocity 1600), releases crouch on the ground, which clears
`bAppliedSlideForce`, and crouches again: with no `OnJumpLand` in between the
second press adds the impulse once more (velocity 2600). -/
theorem second_crouch_press_reapplies_after_StopCrouch :
    AppliesSlideImpulse sampleRunning Event.StartCrouch = true ∧
      (StartCrouch ratMath sampleRunning).Velocity = ⟨1600, 0, 0⟩ ∧
      ([Event.StopCrouch] : List (Event ℚ)).all (fun e => !e.IsOnJumpLand) = true ∧
      (run ratMath (StartCrouch ratMath sampleRunning) [Event.StopCrouch]).Velocity =
        ⟨1600, 0, 0⟩ ∧
      (StartCrouch ratMath
          (run ratMath (StartCrouch ratMath sampleRunning) [Event.StopCrouch])).Velocity =
        ⟨2600, 0, 0⟩ ∧
      (StartCrouch ratMath
          (run ratMath (StartCrouch ratMath sampleRunning) [Event.StopCrouch])).Velocity ≠
        (run ratMath (StartCrouch ratMath sampleRunning) [Event.StopCrouch]).Velocity := by
  decide!

/-- An event that is neither a landing nor a `StopCrouch` on the ground keeps
`bAppliedSlideForce` true. -/
theorem step_keeps_applied (m : MathLib R) (s : AFPSCharacter R) (e : Event R)
    (hno : IsLandingOrGroundedStopCrouch s e = false) (hflag : s.bAppliedSlideForce = true) :
    (step m s e).bAppliedSlideForce = true := by
  by_cases h1 : e = Event.StartCrouch
  · subst h1
    exact StartCrouch_flag_of_flag m s hflag
  · by_cases h2 : e = Event.StopCrouch
    · subst h2
      have hg : ¬ (s.IsMovingOnGround = true) := by
        simpa [IsLandingOrGroundedStopCrouch] using hno
      have hg2 : ¬ ((decide (s.MovementMode = EMovementMode.MOVE_Walking) ||
          decide (s.MovementMode = EMovementMode.MOVE_NavWalking)) = true) := hg
      simp only [step, StopCrouch, IsMovingOnGround, if_neg hg2]
      exact hflag
    · have h3 : e.IsOnJumpLand = false := by
        cases e with
        | OnJumpLand H => simp [IsLandingOrGroundedStopCrouch] at hno
        | _ => rfl
      exact ((step_flag_frame m s e h1 h2 h3).1).trans hflag

theorem run_keeps_applied (m : MathLib R) (es : List (Event R)) :
    ∀ s : AFPSCharacter R, NoLandingOrGroundedStopCrouch m s es = true →
      s.bAppliedSlideForce = true → (run m s es).bAppliedSlideForce = true := by
  induction es with
  | nil => intro s _ h; exact h
  | cons e es ih =>
    intro s hno hflag
    simp only [NoLandingOrGroundedStopCrouch, Bool.and_eq_true, Bool.not_eq_true'] at hno
    exact ih (step m s e) hno.2 (step_keeps_applied m s e hno.1 hflag)

/-- C10, amended: after a crouch press that applied the slide impulse, a second
crouch press leaves the velocity unchanged for every event sequence between the
two presses that contains no `OnJumpLand` and no `StopCrouch` issued on the
ground. -/
theorem second_crouch_press_no_impulse (m : MathLib R) (s : AFPSCharacter R)
    (mid : List (Event R))
    (hfirst : AppliesSlideImpulse s Event.StartCrouch = true)
    (hmid : NoLandingOrGroundedStopCrouch m (StartCrouch m s) mid = true) :
    (StartCrouch m s).bAppliedSlideForce = true ∧
      (StartCrouch m (run m (StartCrouch m s) mid)).Velocity =
        (run m (StartCrouch m s) mid).Velocity := by
  have h1 : (StartCrouch m s).bAppliedSlideForce = true :=
    ((AppliesSlideImpulse_iff m s Event.StartCrouch).mp hfirst).2
  have h2 := run_keeps_applied m mid (StartCrouch m s) hmid h1
  refine ⟨h1, ?_⟩
  exact ((StartCrouch_slide m _).2 (by simp [StartSlideGuard, h2])).1

/-- Witness for C10 (amended): between the two presses the sample character
leaves the ground, releases crouch in the air and ticks. -/
theorem second_crouch_press_no_impulse_witness :
    AppliesSlideImpulse sampleRunning Event.StartCrouch = true ∧
      (StartCrouch ratMath
          (run ratMath (StartCrouch ratMath sampleRunning)
            [Event.Engine ⟨⟨1600, 0, 300⟩, EMovementMode.MOVE_Falling, 100, ⟨0, 0, -1⟩,
                ⟨0, 0, 1⟩, true, ⟨0, 0, 0⟩, ⟨0, 0, 50⟩, ⟨0, 1, 0⟩, ⟨1, 0, 0⟩, ⟨0, 0, 1⟩,
                ⟨0, 0, 0⟩, 1 / 100⟩,
              Event.StopCrouch, Event.Tick (1 / 100)])).Velocity =
        (run ratMath (StartCrouch ratMath sampleRunning)
          [Event.Engine ⟨⟨1600, 0, 300⟩, EMovementMode.MOVE_Falling, 100, ⟨0, 0, -1⟩,
              ⟨0, 0, 1⟩, true, ⟨0, 0, 0⟩, ⟨0, 0, 50⟩, ⟨0, 1, 0⟩, ⟨1, 0, 0⟩, ⟨0, 0, 1⟩,
              ⟨0, 0, 0⟩, 1 / 100⟩,
            Event.StopCrouch, Event.Tick (1 / 100)]).Velocity :=
  ⟨by decide!,
    (second_crouch_press_no_impulse ratMath sampleRunning
      [Event.Engine ⟨⟨1600, 0, 300⟩, EMovementMode.MOVE_Falling, 100, ⟨0, 0, -1⟩,
          ⟨0, 0, 1⟩, true, ⟨0, 0, 0⟩, ⟨0, 0, 50⟩, ⟨0, 1, 0⟩, ⟨1, 0, 0⟩, ⟨0, 0, 1⟩,
          ⟨0, 0, 0⟩, 1 / 100⟩,
        Event.StopCrouch, Event.Tick (1 / 100)] (by decide!) (by decide!)).2⟩

end SecondPress

/-! ### Frame lemmas for the slide magnitude and the wall-run members -/

section Frames2

variable {R : Type} [LinearOrderedField R]

open AFPSCharacter

@[simp]
theorem LaunchCharacter_AddVelocityMag (s : AFPSCharacter R) (L : FVector R) (b1 b2 : Bool) :
    (s.LaunchCharacter L b1 b2).AddVelocityMag = s.AddVelocityMag := by
  simp only [LaunchCharacter, apply_ite Prod.fst, apply_ite AFPSCharacter.AddVelocityMag,
    ite_self]

@[simp]
theorem AddMovementInput_AddVelocityMag (s : AFPSCharacter R) (W : FVector R) :
    (s.AddMovementInput W).AddVelocityMag = s.AddVelocityMag := by
  simp only [AddMovementInput, apply_ite Prod.fst, apply_ite AFPSCharacter.AddVelocityMag,
    ite_self]

@[simp]
theorem BeginPlay_AddVelocityMag (s : AFPSCharacter R) :
    s.BeginPlay.AddVelocityMag = s.AddVelocityMag := by
  simp only [BeginPlay, apply_ite Prod.fst, apply_ite AFPSCharacter.AddVelocityMag,
    ite_self]

@[simp]
theorem AirAccelerate_AddVelocityMag (m : MathLib R) (s : AFPSCharacter R) (W : FVector R) :
    (AirAccelerate m s W).AddVelocityMag = s.AddVelocityMag := by
  simp only [AirAccelerate, apply_ite Prod.fst, apply_ite AFPSCharacter.AddVelocityMag,
    ite_self]

@[simp]
theorem Walk_AddVelocityMag (m : MathLib R) (s : AFPSCharacter R) (W : FVector R) :
    (Walk m s W).AddVelocityMag = s.AddVelocityMag := by
  simp only [Walk, AirAccelerate_AddVelocityMag, AddMovementInput_AddVelocityMag, apply_ite Prod.fst, apply_ite AFPSCharacter.AddVelocityMag,
    ite_self]

@[simp]
theorem StopCrouch_AddVelocityMag (s : AFPSCharacter R) :
    s.StopCrouch.AddVelocityMag = s.AddVelocityMag := by
  simp only [StopCrouch, apply_ite Prod.fst, apply_ite AFPSCharacter.AddVelocityMag,
    ite_self]

@[simp]
theorem GradualCrouch_AddVelocityMag (s : AFPSCharacter R) (z d : R) :
    (s.GradualCrouch z d).AddVelocityMag = s.AddVelocityMag := by
  simp only [GradualCrouch, apply_ite Prod.fst, apply_ite AFPSCharacter.AddVelocityMag,
    ite_self]

@[simp]
theorem SmoothCameraTilt_AddVelocityMag (s : AFPSCharacter R) (a b d : R) :
    (s.SmoothCameraTilt a b d).AddVelocityMag = s.AddVelocityMag := by
  simp only [SmoothCameraTilt, apply_ite Prod.fst, apply_ite AFPSCharacter.AddVelocityMag,
    ite_self]

@[simp]
theorem WallRun_AddVelocityMag (s : AFPSCharacter R) (d : R) :
    (s.WallRun d).AddVelocityMag = s.AddVelocityMag := by
  simp only [WallRun, apply_ite Prod.fst, apply_ite AFPSCharacter.AddVelocityMag,
    ite_self]

@[simp]
theorem StopWallRun_AddVelocityMag (s : AFPSCharacter R) :
    s.StopWallRun.AddVelocityMag = s.AddVelocityMag := by
  simp only [StopWallRun, apply_ite Prod.fst, apply_ite AFPSCharacter.AddVelocityMag,
    ite_self]

@[simp]
theorem WallJump_AddVelocityMag (s : AFPSCharacter R) :
    s.WallJump.AddVelocityMag = s.AddVelocityMag := by
  simp only [WallJump, StopWallRun_AddVelocityMag, LaunchCharacter_AddVelocityMag, apply_ite Prod.fst, apply_ite AFPSCharacter.AddVelocityMag,
    ite_self]

@[simp]
theorem StartWallRun_AddVelocityMag (m : MathLib R) (s : AFPSCharacter R) (H : FHitResult R) :
    (StartWallRun m s H).AddVelocityMag = s.AddVelocityMag := by
  simp only [StartWallRun, apply_ite Prod.fst, apply_ite AFPSCharacter.AddVelocityMag,
    ite_self]

@[simp]
theorem OnLineWallTraceHit_AddVelocityMag (m : MathLib R) (s : AFPSCharacter R) (H : FHitResult R) :
    (OnLineWallTraceHit m s H).AddVelocityMag = s.AddVelocityMag := by
  simp only [OnLineWallTraceHit, StartWallRun_AddVelocityMag, apply_ite Prod.fst, apply_ite AFPSCharacter.AddVelocityMag,
    ite_self]

@[simp]
theorem AirJump_AddVelocityMag (s : AFPSCharacter R) :
    s.AirJump.AddVelocityMag = s.AddVelocityMag := by
  simp only [AirJump, LaunchCharacter_AddVelocityMag, apply_ite Prod.fst, apply_ite AFPSCharacter.AddVelocityMag,
    ite_self]

@[simp]
theorem LaunchCharacter_GradualSlideForce (s : AFPSCharacter R) (L : FVector R) (b1 b2 : Bool) :
    (s.LaunchCharacter L b1 b2).GradualSlideForce = s.GradualSlideForce := by
  simp only [LaunchCharacter, apply_ite Prod.fst, apply_ite AFPSCharacter.GradualSlideForce,
    ite_self]

@[simp]
theorem AddMovementInput_GradualSlideForce (s : AFPSCharacter R) (W : FVector R) :
    (s.AddMovementInput W).GradualSlideForce = s.GradualSlideForce := by
  simp only [AddMovementInput, apply_ite Prod.fst, apply_ite AFPSCharacter.GradualSlideForce,
    ite_self]

@[simp]
theorem BeginPlay_GradualSlideForce (s : AFPSCharacter R) :
    s.BeginPlay.GradualSlideForce = s.GradualSlideForce := by
  simp only [BeginPlay, apply_ite Prod.fst, apply_ite AFPSCharacter.GradualSlideForce,
    ite_self]

@[simp]
theorem AirAccelerate_GradualSlideForce (m : MathLib R) (s : AFPSCharacter R) (W : FVector R) :
    (AirAccelerate m s W).GradualSlideForce = s.GradualSlideForce := by
  simp only [AirAccelerate, apply_ite Prod.fst, apply_ite AFPSCharacter.GradualSlideForce,
    ite_self]

@[simp]
theorem Walk_GradualSlideForce (m : MathLib R) (s : AFPSCharacter R) (W : FVector R) :
    (Walk m s W).GradualSlideForce = s.GradualSlideForce := by
  simp only [Walk, AirAccelerate_GradualSlideForce, AddMovementInput_GradualSlideForce, apply_ite Prod.fst, apply_ite AFPSCharacter.GradualSlideForce,
    ite_self]

@[simp]
theorem StartSlide_GradualSlideForce (m : MathLib R) (s : AFPSCharacter R) :
    (StartSlide m s).GradualSlideForce = s.GradualSlideForce := by
  simp only [StartSlide, apply_ite Prod.fst, apply_ite AFPSCharacter.GradualSlideForce,
    ite_self]

@[simp]
theorem StartCrouch_GradualSlideForce (m : MathLib R) (s : AFPSCharacter R) :
    (StartCrouch m s).GradualSlideForce = s.GradualSlideForce := by
  simp only [StartCrouch, StartSlide_GradualSlideForce, apply_ite Prod.fst, apply_ite AFPSCharacter.GradualSlideForce,
    ite_self]

@[simp]
theorem StopCrouch_GradualSlideForce (s : AFPSCharacter R) :
    s.StopCrouch.GradualSlideForce = s.GradualSlideForce := by
  simp only [StopCrouch, apply_ite Prod.fst, apply_ite AFPSCharacter.GradualSlideForce,
    ite_self]

@[simp]
theorem GradualCrouch_GradualSlideForce (s : AFPSCharacter R) (z d : R) :
    (s.GradualCrouch z d).GradualSlideForce = s.GradualSlideForce := by
  simp only [GradualCrouch, apply_ite Prod.fst, apply_ite AFPSCharacter.GradualSlideForce,
    ite_self]

@[simp]
theorem GradualSlide_GradualSlideForce (m : MathLib R) (s : AFPSCharacter R) (d : R) :
    (GradualSlide m s d).1.GradualSlideForce = s.GradualSlideForce := by
  simp only [GradualSlide, apply_ite Prod.fst, apply_ite AFPSCharacter.GradualSlideForce,
    ite_self]

@[simp]
theorem SmoothCameraTilt_GradualSlideForce (s : AFPSCharacter R) (a b d : R) :
    (s.SmoothCameraTilt a b d).GradualSlideForce = s.GradualSlideForce := by
  simp only [SmoothCameraTilt, apply_ite Prod.fst, apply_ite AFPSCharacter.GradualSlideForce,
    ite_self]

@[simp]
theorem WallRun_GradualSlideForce (s : AFPSCharacter R) (d : R) :
    (s.WallRun d).GradualSlideForce = s.GradualSlideForce := by
  simp only [WallRun, apply_ite Prod.fst, apply_ite AFPSCharacter.GradualSlideForce,
    ite_self]

@[simp]
theorem StopWallRun_GradualSlideForce (s : AFPSCharacter R) :
    s.StopWallRun.GradualSlideForce = s.GradualSlideForce := by
  simp only [StopWallRun, apply_ite Prod.fst, apply_ite AFPSCharacter.GradualSlideForce,
    ite_self]

@[simp]
theorem WallJump_GradualSlideForce (s : AFPSCharacter R) :
    s.WallJump.GradualSlideForce = s.GradualSlideForce := by
  simp only [WallJump, StopWallRun_GradualSlideForce, LaunchCharacter_GradualSlideForce, apply_ite Prod.fst, apply_ite AFPSCharacter.GradualSlideForce,
    ite_self]

@[simp]
theorem StartWallRun_GradualSlideForce (m : MathLib R) (s : AFPSCharacter R) (H : FHitResult R) :
    (StartWallRun m s H).GradualSlideForce = s.GradualSlideForce := by
  simp only [StartWallRun, apply_ite Prod.fst, apply_ite AFPSCharacter.GradualSlideForce,
    ite_self]

@[simp]
theorem OnLineWallTraceHit_GradualSlideForce (m : MathLib R) (s : AFPSCharacter R) (H : FHitResult R) :
    (OnLineWallTraceHit m s H).GradualSlideForce = s.GradualSlideForce := by
  simp only [OnLineWallTraceHit, StartWallRun_GradualSlideForce, apply_ite Prod.fst, apply_ite AFPSCharacter.GradualSlideForce,
    ite_self]

@[simp]
theorem OnJumpLand_GradualSlideForce (m : MathLib R) (s : AFPSCharacter R) (H : FHitResult R) :
    (OnJumpLand m s H).GradualSlideForce = s.GradualSlideForce := by
  simp only [OnJumpLand, StartSlide_GradualSlideForce, StopWallRun_GradualSlideForce, apply_ite Prod.fst, apply_ite AFPSCharacter.GradualSlideForce,
    ite_self]

@[simp]
theorem AirJump_GradualSlideForce (s : AFPSCharacter R) :
    s.AirJump.GradualSlideForce = s.GradualSlideForce := by
  simp only [AirJump, LaunchCharacter_GradualSlideForce, apply_ite Prod.fst, apply_ite AFPSCharacter.GradualSlideForce,
    ite_self]

@[simp]
theorem Tick_GradualSlideForce (m : MathLib R) (s : AFPSCharacter R) (d : R) :
    (Tick m s d).GradualSlideForce = s.GradualSlideForce := by
  simp only [Tick, SmoothCameraTilt_GradualSlideForce, GradualCrouch_GradualSlideForce, GradualSlide_GradualSlideForce, WallRun_GradualSlideForce, apply_ite Prod.fst, apply_ite AFPSCharacter.GradualSlideForce,
    ite_self]

@[simp]
theorem LaunchCharacter_CurrentWall (s : AFPSCharacter R) (L : FVector R) (b1 b2 : Bool) :
    (s.LaunchCharacter L b1 b2).CurrentWall = s.CurrentWall := by
  simp only [LaunchCharacter, apply_ite Prod.fst, apply_ite AFPSCharacter.CurrentWall,
    ite_self]

@[simp]
theorem AddMovementInput_CurrentWall (s : AFPSCharacter R) (W : FVector R) :
    (s.AddMovementInput W).CurrentWall = s.CurrentWall := by
  simp only [AddMovementInput, apply_ite Prod.fst, apply_ite AFPSCharacter.CurrentWall,
    ite_self]

@[simp]
theorem BeginPlay_CurrentWall (s : AFPSCharacter R) :
    s.BeginPlay.CurrentWall = s.CurrentWall := by
  simp only [BeginPlay, apply_ite Prod.fst, apply_ite AFPSCharacter.CurrentWall,
    ite_self]

@[simp]
theorem AirAccelerate_CurrentWall (m : MathLib R) (s : AFPSCharacter R) (W : FVector R) :
    (AirAccelerate m s W).CurrentWall = s.CurrentWall := by
  simp only [AirAccelerate, apply_ite Prod.fst, apply_ite AFPSCharacter.CurrentWall,
    ite_self]

@[simp]
theorem Walk_CurrentWall (m : MathLib R) (s : AFPSCharacter R) (W : FVector R) :
    (Walk m s W).CurrentWall = s.CurrentWall := by
  simp only [Walk, AirAccelerate_CurrentWall, AddMovementInput_CurrentWall, apply_ite Prod.fst, apply_ite AFPSCharacter.CurrentWall,
    ite_self]

@[simp]
theorem StartSlide_CurrentWall (m : MathLib R) (s : AFPSCharacter R) :
    (StartSlide m s).CurrentWall = s.CurrentWall := by
  simp only [StartSlide, apply_ite Prod.fst, apply_ite AFPSCharacter.CurrentWall,
    ite_self]

@[simp]
theorem StartCrouch_CurrentWall (m : MathLib R) (s : AFPSCharacter R) :
    (StartCrouch m s).CurrentWall = s.CurrentWall := by
  simp only [StartCrouch, StartSlide_CurrentWall, apply_ite Prod.fst, apply_ite AFPSCharacter.CurrentWall,
    ite_self]

@[simp]
theorem StopCrouch_CurrentWall (s : AFPSCharacter R) :
    s.StopCrouch.CurrentWall = s.CurrentWall := by
  simp only [StopCrouch, apply_ite Prod.fst, apply_ite AFPSCharacter.CurrentWall,
    ite_self]

@[simp]
theorem GradualCrouch_CurrentWall (s : AFPSCharacter R) (z d : R) :
    (s.GradualCrouch z d).CurrentWall = s.CurrentWall := by
  simp only [GradualCrouch, apply_ite Prod.fst, apply_ite AFPSCharacter.CurrentWall,
    ite_self]

@[simp]
theorem GradualSlide_CurrentWall (m : MathLib R) (s : AFPSCharacter R) (d : R) :
    (GradualSlide m s d).1.CurrentWall = s.CurrentWall := by
  simp only [GradualSlide, apply_ite Prod.fst, apply_ite AFPSCharacter.CurrentWall,
    ite_self]

@[simp]
theorem SmoothCameraTilt_CurrentWall (s : AFPSCharacter R) (a b d : R) :
    (s.SmoothCameraTilt a b d).CurrentWall = s.CurrentWall := by
  simp only [SmoothCameraTilt, apply_ite Prod.fst, apply_ite AFPSCharacter.CurrentWall,
    ite_self]

@[simp]
theorem WallRun_CurrentWall (s : AFPSCharacter R) (d : R) :
    (s.WallRun d).CurrentWall = s.CurrentWall := by
  simp only [WallRun, apply_ite Prod.fst, apply_ite AFPSCharacter.CurrentWall,
    ite_self]

@[simp]
theorem AirJump_CurrentWall (s : AFPSCharacter R) :
    s.AirJump.CurrentWall = s.CurrentWall := by
  simp only [AirJump, LaunchCharacter_CurrentWall, apply_ite Prod.fst, apply_ite AFPSCharacter.CurrentWall,
    ite_self]

@[simp]
theorem Tick_CurrentWall (m : MathLib R) (s : AFPSCharacter R) (d : R) :
    (Tick m s d).CurrentWall = s.CurrentWall := by
  simp only [Tick, SmoothCameraTilt_CurrentWall, GradualCrouch_CurrentWall, GradualSlide_CurrentWall, WallRun_CurrentWall, apply_ite Prod.fst, apply_ite AFPSCharacter.CurrentWall,
    ite_self]

@[simp]
theorem LaunchCharacter_bIsWallrunning (s : AFPSCharacter R) (L : FVector R) (b1 b2 : Bool) :
    (s.LaunchCharacter L b1 b2).bIsWallrunning = s.bIsWallrunning := by
  simp only [LaunchCharacter, apply_ite Prod.fst, apply_ite AFPSCharacter.bIsWallrunning,
    ite_self]

@[simp]
theorem AddMovementInput_bIsWallrunning (s : AFPSCharacter R) (W : FVector R) :
    (s.AddMovementInput W).bIsWallrunning = s.bIsWallrunning := by
  simp only [AddMovementInput, apply_ite Prod.fst, apply_ite AFPSCharacter.bIsWallrunning,
    ite_self]

@[simp]
theorem BeginPlay_bIsWallrunning (s : AFPSCharacter R) :
    s.BeginPlay.bIsWallrunning = s.bIsWallrunning := by
  simp only [BeginPlay, apply_ite Prod.fst, apply_ite AFPSCharacter.bIsWallrunning,
    ite_self]

@[simp]
theorem AirAccelerate_bIsWallrunning (m : MathLib R) (s : AFPSCharacter R) (W : FVector R) :
    (AirAccelerate m s W).bIsWallrunning = s.bIsWallrunning := by
  simp only [AirAccelerate, apply_ite Prod.fst, apply_ite AFPSCharacter.bIsWallrunning,
    ite_self]

@[simp]
theorem Walk_bIsWallrunning (m : MathLib R) (s : AFPSCharacter R) (W : FVector R) :
    (Walk m s W).bIsWallrunning = s.bIsWallrunning := by
  simp only [Walk, AirAccelerate_bIsWallrunning, AddMovementInput_bIsWallrunning, apply_ite Prod.fst, apply_ite AFPSCharacter.bIsWallrunning,
    ite_self]

@[simp]
theorem StartSlide_bIsWallrunning (m : MathLib R) (s : AFPSCharacter R) :
    (StartSlide m s).bIsWallrunning = s.bIsWallrunning := by
  simp only [StartSlide, apply_ite Prod.fst, apply_ite AFPSCharacter.bIsWallrunning,
    ite_self]

@[simp]
theorem StartCrouch_bIsWallrunning (m : MathLib R) (s : AFPSCharacter R) :
    (StartCrouch m s).bIsWallrunning = s.bIsWallrunning := by
  simp only [StartCrouch, StartSlide_bIsWallrunning, apply_ite Prod.fst, apply_ite AFPSCharacter.bIsWallrunning,
    ite_self]

@[simp]
theorem StopCrouch_bIsWallrunning (s : AFPSCharacter R) :
    s.StopCrouch.bIsWallrunning = s.bIsWallrunning := by
  simp only [StopCrouch, apply_ite Prod.fst, apply_ite AFPSCharacter.bIsWallrunning,
    ite_self]

@[simp]
theorem GradualCrouch_bIsWallrunning (s : AFPSCharacter R) (z d : R) :
    (s.GradualCrouch z d).bIsWallrunning = s.bIsWallrunning := by
  simp only [GradualCrouch, apply_ite Prod.fst, apply_ite AFPSCharacter.bIsWallrunning,
    ite_self]

@[simp]
theorem GradualSlide_bIsWallrunning (m : MathLib R) (s : AFPSCharacter R) (d : R) :
    (GradualSlide m s d).1.bIsWallrunning = s.bIsWallrunning := by
  simp only [GradualSlide, apply_ite Prod.fst, apply_ite AFPSCharacter.bIsWallrunning,
    ite_self]

@[simp]
theorem SmoothCameraTilt_bIsWallrunning (s : AFPSCharacter R) (a b d : R) :
    (s.SmoothCameraTilt a b d).bIsWallrunning = s.bIsWallrunning := by
  simp only [SmoothCameraTilt, apply_ite Prod.fst, apply_ite AFPSCharacter.bIsWallrunning,
    ite_self]

@[simp]
theorem WallRun_bIsWallrunning (s : AFPSCharacter R) (d : R) :
    (s.WallRun d).bIsWallrunning = s.bIsWallrunning := by
  simp only [WallRun, apply_ite Prod.fst, apply_ite AFPSCharacter.bIsWallrunning,
    ite_self]

@[simp]
theorem AirJump_bIsWallrunning (s : AFPSCharacter R) :
    s.AirJump.bIsWallrunning = s.bIsWallrunning := by
  simp only [AirJump, LaunchCharacter_bIsWallrunning, apply_ite Prod.fst, apply_ite AFPSCharacter.bIsWallrunning,
    ite_self]

@[simp]
theorem Tick_bIsWallrunning (m : MathLib R) (s : AFPSCharacter R) (d : R) :
    (Tick m s d).bIsWallrunning = s.bIsWallrunning := by
  simp only [Tick, SmoothCameraTilt_bIsWallrunning, GradualCrouch_bIsWallrunning, GradualSlide_bIsWallrunning, WallRun_bIsWallrunning, apply_ite Prod.fst, apply_ite AFPSCharacter.bIsWallrunning,
    ite_self]
end Frames2

/-! ### The pending slide magnitude -/

section SlideMagnitude

variable {R : Type} [LinearOrderedField R]

open AFPSCharacter

theorem Abs_nonneg (x : R) : 0 ≤ Abs x := by
  unfold Abs
  split_ifs with h
  · linarith
  · exact not_lt.mp h

theorem Abs_zero : Abs (0 : R) = 0 := by
  simp [Abs]

theorem Clamp_unit (x : R) : 0 ≤ Clamp x 0 1 ∧ Clamp x 0 1 ≤ 1 := by
  unfold Clamp
  split_ifs with h1 h2
  · exact ⟨le_refl _, zero_le_one⟩
  · exact ⟨zero_le_one, le_refl _⟩
  · exact ⟨not_lt.mp h1, not_lt.mp h2⟩

/-- Interpolating towards zero never increases the magnitude. -/
theorem FInterpTo_zero_Abs_le (c d r : R) : Abs (FInterpTo c 0 d r) ≤ Abs c := by
  unfold FInterpTo
  split_ifs with h1 h2
  · rw [Abs_zero]; exact Abs_nonneg c
  · rw [Abs_zero]; exact Abs_nonneg c
  · obtain ⟨k0, k1⟩ := Clamp_unit (d * r)
    have e : c + (0 - c) * Clamp (d * r) 0 1 = c * (1 - Clamp (d * r) 0 1) := by ring
    rw [e]
    have hk : 0 ≤ 1 - Clamp (d * r) 0 1 := by linarith
    unfold Abs
    split_ifs with h3 h4 h4
    · nlinarith
    · exfalso
      have : 0 ≤ c := not_lt.mp h4
      nlinarith
    · nlinarith
    · have : 0 ≤ c := not_lt.mp h4
      nlinarith

theorem GradualSlide_AddVelocityMag_eq (m : MathLib R) (s : AFPSCharacter R) (d : R) :
    (GradualSlide m s d).1.AddVelocityMag = FInterpTo s.AddVelocityMag 0 d 20 := by
  simp only [GradualSlide, apply_ite Prod.fst, apply_ite AFPSCharacter.AddVelocityMag, ite_self]

/-- What `Tick` does to the pending slide magnitude: the decay step of
`GradualSlide`, or nothing. -/
theorem Tick_AddVelocityMag_cases (m : MathLib R) (s : AFPSCharacter R) (d : R) :
    (Tick m s d).AddVelocityMag = s.AddVelocityMag ∨
      (Tick m s d).AddVelocityMag = FInterpTo s.AddVelocityMag 0 d 20 := by
  simp only [Tick, apply_ite AFPSCharacter.AddVelocityMag, SmoothCameraTilt_AddVelocityMag,
    GradualCrouch_AddVelocityMag, WallRun_AddVelocityMag, GradualSlide_AddVelocityMag_eq,
    ite_self]
  split_ifs <;> first | (left; rfl) | (right; rfl)

theorem StartSlide_AddVelocityMag_of_not_guard (m : MathLib R) (s : AFPSCharacter R)
    (h : s.StartSlideGuard = false) : (StartSlide m s).AddVelocityMag = s.AddVelocityMag := by
  rw [StartSlide_of_not_guard m s h]

/-- C11, as stated, fails: the constructed default character has
`AddVelocityMag = SlideForce = 1000` with `bAppliedSlideForce` false; and after
running at 600, crouching (slide entry) and releasing crouch on the ground,
`AddVelocityMag` is still 200 while `bAppliedSlideForce` is false again. -/
theorem AddVelocityMag_nonzero_without_applied_flag :
    ((run ratMath (ctor (headerDefaults blankCharacter)) []).AddVelocityMag = 1000 ∧
        (run ratMath (ctor (headerDefaults blankCharacter)) []).bAppliedSlideForce = false) ∧
      ((run ratMath (ctor (headerDefaults blankCharacter))
          [Event.Engine ⟨⟨600, 0, 0⟩, EMovementMode.MOVE_Walking, 100, ⟨0, 0, -1⟩, ⟨0, 0, 1⟩,
              true, ⟨0, 0, 0⟩, ⟨0, 0, 0⟩, ⟨0, 1, 0⟩, ⟨1, 0, 0⟩, ⟨0, 0, 1⟩, ⟨0, 0, 0⟩, 1 / 100⟩,
            Event.StartCrouch, Event.StopCrouch]).AddVelocityMag = 200 ∧
        (run ratMath (ctor (headerDefaults blankCharacter))
          [Event.Engine ⟨⟨600, 0, 0⟩, EMovementMode.MOVE_Walking, 100, ⟨0, 0, -1⟩, ⟨0, 0, 1⟩,
              true, ⟨0, 0, 0⟩, ⟨0, 0, 0⟩, ⟨0, 1, 0⟩, ⟨1, 0, 0⟩, ⟨0, 0, 1⟩, ⟨0, 0, 0⟩, 1 / 100⟩,
            Event.StartCrouch, Event.StopCrouch]).bAppliedSlideForce = false) := by
  decide!

/-- C11, amended: `AddVelocityMag` is armed only by a slide entry.  An event
that applies the slide impulse sets `AddVelocityMag = GradualSlideForce` and
`bAppliedSlideForce = true`; any other event never increases the magnitude of
`AddVelocityMag`, and changes it only if it is a `Tick`, by the decay step
towards zero of `GradualSlide`. -/
theorem AddVelocityMag_armed_only_by_slide_entry (m : MathLib R) (s : AFPSCharacter R)
    (e : Event R) :
    (AppliesSlideImpulse s e = true →
        (step m s e).AddVelocityMag = s.GradualSlideForce ∧
          (step m s e).bAppliedSlideForce = true) ∧
      (AppliesSlideImpulse s e = false →
        Abs (step m s e).AddVelocityMag ≤ Abs s.AddVelocityMag ∧
          ((step m s e).AddVelocityMag ≠ s.AddVelocityMag →
            ∃ d : R, e = Event.Tick d ∧
              (step m s e).AddVelocityMag = FInterpTo s.AddVelocityMag 0 d 20)) := by
  constructor
  · intro h
    refine ⟨?_, ((AppliesSlideImpulse_iff m s e).mp h).2⟩
    cases e with
    | StartCrouch =>
      simp only [AppliesSlideImpulse, Bool.and_eq_true] at h
      exact ((StartCrouch_slide m s).1 h).2.2
    | OnJumpLand H =>
      simp only [AppliesSlideImpulse, Bool.and_eq_true] at h
      simp only [step, OnJumpLand, h.1, if_true, apply_ite AFPSCharacter.AddVelocityMag,
        StopWallRun_AddVelocityMag, ite_self]
      rw [StartSlide_of_guard m s h.2]
    | _ => simp [AppliesSlideImpulse] at h
  · intro h
    have key : (step m s e).AddVelocityMag = s.AddVelocityMag ∨
        ∃ d : R, e = Event.Tick d ∧
          (step m s e).AddVelocityMag = FInterpTo s.AddVelocityMag 0 d 20 := by
      cases e with
      | StartCrouch =>
        left
        have hn : ¬ (s.IsMovingOnGround = true ∧ s.StartSlideGuard = true) := by
          simpa [AppliesSlideImpulse] using h
        exact ((StartCrouch_slide m s).2 hn).2.2
      | OnJumpLand H =>
        left
        simp only [step, OnJumpLand, apply_ite AFPSCharacter.AddVelocityMag,
          StopWallRun_AddVelocityMag, ite_self]
        cases hc : s.bIsCrouching
        · simp
        · have hg : s.StartSlideGuard = false := by
            simpa [AppliesSlideImpulse, hc] using h
          simp [StartSlide_of_not_guard m s hg]
      | Tick d =>
        rcases Tick_AddVelocityMag_cases m s d with h1 | h1
        · left; exact h1
        · right; exact ⟨d, rfl, h1⟩
      | _ =>
        left
        simp [step, OnComponentHitCharacter, WallRunTimerCallback, AirControlResetCallback,
          ApplyEngineUpdate, Look, apply_ite AFPSCharacter.AddVelocityMag]
    rcases key with h1 | ⟨d, hd, h1⟩
    · exact ⟨by rw [h1], fun hne => absurd h1 hne⟩
    · refine ⟨?_, fun _ => ⟨d, hd, h1⟩⟩
      rw [h1]
      exact FInterpTo_zero_Abs_le _ _ _

/-- Witness for C11 (amended): the running sample character crouches; the
slide entry arms `AddVelocityMag` with 200. -/
theorem AddVelocityMag_armed_only_by_slide_entry_witness :
    AppliesSlideImpulse sampleRunning Event.StartCrouch = true ∧
      (step ratMath sampleRunning Event.StartCrouch).AddVelocityMag = 200 ∧
      AppliesSlideImpulse sampleRunning (Event.Tick (1 / 100)) = false ∧
      Abs (step ratMath sampleRunning (Event.Tick (1 / 100))).AddVelocityMag ≤
        Abs sampleRunning.AddVelocityMag :=
  ⟨by decide!,
    ((AddVelocityMag_armed_only_by_slide_entry ratMath sampleRunning Event.StartCrouch).1
      (by decide!)).1,
    by decide!,
    ((AddVelocityMag_armed_only_by_slide_entry ratMath sampleRunning
      (Event.Tick (1 / 100))).2 (by decide!)).1⟩

end SlideMagnitude

/-! ### Wall-run bookkeeping -/

section WallRunBookkeeping

variable {R : Type} [LinearOrderedField R]

open AFPSCharacter

theorem StartWallRun_bIsWallrunning_eq (m : MathLib R) (s : AFPSCharacter R) (H : FHitResult R) :
    (StartWallRun m s H).bIsWallrunning = (s.IsFalling || s.bIsWallrunning) := by
  simp only [StartWallRun]
  cases hf : s.IsFalling <;> cases hw : s.bIsWallrunning <;> simp [hw]

theorem StartWallRun_CurrentWall_eq (m : MathLib R) (s : AFPSCharacter R) (H : FHitResult R) :
    (StartWallRun m s H).CurrentWall =
      if s.IsFalling = true ∧ s.bIsWallrunning = false then H.Component else s.CurrentWall := by
  simp only [StartWallRun]
  cases hf : s.IsFalling <;> cases hw : s.bIsWallrunning <;> simp

theorem StopWallRun_bIsWallrunning_eq (s : AFPSCharacter R) :
    s.StopWallRun.bIsWallrunning = false := by
  simp only [StopWallRun, apply_ite AFPSCharacter.bIsWallrunning, ite_self]

theorem StopWallRun_CurrentWall_eq (s : AFPSCharacter R) : s.StopWallRun.CurrentWall = none := by
  simp only [StopWallRun, apply_ite AFPSCharacter.CurrentWall, ite_self]

theorem OnLineWallTraceHit_bIsWallrunning_eq (m : MathLib R) (s : AFPSCharacter R)
    (H : FHitResult R) :
    (OnLineWallTraceHit m s H).bIsWallrunning =
      ((IsWall H.Normal && s.IsFalling) || s.bIsWallrunning) := by
  simp only [OnLineWallTraceHit]
  cases hwall : IsWall H.Normal
  · simp [apply_ite AFPSCharacter.bIsWallrunning]
  · simp only [if_true, StartWallRun_bIsWallrunning_eq, Bool.true_and]
    split_ifs <;> simp [IsFalling, apply_ite AFPSCharacter.bIsWallrunning,
      apply_ite AFPSCharacter.MovementMode]

theorem OnLineWallTraceHit_CurrentWall_eq (m : MathLib R) (s : AFPSCharacter R)
    (H : FHitResult R) :
    (OnLineWallTraceHit m s H).CurrentWall =
      if IsWall H.Normal = true ∧ s.IsFalling = true ∧ s.bIsWallrunning = false then H.Component
      else s.CurrentWall := by
  simp only [OnLineWallTraceHit]
  cases hwall : IsWall H.Normal
  · simp [apply_ite AFPSCharacter.CurrentWall]
  · simp only [if_true, StartWallRun_CurrentWall_eq, true_and]
    split_ifs <;> simp_all [IsFalling, apply_ite AFPSCharacter.bIsWallrunning,
      apply_ite AFPSCharacter.MovementMode, apply_ite AFPSCharacter.CurrentWall]

theorem WallJump_wall_eq (s : AFPSCharacter R) :
    (s.bIsWallrunning = true → s.WallJump.bIsWallrunning = false ∧ s.WallJump.CurrentWall = none) ∧
      (s.bIsWallrunning = false → s.WallJump = s) := by
  constructor
  · intro h
    simp only [WallJump, h, if_true, LaunchCharacter_bIsWallrunning, LaunchCharacter_CurrentWall,
      StopWallRun_bIsWallrunning_eq, StopWallRun_CurrentWall_eq, and_self]
  · intro h
    simp [WallJump, h]

theorem OnJumpLand_wall_eq (m : MathLib R) (s : AFPSCharacter R) (H : FHitResult R) :
    (s.bIsWallrunning = true →
        (OnJumpLand m s H).bIsWallrunning = false ∧ (OnJumpLand m s H).CurrentWall = none) ∧
      (s.bIsWallrunning = false →
        (OnJumpLand m s H).bIsWallrunning = false ∧
          (OnJumpLand m s H).CurrentWall = s.CurrentWall) := by
  constructor
  · intro h
    simp only [OnJumpLand, apply_ite AFPSCharacter.bIsWallrunning,
      apply_ite AFPSCharacter.CurrentWall, StartSlide_bIsWallrunning, StartSlide_CurrentWall,
      StopWallRun_bIsWallrunning_eq, StopWallRun_CurrentWall_eq, ite_self, h, if_true, and_self]
  · intro h
    simp only [OnJumpLand, apply_ite AFPSCharacter.bIsWallrunning,
      apply_ite AFPSCharacter.CurrentWall, StartSlide_bIsWallrunning, StartSlide_CurrentWall,
      StopWallRun_bIsWallrunning_eq, StopWallRun_CurrentWall_eq, ite_self, h]
    simp

end WallRunBookkeeping

section WallRunInvariant

variable {R : Type} [LinearOrderedField R]

open AFPSCharacter

/-- Every event keeps: outside a wall run no wall is tracked. -/
theorem step_NoWallOutsideWallRun (m : MathLib R) (s : AFPSCharacter R) (e : Event R)
    (h : NoWallOutsideWallRun s) : NoWallOutsideWallRun (step m s e) := by
  unfold NoWallOutsideWallRun at *
  cases e with
  | OnComponentHitCharacter H =>
    simp only [step, OnComponentHitCharacter, OnLineWallTraceHit_bIsWallrunning_eq,
      OnLineWallTraceHit_CurrentWall_eq]
    intro hw
    simp only [Bool.or_eq_false_iff, Bool.and_eq_false_iff] at hw
    rw [if_neg]
    · exact h hw.2
    · rintro ⟨h1, h2, _⟩
      rcases hw.1 with h3 | h3
      · rw [h1] at h3; exact absurd h3 (by simp)
      · rw [h2] at h3; exact absurd h3 (by simp)
  | StartWallRun H =>
    simp only [step, StartWallRun_bIsWallrunning_eq, StartWallRun_CurrentWall_eq]
    intro hw
    simp only [Bool.or_eq_false_iff] at hw
    rw [if_neg]
    · exact h hw.2
    · rintro ⟨h1, _⟩
      rw [h1] at hw; exact absurd hw.1 (by simp)
  | StopWallRun =>
    intro _
    exact StopWallRun_CurrentWall_eq s
  | WallJump =>
    intro hw
    cases hwr : s.bIsWallrunning
    · rw [show step m s Event.WallJump = s.WallJump from rfl, (WallJump_wall_eq s).2 hwr]
      exact h hwr
    · exact ((WallJump_wall_eq s).1 hwr).2
  | OnJumpLand H =>
    intro _
    cases hwr : s.bIsWallrunning
    · exact (((OnJumpLand_wall_eq m s H).2 hwr).2).trans (h hwr)
    · exact ((OnJumpLand_wall_eq m s H).1 hwr).2
  | WallRunTimerFire =>
    simp only [step, WallRunTimerCallback]
    split_ifs
    · intro _
      exact StopWallRun_CurrentWall_eq _
    · exact h
  | _ =>
    simpa [step, AirControlResetCallback, ApplyEngineUpdate, Look,
      apply_ite AFPSCharacter.bIsWallrunning, apply_ite AFPSCharacter.CurrentWall] using h

/-- In every state reachable from the constructed state, a character that is
not wall running tracks no wall. -/
theorem run_NoWallOutsideWallRun (m : MathLib R) (base : AFPSCharacter R)
    (es : List (Event R)) : NoWallOutsideWallRun (run m (ctor base) es) := by
  have gen : ∀ (es : List (Event R)) (s : AFPSCharacter R),
      NoWallOutsideWallRun s → NoWallOutsideWallRun (run m s es) := by
    intro es
    induction es with
    | nil => intro s h; exact h
    | cons e es ih => intro s h; exact ih (step m s e) (step_NoWallOutsideWallRun m s e h)
  exact gen es (ctor base) (fun _ => rfl)

/-- When the hit of the event names its component, the event keeps: a wall is
tracked exactly during a wall run. -/
theorem step_WallTrackedIffWallRun (m : MathLib R) (s : AFPSCharacter R) (e : Event R)
    (hc : e.HitHasComponent = true) (h : WallTrackedIffWallRun s) :
    WallTrackedIffWallRun (step m s e) := by
  unfold WallTrackedIffWallRun at *
  refine ⟨?_, step_NoWallOutsideWallRun m s e h.2⟩
  cases e with
  | OnComponentHitCharacter H =>
    simp only [step, OnComponentHitCharacter, OnLineWallTraceHit_bIsWallrunning_eq,
      OnLineWallTraceHit_CurrentWall_eq]
    simp only [Event.HitHasComponent] at hc
    split_ifs with hcond
    · intro hn; rw [hn] at hc; exact absurd hc (by simp)
    · intro hn
      have hw := h.1 hn
      simp only [hw, Bool.or_false, Bool.and_eq_false_iff]
      by_contra hcon
      push_neg at hcon
      exact hcond ⟨by simpa using hcon.1, by simpa using hcon.2, hw⟩
  | StartWallRun H =>
    simp only [step, StartWallRun_bIsWallrunning_eq, StartWallRun_CurrentWall_eq]
    simp only [Event.HitHasComponent] at hc
    split_ifs with hcond
    · intro hn; rw [hn] at hc; exact absurd hc (by simp)
    · intro hn
      have hw := h.1 hn
      simp only [hw, Bool.or_false]
      by_contra hcon
      exact hcond ⟨by simpa using hcon, hw⟩
  | StopWallRun =>
    intro _
    exact StopWallRun_bIsWallrunning_eq s
  | WallJump =>
    intro hn
    cases hwr : s.bIsWallrunning
    · rw [show step m s Event.WallJump = s.WallJump from rfl, (WallJump_wall_eq s).2 hwr]
      exact hwr
    · exact ((WallJump_wall_eq s).1 hwr).1
  | OnJumpLand H =>
    intro _
    cases hwr : s.bIsWallrunning
    · exact ((OnJumpLand_wall_eq m s H).2 hwr).1
    · exact ((OnJumpLand_wall_eq m s H).1 hwr).1
  | WallRunTimerFire =>
    simp only [step, WallRunTimerCallback]
    split_ifs
    · intro _
      exact StopWallRun_bIsWallrunning_eq _
    · exact h.1
  | _ =>
    simpa [step, AirControlResetCallback, ApplyEngineUpdate, Look,
      apply_ite AFPSCharacter.bIsWallrunning, apply_ite AFPSCharacter.CurrentWall] using h.1

/-- From the constructed state, through events whose hits all name their
component, a wall is tracked exactly during a wall run. -/
theorem run_WallTrackedIffWallRun (m : MathLib R) (base : AFPSCharacter R)
    (es : List (Event R)) (hc : ∀ e ∈ es, e.HitHasComponent = true) :
    WallTrackedIffWallRun (run m (ctor base) es) := by
  have gen : ∀ (es : List (Event R)) (s : AFPSCharacter R),
      (∀ e ∈ es, e.HitHasComponent = true) → WallTrackedIffWallRun s →
        WallTrackedIffWallRun (run m s es) := by
    intro es
    induction es with
    | nil => intro s _ h; exact h
    | cons e es ih =>
      intro s hc h
      exact ih (step m s e) (fun e2 he2 => hc e2 (List.mem_cons_of_mem _ he2))
        (step_WallTrackedIffWallRun m s e (hc e (List.mem_cons_self _ _)) h)
  exact gen es (ctor base) hc ⟨fun _ => rfl, fun _ => rfl⟩

/-- C12, the code at the failing input: the constructed default character
falls and touches a wall (normal (0,1,0), accepted by `IsWall`) through a hit
without component: it is wall running while `CurrentWall` is null, so
"`CurrentWall` is none iff `bIsWallrunning` is false" does not hold in this
reachable state.  The same contact with component 7 tracks the wall. -/
theorem wall_run_without_tracked_wall :
    IsWall (⟨0, 1, 0⟩ : FVector ℚ) = true ∧
      (run ratMath (ctor (headerDefaults blankCharacter))
        [Event.Engine ⟨⟨600, 0, -100⟩, EMovementMode.MOVE_Falling, 100, ⟨0, 0, -1⟩, ⟨0, 0, 1⟩,
            true, ⟨0, 0, 0⟩, ⟨0, 0, 200⟩, ⟨0, 1, 0⟩, ⟨1, 0, 0⟩, ⟨0, 0, 1⟩, ⟨0, 0, 0⟩, 1 / 100⟩,
          Event.OnComponentHitCharacter ⟨none, ⟨0, 1, 0⟩⟩]).bIsWallrunning = true ∧
      (run ratMath (ctor (headerDefaults blankCharacter))
        [Event.Engine ⟨⟨600, 0, -100⟩, EMovementMode.MOVE_Falling, 100, ⟨0, 0, -1⟩, ⟨0, 0, 1⟩,
            true, ⟨0, 0, 0⟩, ⟨0, 0, 200⟩, ⟨0, 1, 0⟩, ⟨1, 0, 0⟩, ⟨0, 0, 1⟩, ⟨0, 0, 0⟩, 1 / 100⟩,
          Event.OnComponentHitCharacter ⟨none, ⟨0, 1, 0⟩⟩]).CurrentWall = none ∧
      ¬ WallTrackedIffWallRun
        (run ratMath (ctor (headerDefaults blankCharacter))
          [Event.Engine ⟨⟨600, 0, -100⟩, EMovementMode.MOVE_Falling, 100, ⟨0, 0, -1⟩, ⟨0, 0, 1⟩,
              true, ⟨0, 0, 0⟩, ⟨0, 0, 200⟩, ⟨0, 1, 0⟩, ⟨1, 0, 0⟩, ⟨0, 0, 1⟩, ⟨0, 0, 0⟩, 1 / 100⟩,
            Event.OnComponentHitCharacter ⟨none, ⟨0, 1, 0⟩⟩]) ∧
      (run ratMath (ctor (headerDefaults blankCharacter))
        [Event.Engine ⟨⟨600, 0, -100⟩, EMovementMode.MOVE_Falling, 100, ⟨0, 0, -1⟩, ⟨0, 0, 1⟩,
            true, ⟨0, 0, 0⟩, ⟨0, 0, 200⟩, ⟨0, 1, 0⟩, ⟨1, 0, 0⟩, ⟨0, 0, 1⟩, ⟨0, 0, 0⟩, 1 / 100⟩,
          Event.OnComponentHitCharacter ⟨some 7, ⟨0, 1, 0⟩⟩]).CurrentWall = some 7 := by
  refine ⟨by decide!, by decide!, by decide!, ?_, by decide!⟩
  intro h
  have h2 := h.1 (by decide!)
  revert h2
  decide!

end WallRunInvariant

/-! ### Wall-run entry -/

section WallRunEntry

variable {R : Type} [LinearOrderedField R]

open AFPSCharacter

omit [LinearOrderedField R] in
theorem IsFalling_false_of_IsMovingOnGround (s : AFPSCharacter R)
    (h : s.IsMovingOnGround = true) : s.IsFalling = false := by
  unfold IsMovingOnGround at h
  unfold IsFalling
  cases hm : s.MovementMode <;> simp [hm] at h ⊢

theorem IsWall_floor_normal : IsWall (⟨0, 0, 1⟩ : FVector R) = false := by
  simp only [IsWall, Bool.and_eq_false_iff, decide_eq_false_iff_not, ge_iff_le, not_le]
  right
  norm_num

theorem StartWallRun_of_not_falling (m : MathLib R) (s : AFPSCharacter R) (H : FHitResult R)
    (h : s.IsFalling = false) : StartWallRun m s H = s := by
  unfold StartWallRun
  rw [if_neg (by simp [h])]

/-- C13: for a character that is not wall running, a contact starts a wall run
exactly when `IsWall` accepts the hit normal and the character is falling; a
character on the ground, or a contact with the floor normal (0,0,1), never
starts one, and `StartWallRun` on a character that is not falling changes
nothing. -/
theorem wall_run_starts_only_falling_on_wall (m : MathLib R) (s : AFPSCharacter R)
    (H : FHitResult R) :
    (s.bIsWallrunning = false →
        ((OnLineWallTraceHit m s H).bIsWallrunning = true ↔
          (IsWall H.Normal = true ∧ s.IsFalling = true))) ∧
      (s.bIsWallrunning = false → s.IsMovingOnGround = true →
        (OnLineWallTraceHit m s H).bIsWallrunning = false) ∧
      (s.bIsWallrunning = false → H.Normal = ⟨0, 0, 1⟩ →
        (OnLineWallTraceHit m s H).bIsWallrunning = false) ∧
      (s.IsFalling = false → StartWallRun m s H = s) := by
  refine ⟨?_, ?_, ?_, StartWallRun_of_not_falling m s H⟩
  · intro hw
    rw [OnLineWallTraceHit_bIsWallrunning_eq, hw]
    simp
  · intro hw hg
    rw [OnLineWallTraceHit_bIsWallrunning_eq, hw, IsFalling_false_of_IsMovingOnGround s hg]
    simp
  · intro hw hn
    have hfloor : IsWall H.Normal = false := by
      rw [hn]
      exact IsWall_floor_normal
    rw [OnLineWallTraceHit_bIsWallrunning_eq, hw, hfloor]
    simp

/-- Witness for C13: the falling sample character touches the sample wall and
starts a wall run; the standing sample character does not. -/
theorem wall_run_starts_only_falling_on_wall_witness :
    sampleFalling.bIsWallrunning = false ∧
      (OnLineWallTraceHit ratMath sampleFalling sampleWallHit).bIsWallrunning = true ∧
      sampleCharacter.IsMovingOnGround = true ∧
      (OnLineWallTraceHit ratMath sampleCharacter sampleWallHit).bIsWallrunning = false :=
  ⟨by decide!,
    ((wall_run_starts_only_falling_on_wall ratMath sampleFalling sampleWallHit).1
      (by decide!)).2 ⟨by decide!, by decide!⟩,
    by decide!,
    (wall_run_starts_only_falling_on_wall ratMath sampleCharacter sampleWallHit).2.1
      (by decide!) (by decide!)⟩

theorem Sign_values (x : R) : Sign x = -1 ∨ Sign x = 0 ∨ Sign x = 1 := by
  unfold Sign
  split_ifs
  · right; right; rfl
  · left; rfl
  · right; left; rfl

/-- C14: for a falling character that is not wall running, `StartWallRun`
records the hit component as `CurrentWall`, sets `bIsWallrunning`, sets the
vertical velocity to 250 and keeps the horizontal velocity, sets the gravity
scale to 1 and the air control to `WallRunAirControl`, stores the hit normal in
`WallNormalVector` and the sign of the dot product of the actor's right vector
and the hit normal, one of -1, 0, 1, in `WallRunTiltDirection`. -/
theorem StartWallRun_entry (m : MathLib R) (s : AFPSCharacter R) (H : FHitResult R)
    (hf : s.IsFalling = true) (hw : s.bIsWallrunning = false) :
    (StartWallRun m s H).CurrentWall = H.Component ∧
      (StartWallRun m s H).bIsWallrunning = true ∧
      (StartWallRun m s H).Velocity = ⟨s.Velocity.X, s.Velocity.Y, 250⟩ ∧
      (StartWallRun m s H).GravityScale = 1 ∧
      (StartWallRun m s H).AirControl = s.WallRunAirControl ∧
      (StartWallRun m s H).WallNormalVector = H.Normal ∧
      (StartWallRun m s H).WallRunTiltDirection =
        Sign (FVector.DotProduct s.ActorRightVector H.Normal) ∧
      ((StartWallRun m s H).WallRunTiltDirection = -1 ∨
        (StartWallRun m s H).WallRunTiltDirection = 0 ∨
        (StartWallRun m s H).WallRunTiltDirection = 1) := by
  have ht : (StartWallRun m s H).WallRunTiltDirection =
      Sign (FVector.DotProduct s.ActorRightVector H.Normal) := by
    simp [StartWallRun, hf, hw]
  refine ⟨?_, ?_, ?_, ?_, ?_, ?_, ht, ?_⟩
  · rw [StartWallRun_CurrentWall_eq, if_pos ⟨hf, hw⟩]
  · rw [StartWallRun_bIsWallrunning_eq, hf]; rfl
  · simp [StartWallRun, hf, hw]
  · simp [StartWallRun, hf, hw]
  · simp [StartWallRun, hf, hw]
  · simp [StartWallRun, hf, hw]
  · rw [ht]; exact Sign_values _

/-- Witness for C14: the falling sample character enters a wall run on the
sample wall. -/
theorem StartWallRun_entry_witness :
    sampleFalling.IsFalling = true ∧ sampleFalling.bIsWallrunning = false ∧
      (StartWallRun ratMath sampleFalling sampleWallHit).CurrentWall = some 7 ∧
      (StartWallRun ratMath sampleFalling sampleWallHit).Velocity = ⟨600, 0, 250⟩ :=
  ⟨by decide!, by decide!,
    (StartWallRun_entry ratMath sampleFalling sampleWallHit (by decide!) (by decide!)).1,
    (StartWallRun_entry ratMath sampleFalling sampleWallHit (by decide!) (by decide!)).2.2.1⟩

end WallRunEntry

/-! ### The wall tangent -/

section WallTangent

variable {R : Type} [LinearOrderedField R]

open AFPSCharacter

theorem Sign_mul_self_nonneg (x : R) : 0 ≤ Sign x * x := by
  unfold Sign
  split_ifs with h1 h2
  · linarith
  · linarith
  · simp

theorem DotProduct_scale_left (a b : FVector R) (k : R) :
    FVector.DotProduct (a.scale k) b = k * FVector.DotProduct a b := by
  simp only [FVector.DotProduct, FVector.scale]
  ring

theorem DotProduct_comm (a b : FVector R) :
    FVector.DotProduct a b = FVector.DotProduct b a := by
  simp only [FVector.DotProduct]
  ring

/-- The tangent stored by `StartWallRun` in the falling state: the hit normal
rotated by `VectorRotate` with yaw `PI / 2`, times the sign of its dot product
with the velocity of the resulting state. -/
theorem StartWallRun_tangent (m : MathLib R) (s : AFPSCharacter R) (H : FHitResult R)
    (hf : s.IsFalling = true) :
    (StartWallRun m s H).WallPerpendicularNormalVector =
      (VectorRotate m H.Normal (m.PI / 2) 0 0).scale
        (Sign (FVector.DotProduct (StartWallRun m s H).Velocity
          (VectorRotate m H.Normal (m.PI / 2) 0 0))) ∧
      (StartWallRun m s H).WallNormalVector = H.Normal := by
  cases hw : s.bIsWallrunning <;> simp [StartWallRun, hf, hw]

/-- C15: after `StartWallRun` in the falling state, for every hit normal and
every velocity, the dot product of the sign-corrected tangent
`WallPerpendicularNormalVector` with the velocity used to compute it (the
velocity of the resulting state) is not negative. -/
theorem wall_tangent_dot_velocity_nonneg (m : MathLib R) (s : AFPSCharacter R)
    (H : FHitResult R) (hf : s.IsFalling = true) :
    0 ≤ FVector.DotProduct (StartWallRun m s H).WallPerpendicularNormalVector
      (StartWallRun m s H).Velocity := by
  rw [(StartWallRun_tangent m s H hf).1, DotProduct_scale_left,
    DotProduct_comm (VectorRotate m H.Normal (m.PI / 2) 0 0)]
  exact Sign_mul_self_nonneg _

/-- Witness for C15: the falling sample character on the sample wall; the
tangent is (1,0,0), along the velocity (600,0,250). -/
theorem wall_tangent_dot_velocity_nonneg_witness :
    sampleFalling.IsFalling = true ∧
      (StartWallRun ratMath sampleFalling sampleWallHit).WallPerpendicularNormalVector =
        ⟨1, 0, 0⟩ ∧
      0 ≤ FVector.DotProduct
        (StartWallRun ratMath sampleFalling sampleWallHit).WallPerpendicularNormalVector
        (StartWallRun ratMath sampleFalling sampleWallHit).Velocity :=
  ⟨by decide!, by decide!,
    wall_tangent_dot_velocity_nonneg ratMath sampleFalling sampleWallHit (by decide!)⟩

/-- The rotation used for the tangent, pitch and roll being zero: a rotation
about the vertical axis by the yaw angle.  Only `sin 0 = 0` and `cos 0 = 1`
are used; nothing is assumed about `sin` and `cos` at the yaw angle. -/
theorem VectorRotate_yaw (m : MathLib R) (n : FVector R) (a : R) (hs0 : m.sin 0 = 0)
    (hc0 : m.cos 0 = 1) :
    VectorRotate m n a 0 0 =
      ⟨n.X * m.cos a - n.Y * m.sin a, n.X * m.sin a + n.Y * m.cos a, n.Z⟩ := by
  simp only [VectorRotate, hs0, hc0]
  ext <;> ring

theorem Sign_mul_Sign_of_ne_zero (x : R) (hx : x ≠ 0) : Sign x * Sign x = 1 := by
  unfold Sign
  split_ifs with h1 h2
  · ring
  · ring
  · exact absurd (le_antisymm (not_lt.mp h1) (not_lt.mp h2)) hx

theorem SizeSquared_scale (a : FVector R) (k : R) :
    (a.scale k).SizeSquared = k * k * a.SizeSquared := by
  simp only [FVector.SizeSquared, FVector.scale]
  ring

/-- The horizontal velocity components are those before `StartWallRun`: only
the vertical component is written. -/
theorem StartWallRun_Velocity_XY (m : MathLib R) (s : AFPSCharacter R) (H : FHitResult R) :
    (StartWallRun m s H).Velocity.X = s.Velocity.X ∧
      (StartWallRun m s H).Velocity.Y = s.Velocity.Y := by
  cases hf : s.IsFalling <;> cases hw : s.bIsWallrunning <;> simp [StartWallRun, hf, hw]

/-- C16, as stated, fails.  A character falling straight down at (0, 0, -100)
touches the vertical wall of unit normal (1,0,0), which `IsWall` accepts: the
velocity is not zero and not parallel to the normal (their cross product is
not zero), yet the dot product of the velocity (0, 0, 250) with the rotated
normal (cos, sin, 0) is 0, its sign is 0, and the stored tangent is the zero
vector, of length 0.  This holds whatever `sin` and `cos` are at `PI / 2`: it
is evaluated both with a `PI` slightly off the quarter turn, as the engine's
is, and with the exact one. -/
theorem wall_tangent_zero_for_vertical_velocity :
    FVector.SizeSquared (⟨1, 0, 0⟩ : FVector ℚ) = 1 ∧ IsWall (⟨1, 0, 0⟩ : FVector ℚ) = true ∧
      (⟨0, 0, -100⟩ : FVector ℚ) ≠ FVector.ZeroVector ∧
      FVector.CrossProduct (⟨0, 0, -100⟩ : FVector ℚ) ⟨1, 0, 0⟩ ≠ FVector.ZeroVector ∧
      ({ sampleFalling with Velocity := ⟨0, 0, -100⟩ } : AFPSCharacter ℚ).IsFalling = true ∧
      ratMathWidePI.cos (ratMathWidePI.PI / 2) ≠ 0 ∧
      (StartWallRun ratMathWidePI { sampleFalling with Velocity := ⟨0, 0, -100⟩ }
        ⟨some 7, ⟨1, 0, 0⟩⟩).WallNormalVector = ⟨1, 0, 0⟩ ∧
      (StartWallRun ratMathWidePI { sampleFalling with Velocity := ⟨0, 0, -100⟩ }
        ⟨some 7, ⟨1, 0, 0⟩⟩).WallPerpendicularNormalVector = ⟨0, 0, 0⟩ ∧
      FVector.Length ratMathWidePI
        (StartWallRun ratMathWidePI { sampleFalling with Velocity := ⟨0, 0, -100⟩ }
          ⟨some 7, ⟨1, 0, 0⟩⟩).WallPerpendicularNormalVector = 0 ∧
      (StartWallRun ratMath { sampleFalling with Velocity := ⟨0, 0, -100⟩ }
        ⟨some 7, ⟨1, 0, 0⟩⟩).WallPerpendicularNormalVector = ⟨0, 0, 0⟩ ∧
      FVector.Length ratMath
        (StartWallRun ratMath { sampleFalling with Velocity := ⟨0, 0, -100⟩ }
          ⟨some 7, ⟨1, 0, 0⟩⟩).WallPerpendicularNormalVector = 0 := by
  decide!

/-- The slanted wall.  A falling character moving at (0, 600, -100) touches the
wall of unit normal (12/13, 0, 5/13), accepted by `IsWall`: the stored tangent
has length 1 and is not perpendicular to `WallNormalVector`.  With the exact
quarter turn the tangent is (0, 12/13, 5/13) and the dot product is 25/169;
with a `PI` slightly off the quarter turn the dot product is within 1/1000000
of 25/169. -/
theorem wall_tangent_slanted_wall_not_perpendicular :
    FVector.SizeSquared (⟨12 / 13, 0, 5 / 13⟩ : FVector ℚ) = 1 ∧
      IsWall (⟨12 / 13, 0, 5 / 13⟩ : FVector ℚ) = true ∧
      FVector.CrossProduct (⟨0, 600, -100⟩ : FVector ℚ) ⟨12 / 13, 0, 5 / 13⟩ ≠
        FVector.ZeroVector ∧
      (StartWallRun ratMath { sampleFalling with Velocity := ⟨0, 600, -100⟩ }
        ⟨some 7, ⟨12 / 13, 0, 5 / 13⟩⟩).WallPerpendicularNormalVector =
          ⟨0, 12 / 13, 5 / 13⟩ ∧
      FVector.DotProduct
        (StartWallRun ratMath { sampleFalling with Velocity := ⟨0, 600, -100⟩ }
          ⟨some 7, ⟨12 / 13, 0, 5 / 13⟩⟩).WallPerpendicularNormalVector
        (StartWallRun ratMath { sampleFalling with Velocity := ⟨0, 600, -100⟩ }
          ⟨some 7, ⟨12 / 13, 0, 5 / 13⟩⟩).WallNormalVector = 25 / 169 ∧
      FVector.SizeSquared
        (StartWallRun ratMathWidePI { sampleFalling with Velocity := ⟨0, 600, -100⟩ }
          ⟨some 7, ⟨12 / 13, 0, 5 / 13⟩⟩).WallPerpendicularNormalVector = 1 ∧
      25 / 169 - 1 / 1000000 <
        FVector.DotProduct
          (StartWallRun ratMathWidePI { sampleFalling with Velocity := ⟨0, 600, -100⟩ }
            ⟨some 7, ⟨12 / 13, 0, 5 / 13⟩⟩).WallPerpendicularNormalVector
          (StartWallRun ratMathWidePI { sampleFalling with Velocity := ⟨0, 600, -100⟩ }
            ⟨some 7, ⟨12 / 13, 0, 5 / 13⟩⟩).WallNormalVector ∧
      FVector.DotProduct
          (StartWallRun ratMathWidePI { sampleFalling with Velocity := ⟨0, 600, -100⟩ }
            ⟨some 7, ⟨12 / 13, 0, 5 / 13⟩⟩).WallPerpendicularNormalVector
          (StartWallRun ratMathWidePI { sampleFalling with Velocity := ⟨0, 600, -100⟩ }
            ⟨some 7, ⟨12 / 13, 0, 5 / 13⟩⟩).WallNormalVector < 25 / 169 := by
  decide!

/-- C16, amended.  Nothing is assumed about `sin` and `cos` at `PI / 2` beyond
`sin * sin + cos * cos = 1`; at zero, `sin 0 = 0` and `cos 0 = 1`.  After
`StartWallRun` in the falling state on a unit hit normal n:
the rotated normal is the rotation of n about the vertical axis by the angle
`PI / 2`, (n.x cos - n.y sin, n.x sin + n.y cos, n.z); the tangent is the
rotated normal times the sign of its dot product d with the velocity; if d is
not zero the tangent has squared length 1 (length 1 when sqrt 1 = 1); if d is
zero the tangent is the zero vector; d is zero, and the tangent the zero
vector, when the velocity before the call is vertical and the normal is
horizontal; for a horizontal normal (n.z = 0) the dot product of the tangent
with `WallNormalVector` is sign d times `cos (PI / 2)`. -/
theorem wall_tangent_signed_rotated_normal (m : MathLib R) (s : AFPSCharacter R)
    (H : FHitResult R) (hs0 : m.sin 0 = 0) (hc0 : m.cos 0 = 1)
    (hp : m.sin (m.PI / 2) * m.sin (m.PI / 2) + m.cos (m.PI / 2) * m.cos (m.PI / 2) = 1)
    (hf : s.IsFalling = true) (hn : H.Normal.SizeSquared = 1) :
    VectorRotate m H.Normal (m.PI / 2) 0 0 =
        ⟨H.Normal.X * m.cos (m.PI / 2) - H.Normal.Y * m.sin (m.PI / 2),
          H.Normal.X * m.sin (m.PI / 2) + H.Normal.Y * m.cos (m.PI / 2), H.Normal.Z⟩ ∧
      (StartWallRun m s H).WallPerpendicularNormalVector =
        (VectorRotate m H.Normal (m.PI / 2) 0 0).scale
          (Sign (FVector.DotProduct (StartWallRun m s H).Velocity
            (VectorRotate m H.Normal (m.PI / 2) 0 0))) ∧
      (FVector.DotProduct (StartWallRun m s H).Velocity
            (VectorRotate m H.Normal (m.PI / 2) 0 0) ≠ 0 →
        (StartWallRun m s H).WallPerpendicularNormalVector.SizeSquared = 1 ∧
          (m.sqrt 1 = 1 → (StartWallRun m s H).WallPerpendicularNormalVector.Length m = 1)) ∧
      (FVector.DotProduct (StartWallRun m s H).Velocity
            (VectorRotate m H.Normal (m.PI / 2) 0 0) = 0 →
        (StartWallRun m s H).WallPerpendicularNormalVector = ⟨0, 0, 0⟩) ∧
      (s.Velocity.X = 0 → s.Velocity.Y = 0 → H.Normal.Z = 0 →
        FVector.DotProduct (StartWallRun m s H).Velocity
            (VectorRotate m H.Normal (m.PI / 2) 0 0) = 0 ∧
          (StartWallRun m s H).WallPerpendicularNormalVector = ⟨0, 0, 0⟩) ∧
      (H.Normal.Z = 0 →
        FVector.DotProduct (StartWallRun m s H).WallPerpendicularNormalVector
          (StartWallRun m s H).WallNormalVector =
            Sign (FVector.DotProduct (StartWallRun m s H).Velocity
              (VectorRotate m H.Normal (m.PI / 2) 0 0)) * m.cos (m.PI / 2)) := by
  obtain ⟨ht, hnv⟩ := StartWallRun_tangent m s H hf
  have hr := VectorRotate_yaw m H.Normal (m.PI / 2) hs0 hc0
  have hzero : FVector.DotProduct (StartWallRun m s H).Velocity
      (VectorRotate m H.Normal (m.PI / 2) 0 0) = 0 →
      (StartWallRun m s H).WallPerpendicularNormalVector = ⟨0, 0, 0⟩ := by
    intro hd
    rw [ht, hd]
    simp [Sign, FVector.scale]
  refine ⟨hr, ht, ?_, hzero, ?_, ?_⟩
  · intro hd
    have hsq : (StartWallRun m s H).WallPerpendicularNormalVector.SizeSquared = 1 := by
      rw [ht, SizeSquared_scale, Sign_mul_Sign_of_ne_zero _ hd, one_mul, hr]
      simp only [FVector.SizeSquared] at hn ⊢
      linear_combination (H.Normal.X * H.Normal.X + H.Normal.Y * H.Normal.Y) * hp + hn
    refine ⟨hsq, fun h1 => ?_⟩
    unfold FVector.Length
    rw [hsq, h1]
  · intro hx hy hz
    have hd : FVector.DotProduct (StartWallRun m s H).Velocity
        (VectorRotate m H.Normal (m.PI / 2) 0 0) = 0 := by
      rw [hr]
      simp only [FVector.DotProduct, (StartWallRun_Velocity_XY m s H).1,
        (StartWallRun_Velocity_XY m s H).2, hx, hy, hz]
      ring
    exact ⟨hd, hzero hd⟩
  · intro hz
    have key : FVector.DotProduct (VectorRotate m H.Normal (m.PI / 2) 0 0) H.Normal =
        m.cos (m.PI / 2) := by
      rw [hr]
      simp only [FVector.DotProduct, FVector.SizeSquared] at hn ⊢
      linear_combination (m.cos (m.PI / 2)) * hn +
        (H.Normal.Z * (1 - m.cos (m.PI / 2))) * hz
    rw [hnv]
    nth_rewrite 1 [ht]
    rw [DotProduct_scale_left, key]

/-- Witness for C16 (amended), with a `PI` slightly off the quarter turn, as
the engine's is (`cos (PI / 2)` is not 0): the falling sample character on the
sample wall (unit normal (0,1,0)); the dot product of the velocity with the
rotated normal is not zero and the tangent has squared length 1. -/
theorem wall_tangent_signed_rotated_normal_witness :
    ratMathWidePI.sin 0 = 0 ∧ ratMathWidePI.cos 0 = 1 ∧
      ratMathWidePI.sin (ratMathWidePI.PI / 2) * ratMathWidePI.sin (ratMathWidePI.PI / 2) +
        ratMathWidePI.cos (ratMathWidePI.PI / 2) * ratMathWidePI.cos (ratMathWidePI.PI / 2)
          = 1 ∧
      ratMathWidePI.cos (ratMathWidePI.PI / 2) ≠ 0 ∧
      sampleFalling.IsFalling = true ∧ sampleWallHit.Normal.SizeSquared = 1 ∧
      (StartWallRun ratMathWidePI sampleFalling
        sampleWallHit).WallPerpendicularNormalVector.SizeSquared = 1 :=
  ⟨by decide!, by decide!, by decide!, by decide!, by decide!, by decide!,
    ((wall_tangent_signed_rotated_normal ratMathWidePI sampleFalling sampleWallHit (by decide!)
      (by decide!) (by decide!) (by decide!) (by decide!)).2.2.1 (by decide!)).1⟩

end WallTangent

/-! ### `VectorRotate` -/

section Rotation

variable {R : Type} [LinearOrderedField R]

open AFPSCharacter

/-- With exact `sin` and `cos` at zero, rotating by zero angles is the
identity. -/
theorem VectorRotate_zero_angles (m : MathLib R) (v : FVector R) (hs0 : m.sin 0 = 0)
    (hc0 : m.cos 0 = 1) : VectorRotate m v 0 0 0 = v := by
  simp only [VectorRotate, hs0, hc0]
  ext <;> simp

/-- With exact `sin` and `cos`, a quarter turn of yaw and of roll sends
(x, y, z) to (-y, x - z, x): the Y component mixes x and z. -/
theorem VectorRotate_quarter_yaw_quarter_roll (m : MathLib R) (v : FVector R)
    (hs : m.sin (m.PI / 2) = 1) (hc : m.cos (m.PI / 2) = 0) (hs0 : m.sin 0 = 0)
    (hc0 : m.cos 0 = 1) :
    VectorRotate m v (m.PI / 2) 0 (m.PI / 2) = ⟨-v.Y, v.X - v.Z, v.X⟩ := by
  simp only [VectorRotate, hs, hc, hs0, hc0]
  ext <;> simp
  ring

/-- C17, the code at the failing input: with sin and cos exact at the quarter
turn and at zero, `VectorRotate` with yaw `PI / 2`, pitch 0 and roll `PI / 2`
sends the unit vector (1,0,0) to (0,1,1), of squared length 2: the length is
not preserved.  (Rotating by zero angles does return the vector.) -/
theorem VectorRotate_changes_length :
    ratMath.sin (ratMath.PI / 2) = 1 ∧ ratMath.cos (ratMath.PI / 2) = 0 ∧
      ratMath.sin 0 = 0 ∧ ratMath.cos 0 = 1 ∧
      VectorRotate ratMath ⟨1, 0, 0⟩ (ratMath.PI / 2) 0 (ratMath.PI / 2) = ⟨0, 1, 1⟩ ∧
      FVector.SizeSquared (⟨1, 0, 0⟩ : FVector ℚ) = 1 ∧
      FVector.SizeSquared
        (VectorRotate ratMath ⟨1, 0, 0⟩ (ratMath.PI / 2) 0 (ratMath.PI / 2)) = 2 ∧
      VectorRotate ratMath ⟨1, 0, 0⟩ 0 0 0 = ⟨1, 0, 0⟩ := by
  have h := VectorRotate_quarter_yaw_quarter_roll ratMath ⟨1, 0, 0⟩ (by decide!) (by decide!)
    (by decide!) (by decide!)
  refine ⟨by decide!, by decide!, by decide!, by decide!, ?_, by decide!, ?_, by decide!⟩
  · rw [h]; decide!
  · rw [h]; decide!

end Rotation

/-! ### Wall jump -/

section WallJumpLaunch

variable {R : Type} [LinearOrderedField R]

open AFPSCharacter

theorem StopWallRun_WallNormalVector (s : AFPSCharacter R) :
    s.StopWallRun.WallNormalVector = s.WallNormalVector := by
  simp only [StopWallRun, apply_ite AFPSCharacter.WallNormalVector, ite_self]

theorem StopWallRun_WallJumpForce (s : AFPSCharacter R) :
    s.StopWallRun.WallJumpForce = s.WallJumpForce := by
  simp only [StopWallRun, apply_ite AFPSCharacter.WallJumpForce, ite_self]

theorem StopWallRun_Velocity (s : AFPSCharacter R) :
    s.StopWallRun.Velocity =
      s.Velocity + (s.WallNormalVector.scale s.WallRunSpeed).scale s.DeltaSeconds := by
  simp only [StopWallRun, apply_ite AFPSCharacter.Velocity, ite_self]

/-- The launch vector of `WallJump`: the up vector plus twice the wall normal
projected on the horizontal plane, times `WallJumpForce`. -/
theorem WallJump_launch_vector (n : FVector R) (F : R) :
    ((FVector.UpVector : FVector R).scale 1 +
        (FVector.VectorPlaneProject n FVector.UpVector).scale 2).scale F =
      ⟨F * (0 + 2 * n.X), F * (0 + 2 * n.Y), F * (1 + 2 * 0)⟩ := by
  ext
  · show (0 * 1 + (n.X - 0 * (n.X * 0 + n.Y * 0 + n.Z * 1)) * 2) * F = F * (0 + 2 * n.X)
    ring
  · show (0 * 1 + (n.Y - 0 * (n.X * 0 + n.Y * 0 + n.Z * 1)) * 2) * F = F * (0 + 2 * n.Y)
    ring
  · show (1 * 1 + (n.Z - 1 * (n.X * 0 + n.Y * 0 + n.Z * 1)) * 2) * F = F * (1 + 2 * 0)
    ring

theorem WallJump_of_wallrunning (s : AFPSCharacter R) (h : s.bIsWallrunning = true) :
    s.WallJump =
      s.StopWallRun.LaunchCharacter
        ⟨s.WallJumpForce * (0 + 2 * s.WallNormalVector.X),
          s.WallJumpForce * (0 + 2 * s.WallNormalVector.Y), s.WallJumpForce * (1 + 2 * 0)⟩
        false true := by
  simp only [WallJump, h, if_true, StopWallRun_WallNormalVector, StopWallRun_WallJumpForce,
    WallJump_launch_vector]

/-- C18: for a wall-running character with wall normal n, `WallJump` is
`StopWallRun` followed by the launch request
`LaunchCharacter(WallJumpForce * ((0,0,1) + 2 * (n.x, n.y, 0)), false, true)`;
afterwards `bIsWallrunning` is false and `CurrentWall` is null.  For a
character that is not wall running `WallJump` changes nothing. -/
theorem WallJump_ends_wall_run_and_launches (s : AFPSCharacter R) :
    (s.bIsWallrunning = true →
        s.WallJump =
            s.StopWallRun.LaunchCharacter
              ⟨s.WallJumpForce * (0 + 2 * s.WallNormalVector.X),
                s.WallJumpForce * (0 + 2 * s.WallNormalVector.Y),
                s.WallJumpForce * (1 + 2 * 0)⟩
              false true ∧
          s.WallJump.bIsWallrunning = false ∧ s.WallJump.CurrentWall = none) ∧
      (s.bIsWallrunning = false → s.WallJump = s) := by
  refine ⟨fun h => ⟨WallJump_of_wallrunning s h, (WallJump_wall_eq s).1 h⟩,
    (WallJump_wall_eq s).2⟩

/-- Witness for C18: the wall-running sample character (wall normal (0,1,0),
force 420) wall-jumps; the launch vector is (0, 840, 420). -/
theorem WallJump_ends_wall_run_and_launches_witness :
    sampleWallRunning.bIsWallrunning = true ∧
      sampleWallRunning.WallJump =
        sampleWallRunning.StopWallRun.LaunchCharacter
          ⟨sampleWallRunning.WallJumpForce * (0 + 2 * sampleWallRunning.WallNormalVector.X),
            sampleWallRunning.WallJumpForce * (0 + 2 * sampleWallRunning.WallNormalVector.Y),
            sampleWallRunning.WallJumpForce * (1 + 2 * 0)⟩
          false true ∧
      (⟨sampleWallRunning.WallJumpForce * (0 + 2 * sampleWallRunning.WallNormalVector.X),
          sampleWallRunning.WallJumpForce * (0 + 2 * sampleWallRunning.WallNormalVector.Y),
          sampleWallRunning.WallJumpForce * (1 + 2 * 0)⟩ : FVector ℚ) = ⟨0, 840, 420⟩ ∧
      sampleCharacter.bIsWallrunning = false ∧ sampleCharacter.WallJump = sampleCharacter :=
  ⟨by decide!,
    ((WallJump_ends_wall_run_and_launches sampleWallRunning).1 (by decide!)).1,
    by decide!, by decide!,
    (WallJump_ends_wall_run_and_launches sampleCharacter).2 (by decide!)⟩

/-- C19, as stated, fails: the wall-running sample character (velocity
(600, 0, 250), wall normal (0,1,0)) wall-jumps with launch vector
(0, 840, 420); the velocity after the launch is (600, 850, 420), not the launch
vector, and the same state with velocity zero ends with (0, 850, 420). -/
theorem WallJump_adds_horizontal_velocity :
    sampleWallRunning.bIsWallrunning = true ∧
      sampleWallRunning.Velocity = ⟨600, 0, 250⟩ ∧
      sampleWallRunning.WallJump.PendingLaunchVelocity = ⟨600, 850, 420⟩ ∧
      sampleWallRunning.WallJump.HandlePendingLaunch.Velocity = ⟨600, 850, 420⟩ ∧
      sampleWallRunning.WallJump.HandlePendingLaunch.Velocity ≠ ⟨0, 840, 420⟩ ∧
      ({ sampleWallRunning with Velocity := ⟨0, 0, 0⟩ } :
        AFPSCharacter ℚ).WallJump.HandlePendingLaunch.Velocity = ⟨0, 850, 420⟩ ∧
      sampleWallRunning.WallJump.HandlePendingLaunch.Velocity ≠
        ({ sampleWallRunning with Velocity := ⟨0, 0, 0⟩ } :
          AFPSCharacter ℚ).WallJump.HandlePendingLaunch.Velocity := by
  decide!

/-- C19, amended: the wall-jump launch overwrites the vertical velocity and
adds to the horizontal velocity.  For a wall-running character with velocity v
and wall normal n, the launch velocity set by `WallJump` is
(v.x + n.x * WallRunSpeed * dt + 2 * n.x * WallJumpForce,
 v.y + n.y * WallRunSpeed * dt + 2 * n.y * WallJumpForce, WallJumpForce),
whatever v.z; it becomes the velocity when the engine handles the launch,
provided `WallJumpForce` is not zero. -/
theorem WallJump_launch_velocity (s : AFPSCharacter R) (h : s.bIsWallrunning = true) :
    s.WallJump.PendingLaunchVelocity =
        ⟨s.Velocity.X + s.WallNormalVector.X * s.WallRunSpeed * s.DeltaSeconds +
            2 * s.WallNormalVector.X * s.WallJumpForce,
          s.Velocity.Y + s.WallNormalVector.Y * s.WallRunSpeed * s.DeltaSeconds +
            2 * s.WallNormalVector.Y * s.WallJumpForce,
          s.WallJumpForce⟩ ∧
      (∀ z : R, ({ s with Velocity := { s.Velocity with Z := z } } :
          AFPSCharacter R).WallJump.PendingLaunchVelocity = s.WallJump.PendingLaunchVelocity) ∧
      (s.WallJumpForce ≠ 0 →
        s.WallJump.HandlePendingLaunch.Velocity = s.WallJump.PendingLaunchVelocity) := by
  have key : ∀ t : AFPSCharacter R, t.bIsWallrunning = true →
      t.WallJump.PendingLaunchVelocity =
        ⟨t.Velocity.X + t.WallNormalVector.X * t.WallRunSpeed * t.DeltaSeconds +
            2 * t.WallNormalVector.X * t.WallJumpForce,
          t.Velocity.Y + t.WallNormalVector.Y * t.WallRunSpeed * t.DeltaSeconds +
            2 * t.WallNormalVector.Y * t.WallJumpForce,
          t.WallJumpForce⟩ := by
    intro t ht
    rw [WallJump_of_wallrunning t ht]
    simp only [LaunchCharacter, StopWallRun_Velocity, Bool.false_eq_true, if_false, if_true]
    ext
    · show t.WallJumpForce * (0 + 2 * t.WallNormalVector.X) +
          (t.Velocity.X + t.WallNormalVector.X * t.WallRunSpeed * t.DeltaSeconds) = _
      ring
    · show t.WallJumpForce * (0 + 2 * t.WallNormalVector.Y) +
          (t.Velocity.Y + t.WallNormalVector.Y * t.WallRunSpeed * t.DeltaSeconds) = _
      ring
    · show t.WallJumpForce * (1 + 2 * 0) = _
      ring
  refine ⟨key s h, ?_, ?_⟩
  · intro z
    have h2 := key ({ s with Velocity := { s.Velocity with Z := z } } : AFPSCharacter R) h
    rw [h2, key s h]
  · intro hF
    have hz : ¬ (s.WallJump.PendingLaunchVelocity.IsZero = true) := by
      rw [key s h]
      simp [FVector.IsZero, hF]
    unfold HandlePendingLaunch
    rw [if_neg hz]

/-- Witness for C19 (amended): the wall-running sample character. -/
theorem WallJump_launch_velocity_witness :
    sampleWallRunning.bIsWallrunning = true ∧ sampleWallRunning.WallJumpForce ≠ 0 ∧
      sampleWallRunning.WallJump.HandlePendingLaunch.Velocity =
        sampleWallRunning.WallJump.PendingLaunchVelocity :=
  ⟨by decide!, by decide!,
    (WallJump_launch_velocity sampleWallRunning (by decide!)).2.2 (by decide!)⟩

end WallJumpLaunch

/-! ### The wall-contact debounce timer -/

section DebounceTimer

variable {R : Type} [LinearOrderedField R]

open AFPSCharacter

/-- What `StopWallRun` does in the falling state besides ending the wall run:
gravity scale 1.5, air control 0.1 and a freshly armed air-control reset
timer. -/
theorem StopWallRun_of_falling (s : AFPSCharacter R) (hf : s.IsFalling = true) :
    s.StopWallRun.GravityScale = 15 / 10 ∧ s.StopWallRun.AirControl = 1 / 10 ∧
      s.StopWallRun.AirControlResetTimer = ⟨true, true, 4 / 10⟩ := by
  have hf2 : s.MovementMode = EMovementMode.MOVE_Falling := by
    simpa [IsFalling] using hf
  refine ⟨?_, ?_, ?_⟩
  · simp only [StopWallRun, IsFalling, hf2, decide_True, if_true,
      apply_ite AFPSCharacter.GravityScale, ite_self]
  · simp only [StopWallRun, IsFalling, hf2, decide_True, if_true,
      apply_ite AFPSCharacter.AirControl, ite_self]
  · simp only [StopWallRun, IsFalling, hf2, decide_True, if_true,
      apply_ite AFPSCharacter.AirControlResetTimer, FTimerHandle.SetTimer, ite_self]

/-- The callback of the wall-contact timer is `StopWallRun`, whether or not a
wall run is active: a pending timer that fires adds the outward impulse to the
velocity and, when the character is falling, sets gravity scale 1.5, air
control 0.1 and arms the air-control reset timer. -/
theorem WallRunTimerFire_effect (m : MathLib R) (s : AFPSCharacter R)
    (hp : s.WallRunTimer.Pending = true) :
    (step m s Event.WallRunTimerFire).Velocity =
        s.Velocity + (s.WallNormalVector.scale s.WallRunSpeed).scale s.DeltaSeconds ∧
      (s.IsFalling = true →
        (step m s Event.WallRunTimerFire).GravityScale = 15 / 10 ∧
          (step m s Event.WallRunTimerFire).AirControl = 1 / 10 ∧
          (step m s Event.WallRunTimerFire).AirControlResetTimer = ⟨true, true, 4 / 10⟩) := by
  simp only [step, hp, if_true, WallRunTimerCallback]
  refine ⟨StopWallRun_Velocity _, ?_⟩
  intro hf
  exact StopWallRun_of_falling _ hf

/-- C20, the code at the failing input: the constructed default character
falls, touches wall 7 twice (the second contact arms the timer), wall-jumps
and is launched by the engine; no wall run is active and the timer is still
pending.  When it fires, the velocity goes from (600, 850, 420) to
(600, 860, 420): the callback is not a no-op. -/
theorem debounce_timer_fires_after_wall_jump :
    (run ratMath (ctor (headerDefaults blankCharacter))
        [Event.Engine ⟨⟨600, 0, -100⟩, EMovementMode.MOVE_Falling, 100, ⟨0, 0, -1⟩, ⟨0, 0, 1⟩,
            true, ⟨0, 0, 0⟩, ⟨0, 0, 200⟩, ⟨0, 1, 0⟩, ⟨1, 0, 0⟩, ⟨0, 0, 1⟩, ⟨0, 0, 0⟩, 1 / 100⟩,
          Event.OnComponentHitCharacter ⟨some 7, ⟨0, 1, 0⟩⟩,
          Event.OnComponentHitCharacter ⟨some 7, ⟨0, 1, 0⟩⟩,
          Event.WallJump,
          Event.Engine ⟨⟨600, 850, 420⟩, EMovementMode.MOVE_Falling, 100, ⟨0, 0, -1⟩,
            ⟨0, 0, 1⟩, true, ⟨0, 0, 0⟩, ⟨0, 0, 200⟩, ⟨0, 1, 0⟩, ⟨1, 0, 0⟩, ⟨0, 0, 1⟩,
            ⟨0, 0, 0⟩, 1 / 100⟩]).bIsWallrunning = false ∧
      (run ratMath (ctor (headerDefaults blankCharacter))
        [Event.Engine ⟨⟨600, 0, -100⟩, EMovementMode.MOVE_Falling, 100, ⟨0, 0, -1⟩, ⟨0, 0, 1⟩,
            true, ⟨0, 0, 0⟩, ⟨0, 0, 200⟩, ⟨0, 1, 0⟩, ⟨1, 0, 0⟩, ⟨0, 0, 1⟩, ⟨0, 0, 0⟩, 1 / 100⟩,
          Event.OnComponentHitCharacter ⟨some 7, ⟨0, 1, 0⟩⟩,
          Event.OnComponentHitCharacter ⟨some 7, ⟨0, 1, 0⟩⟩,
          Event.WallJump,
          Event.Engine ⟨⟨600, 850, 420⟩, EMovementMode.MOVE_Falling, 100, ⟨0, 0, -1⟩,
            ⟨0, 0, 1⟩, true, ⟨0, 0, 0⟩, ⟨0, 0, 200⟩, ⟨0, 1, 0⟩, ⟨1, 0, 0⟩, ⟨0, 0, 1⟩,
            ⟨0, 0, 0⟩, 1 / 100⟩]).WallRunTimer.Pending = true ∧
      (run ratMath (ctor (headerDefaults blankCharacter))
        [Event.Engine ⟨⟨600, 0, -100⟩, EMovementMode.MOVE_Falling, 100, ⟨0, 0, -1⟩, ⟨0, 0, 1⟩,
            true, ⟨0, 0, 0⟩, ⟨0, 0, 200⟩, ⟨0, 1, 0⟩, ⟨1, 0, 0⟩, ⟨0, 0, 1⟩, ⟨0, 0, 0⟩, 1 / 100⟩,
          Event.OnComponentHitCharacter ⟨some 7, ⟨0, 1, 0⟩⟩,
          Event.OnComponentHitCharacter ⟨some 7, ⟨0, 1, 0⟩⟩,
          Event.WallJump,
          Event.Engine ⟨⟨600, 850, 420⟩, EMovementMode.MOVE_Falling, 100, ⟨0, 0, -1⟩,
            ⟨0, 0, 1⟩, true, ⟨0, 0, 0⟩, ⟨0, 0, 200⟩, ⟨0, 1, 0⟩, ⟨1, 0, 0⟩, ⟨0, 0, 1⟩,
            ⟨0, 0, 0⟩, 1 / 100⟩]).Velocity = ⟨600, 850, 420⟩ ∧
      (run ratMath (ctor (headerDefaults blankCharacter))
        [Event.Engine ⟨⟨600, 0, -100⟩, EMovementMode.MOVE_Falling, 100, ⟨0, 0, -1⟩, ⟨0, 0, 1⟩,
            true, ⟨0, 0, 0⟩, ⟨0, 0, 200⟩, ⟨0, 1, 0⟩, ⟨1, 0, 0⟩, ⟨0, 0, 1⟩, ⟨0, 0, 0⟩, 1 / 100⟩,
          Event.OnComponentHitCharacter ⟨some 7, ⟨0, 1, 0⟩⟩,
          Event.OnComponentHitCharacter ⟨some 7, ⟨0, 1, 0⟩⟩,
          Event.WallJump,
          Event.Engine ⟨⟨600, 850, 420⟩, EMovementMode.MOVE_Falling, 100, ⟨0, 0, -1⟩,
            ⟨0, 0, 1⟩, true, ⟨0, 0, 0⟩, ⟨0, 0, 200⟩, ⟨0, 1, 0⟩, ⟨1, 0, 0⟩, ⟨0, 0, 1⟩,
            ⟨0, 0, 0⟩, 1 / 100⟩,
          Event.WallRunTimerFire]).Velocity = ⟨600, 860, 420⟩ := by
  decide!

end DebounceTimer


/-! ### Frame lemmas for the camera, the transform and the air-control timer -/

section Frames3

variable {R : Type} [LinearOrderedField R]

open AFPSCharacter

@[simp]
theorem LaunchCharacter_CameraRoll (s : AFPSCharacter R) (L : FVector R) (b1 b2 : Bool) :
    (s.LaunchCharacter L b1 b2).CameraRoll = s.CameraRoll := by
  simp only [LaunchCharacter, apply_ite Prod.fst, apply_ite AFPSCharacter.CameraRoll,
    ite_self]

@[simp]
theorem AddMovementInput_CameraRoll (s : AFPSCharacter R) (W : FVector R) :
    (s.AddMovementInput W).CameraRoll = s.CameraRoll := by
  simp only [AddMovementInput, apply_ite Prod.fst, apply_ite AFPSCharacter.CameraRoll,
    ite_self]

@[simp]
theorem BeginPlay_CameraRoll (s : AFPSCharacter R) :
    s.BeginPlay.CameraRoll = s.CameraRoll := by
  simp only [BeginPlay, apply_ite Prod.fst, apply_ite AFPSCharacter.CameraRoll,
    ite_self]

@[simp]
theorem AirAccelerate_CameraRoll (m : MathLib R) (s : AFPSCharacter R) (W : FVector R) :
    (AirAccelerate m s W).CameraRoll = s.CameraRoll := by
  simp only [AirAccelerate, apply_ite Prod.fst, apply_ite AFPSCharacter.CameraRoll,
    ite_self]

@[simp]
theorem Walk_CameraRoll (m : MathLib R) (s : AFPSCharacter R) (W : FVector R) :
    (Walk m s W).CameraRoll = s.CameraRoll := by
  simp only [Walk, AirAccelerate_CameraRoll, AddMovementInput_CameraRoll, apply_ite Prod.fst, apply_ite AFPSCharacter.CameraRoll,
    ite_self]

@[simp]
theorem StartSlide_CameraRoll (m : MathLib R) (s : AFPSCharacter R) :
    (StartSlide m s).CameraRoll = s.CameraRoll := by
  simp only [StartSlide, apply_ite Prod.fst, apply_ite AFPSCharacter.CameraRoll,
    ite_self]

@[simp]
theorem StartCrouch_CameraRoll (m : MathLib R) (s : AFPSCharacter R) :
    (StartCrouch m s).CameraRoll = s.CameraRoll := by
  simp only [StartCrouch, StartSlide_CameraRoll, apply_ite Prod.fst, apply_ite AFPSCharacter.CameraRoll,
    ite_self]

@[simp]
theorem StopCrouch_CameraRoll (s : AFPSCharacter R) :
    s.StopCrouch.CameraRoll = s.CameraRoll := by
  simp only [StopCrouch, apply_ite Prod.fst, apply_ite AFPSCharacter.CameraRoll,
    ite_self]

@[simp]
theorem GradualCrouch_CameraRoll (s : AFPSCharacter R) (z d : R) :
    (s.GradualCrouch z d).CameraRoll = s.CameraRoll := by
  simp only [GradualCrouch, apply_ite Prod.fst, apply_ite AFPSCharacter.CameraRoll,
    ite_self]

@[simp]
theorem GradualSlide_CameraRoll (m : MathLib R) (s : AFPSCharacter R) (d : R) :
    (GradualSlide m s d).1.CameraRoll = s.CameraRoll := by
  simp only [GradualSlide, apply_ite Prod.fst, apply_ite AFPSCharacter.CameraRoll,
    ite_self]

@[simp]
theorem WallRun_CameraRoll (s : AFPSCharacter R) (d : R) :
    (s.WallRun d).CameraRoll = s.CameraRoll := by
  simp only [WallRun, apply_ite Prod.fst, apply_ite AFPSCharacter.CameraRoll,
    ite_self]

@[simp]
theorem StopWallRun_CameraRoll (s : AFPSCharacter R) :
    s.StopWallRun.CameraRoll = s.CameraRoll := by
  simp only [StopWallRun, apply_ite Prod.fst, apply_ite AFPSCharacter.CameraRoll,
    ite_self]

@[simp]
theorem WallJump_CameraRoll (s : AFPSCharacter R) :
    s.WallJump.CameraRoll = s.CameraRoll := by
  simp only [WallJump, StopWallRun_CameraRoll, LaunchCharacter_CameraRoll, apply_ite Prod.fst, apply_ite AFPSCharacter.CameraRoll,
    ite_self]

@[simp]
theorem StartWallRun_CameraRoll (m : MathLib R) (s : AFPSCharacter R) (H : FHitResult R) :
    (StartWallRun m s H).CameraRoll = s.CameraRoll := by
  simp only [StartWallRun, apply_ite Prod.fst, apply_ite AFPSCharacter.CameraRoll,
    ite_self]

@[simp]
theorem OnLineWallTraceHit_CameraRoll (m : MathLib R) (s : AFPSCharacter R) (H : FHitResult R) :
    (OnLineWallTraceHit m s H).CameraRoll = s.CameraRoll := by
  simp only [OnLineWallTraceHit, StartWallRun_CameraRoll, apply_ite Prod.fst, apply_ite AFPSCharacter.CameraRoll,
    ite_self]

@[simp]
theorem OnJumpLand_CameraRoll (m : MathLib R) (s : AFPSCharacter R) (H : FHitResult R) :
    (OnJumpLand m s H).CameraRoll = s.CameraRoll := by
  simp only [OnJumpLand, StartSlide_CameraRoll, StopWallRun_CameraRoll, apply_ite Prod.fst, apply_ite AFPSCharacter.CameraRoll,
    ite_self]

@[simp]
theorem AirJump_CameraRoll (s : AFPSCharacter R) :
    s.AirJump.CameraRoll = s.CameraRoll := by
  simp only [AirJump, LaunchCharacter_CameraRoll, apply_ite Prod.fst, apply_ite AFPSCharacter.CameraRoll,
    ite_self]

@[simp]
theorem LaunchCharacter_WallRunTiltDirection (s : AFPSCharacter R) (L : FVector R) (b1 b2 : Bool) :
    (s.LaunchCharacter L b1 b2).WallRunTiltDirection = s.WallRunTiltDirection := by
  simp only [LaunchCharacter, apply_ite Prod.fst, apply_ite AFPSCharacter.WallRunTiltDirection,
    ite_self]

@[simp]
theorem AddMovementInput_WallRunTiltDirection (s : AFPSCharacter R) (W : FVector R) :
    (s.AddMovementInput W).WallRunTiltDirection = s.WallRunTiltDirection := by
  simp only [AddMovementInput, apply_ite Prod.fst, apply_ite AFPSCharacter.WallRunTiltDirection,
    ite_self]

@[simp]
theorem BeginPlay_WallRunTiltDirection (s : AFPSCharacter R) :
    s.BeginPlay.WallRunTiltDirection = s.WallRunTiltDirection := by
  simp only [BeginPlay, apply_ite Prod.fst, apply_ite AFPSCharacter.WallRunTiltDirection,
    ite_self]

@[simp]
theorem AirAccelerate_WallRunTiltDirection (m : MathLib R) (s : AFPSCharacter R) (W : FVector R) :
    (AirAccelerate m s W).WallRunTiltDirection = s.WallRunTiltDirection := by
  simp only [AirAccelerate, apply_ite Prod.fst, apply_ite AFPSCharacter.WallRunTiltDirection,
    ite_self]

@[simp]
theorem Walk_WallRunTiltDirection (m : MathLib R) (s : AFPSCharacter R) (W : FVector R) :
    (Walk m s W).WallRunTiltDirection = s.WallRunTiltDirection := by
  simp only [Walk, AirAccelerate_WallRunTiltDirection, AddMovementInput_WallRunTiltDirection, apply_ite Prod.fst, apply_ite AFPSCharacter.WallRunTiltDirection,
    ite_self]

@[simp]
theorem StartSlide_WallRunTiltDirection (m : MathLib R) (s : AFPSCharacter R) :
    (StartSlide m s).WallRunTiltDirection = s.WallRunTiltDirection := by
  simp only [StartSlide, apply_ite Prod.fst, apply_ite AFPSCharacter.WallRunTiltDirection,
    ite_self]

@[simp]
theorem StartCrouch_WallRunTiltDirection (m : MathLib R) (s : AFPSCharacter R) :
    (StartCrouch m s).WallRunTiltDirection = s.WallRunTiltDirection := by
  simp only [StartCrouch, StartSlide_WallRunTiltDirection, apply_ite Prod.fst, apply_ite AFPSCharacter.WallRunTiltDirection,
    ite_self]

@[simp]
theorem StopCrouch_WallRunTiltDirection (s : AFPSCharacter R) :
    s.StopCrouch.WallRunTiltDirection = s.WallRunTiltDirection := by
  simp only [StopCrouch, apply_ite Prod.fst, apply_ite AFPSCharacter.WallRunTiltDirection,
    ite_self]

@[simp]
theorem GradualCrouch_WallRunTiltDirection (s : AFPSCharacter R) (z d : R) :
    (s.GradualCrouch z d).WallRunTiltDirection = s.WallRunTiltDirection := by
  simp only [GradualCrouch, apply_ite Prod.fst, apply_ite AFPSCharacter.WallRunTiltDirection,
    ite_self]

@[simp]
theorem GradualSlide_WallRunTiltDirection (m : MathLib R) (s : AFPSCharacter R) (d : R) :
    (GradualSlide m s d).1.WallRunTiltDirection = s.WallRunTiltDirection := by
  simp only [GradualSlide, apply_ite Prod.fst, apply_ite AFPSCharacter.WallRunTiltDirection,
    ite_self]

@[simp]
theorem SmoothCameraTilt_WallRunTiltDirection (s : AFPSCharacter R) (a b d : R) :
    (s.SmoothCameraTilt a b d).WallRunTiltDirection = s.WallRunTiltDirection := by
  simp only [SmoothCameraTilt, apply_ite Prod.fst, apply_ite AFPSCharacter.WallRunTiltDirection,
    ite_self]

@[simp]
theorem WallRun_WallRunTiltDirection (s : AFPSCharacter R) (d : R) :
    (s.WallRun d).WallRunTiltDirection = s.WallRunTiltDirection := by
  simp only [WallRun, apply_ite Prod.fst, apply_ite AFPSCharacter.WallRunTiltDirection,
    ite_self]

@[simp]
theorem StopWallRun_WallRunTiltDirection (s : AFPSCharacter R) :
    s.StopWallRun.WallRunTiltDirection = s.WallRunTiltDirection := by
  simp only [StopWallRun, apply_ite Prod.fst, apply_ite AFPSCharacter.WallRunTiltDirection,
    ite_self]

@[simp]
theorem WallJump_WallRunTiltDirection (s : AFPSCharacter R) :
    s.WallJump.WallRunTiltDirection = s.WallRunTiltDirection := by
  simp only [WallJump, StopWallRun_WallRunTiltDirection, LaunchCharacter_WallRunTiltDirection, apply_ite Prod.fst, apply_ite AFPSCharacter.WallRunTiltDirection,
    ite_self]

@[simp]
theorem OnJumpLand_WallRunTiltDirection (m : MathLib R) (s : AFPSCharacter R) (H : FHitResult R) :
    (OnJumpLand m s H).WallRunTiltDirection = s.WallRunTiltDirection := by
  simp only [OnJumpLand, StartSlide_WallRunTiltDirection, StopWallRun_WallRunTiltDirection, apply_ite Prod.fst, apply_ite AFPSCharacter.WallRunTiltDirection,
    ite_self]

@[simp]
theorem AirJump_WallRunTiltDirection (s : AFPSCharacter R) :
    s.AirJump.WallRunTiltDirection = s.WallRunTiltDirection := by
  simp only [AirJump, LaunchCharacter_WallRunTiltDirection, apply_ite Prod.fst, apply_ite AFPSCharacter.WallRunTiltDirection,
    ite_self]

@[simp]
theorem Tick_WallRunTiltDirection (m : MathLib R) (s : AFPSCharacter R) (d : R) :
    (Tick m s d).WallRunTiltDirection = s.WallRunTiltDirection := by
  simp only [Tick, SmoothCameraTilt_WallRunTiltDirection, GradualCrouch_WallRunTiltDirection, GradualSlide_WallRunTiltDirection, WallRun_WallRunTiltDirection, apply_ite Prod.fst, apply_ite AFPSCharacter.WallRunTiltDirection,
    ite_self]

@[simp]
theorem LaunchCharacter_WallRunCameraTiltAngle (s : AFPSCharacter R) (L : FVector R) (b1 b2 : Bool) :
    (s.LaunchCharacter L b1 b2).WallRunCameraTiltAngle = s.WallRunCameraTiltAngle := by
  simp only [LaunchCharacter, apply_ite Prod.fst, apply_ite AFPSCharacter.WallRunCameraTiltAngle,
    ite_self]

@[simp]
theorem AddMovementInput_WallRunCameraTiltAngle (s : AFPSCharacter R) (W : FVector R) :
    (s.AddMovementInput W).WallRunCameraTiltAngle = s.WallRunCameraTiltAngle := by
  simp only [AddMovementInput, apply_ite Prod.fst, apply_ite AFPSCharacter.WallRunCameraTiltAngle,
    ite_self]

@[simp]
theorem BeginPlay_WallRunCameraTiltAngle (s : AFPSCharacter R) :
    s.BeginPlay.WallRunCameraTiltAngle = s.WallRunCameraTiltAngle := by
  simp only [BeginPlay, apply_ite Prod.fst, apply_ite AFPSCharacter.WallRunCameraTiltAngle,
    ite_self]

@[simp]
theorem AirAccelerate_WallRunCameraTiltAngle (m : MathLib R) (s : AFPSCharacter R) (W : FVector R) :
    (AirAccelerate m s W).WallRunCameraTiltAngle = s.WallRunCameraTiltAngle := by
  simp only [AirAccelerate, apply_ite Prod.fst, apply_ite AFPSCharacter.WallRunCameraTiltAngle,
    ite_self]

@[simp]
theorem Walk_WallRunCameraTiltAngle (m : MathLib R) (s : AFPSCharacter R) (W : FVector R) :
    (Walk m s W).WallRunCameraTiltAngle = s.WallRunCameraTiltAngle := by
  simp only [Walk, AirAccelerate_WallRunCameraTiltAngle, AddMovementInput_WallRunCameraTiltAngle, apply_ite Prod.fst, apply_ite AFPSCharacter.WallRunCameraTiltAngle,
    ite_self]

@[simp]
theorem StartSlide_WallRunCameraTiltAngle (m : MathLib R) (s : AFPSCharacter R) :
    (StartSlide m s).WallRunCameraTiltAngle = s.WallRunCameraTiltAngle := by
  simp only [StartSlide, apply_ite Prod.fst, apply_ite AFPSCharacter.WallRunCameraTiltAngle,
    ite_self]

@[simp]
theorem StartCrouch_WallRunCameraTiltAngle (m : MathLib R) (s : AFPSCharacter R) :
    (StartCrouch m s).WallRunCameraTiltAngle = s.WallRunCameraTiltAngle := by
  simp only [StartCrouch, StartSlide_WallRunCameraTiltAngle, apply_ite Prod.fst, apply_ite AFPSCharacter.WallRunCameraTiltAngle,
    ite_self]

@[simp]
theorem StopCrouch_WallRunCameraTiltAngle (s : AFPSCharacter R) :
    s.StopCrouch.WallRunCameraTiltAngle = s.WallRunCameraTiltAngle := by
  simp only [StopCrouch, apply_ite Prod.fst, apply_ite AFPSCharacter.WallRunCameraTiltAngle,
    ite_self]

@[simp]
theorem GradualCrouch_WallRunCameraTiltAngle (s : AFPSCharacter R) (z d : R) :
    (s.GradualCrouch z d).WallRunCameraTiltAngle = s.WallRunCameraTiltAngle := by
  simp only [GradualCrouch, apply_ite Prod.fst, apply_ite AFPSCharacter.WallRunCameraTiltAngle,
    ite_self]

@[simp]
theorem GradualSlide_WallRunCameraTiltAngle (m : MathLib R) (s : AFPSCharacter R) (d : R) :
    (GradualSlide m s d).1.WallRunCameraTiltAngle = s.WallRunCameraTiltAngle := by
  simp only [GradualSlide, apply_ite Prod.fst, apply_ite AFPSCharacter.WallRunCameraTiltAngle,
    ite_self]

@[simp]
theorem SmoothCameraTilt_WallRunCameraTiltAngle (s : AFPSCharacter R) (a b d : R) :
    (s.SmoothCameraTilt a b d).WallRunCameraTiltAngle = s.WallRunCameraTiltAngle := by
  simp only [SmoothCameraTilt, apply_ite Prod.fst, apply_ite AFPSCharacter.WallRunCameraTiltAngle,
    ite_self]

@[simp]
theorem WallRun_WallRunCameraTiltAngle (s : AFPSCharacter R) (d : R) :
    (s.WallRun d).WallRunCameraTiltAngle = s.WallRunCameraTiltAngle := by
  simp only [WallRun, apply_ite Prod.fst, apply_ite AFPSCharacter.WallRunCameraTiltAngle,
    ite_self]

@[simp]
theorem StopWallRun_WallRunCameraTiltAngle (s : AFPSCharacter R) :
    s.StopWallRun.WallRunCameraTiltAngle = s.WallRunCameraTiltAngle := by
  simp only [StopWallRun, apply_ite Prod.fst, apply_ite AFPSCharacter.WallRunCameraTiltAngle,
    ite_self]

@[simp]
theorem WallJump_WallRunCameraTiltAngle (s : AFPSCharacter R) :
    s.WallJump.WallRunCameraTiltAngle = s.WallRunCameraTiltAngle := by
  simp only [WallJump, StopWallRun_WallRunCameraTiltAngle, LaunchCharacter_WallRunCameraTiltAngle, apply_ite Prod.fst, apply_ite AFPSCharacter.WallRunCameraTiltAngle,
    ite_self]

@[simp]
theorem StartWallRun_WallRunCameraTiltAngle (m : MathLib R) (s : AFPSCharacter R) (H : FHitResult R) :
    (StartWallRun m s H).WallRunCameraTiltAngle = s.WallRunCameraTiltAngle := by
  simp only [StartWallRun, apply_ite Prod.fst, apply_ite AFPSCharacter.WallRunCameraTiltAngle,
    ite_self]

@[simp]
theorem OnLineWallTraceHit_WallRunCameraTiltAngle (m : MathLib R) (s : AFPSCharacter R) (H : FHitResult R) :
    (OnLineWallTraceHit m s H).WallRunCameraTiltAngle = s.WallRunCameraTiltAngle := by
  simp only [OnLineWallTraceHit, StartWallRun_WallRunCameraTiltAngle, apply_ite Prod.fst, apply_ite AFPSCharacter.WallRunCameraTiltAngle,
    ite_self]

@[simp]
theorem OnJumpLand_WallRunCameraTiltAngle (m : MathLib R) (s : AFPSCharacter R) (H : FHitResult R) :
    (OnJumpLand m s H).WallRunCameraTiltAngle = s.WallRunCameraTiltAngle := by
  simp only [OnJumpLand, StartSlide_WallRunCameraTiltAngle, StopWallRun_WallRunCameraTiltAngle, apply_ite Prod.fst, apply_ite AFPSCharacter.WallRunCameraTiltAngle,
    ite_self]

@[simp]
theorem AirJump_WallRunCameraTiltAngle (s : AFPSCharacter R) :
    s.AirJump.WallRunCameraTiltAngle = s.WallRunCameraTiltAngle := by
  simp only [AirJump, LaunchCharacter_WallRunCameraTiltAngle, apply_ite Prod.fst, apply_ite AFPSCharacter.WallRunCameraTiltAngle,
    ite_self]

@[simp]
theorem Tick_WallRunCameraTiltAngle (m : MathLib R) (s : AFPSCharacter R) (d : R) :
    (Tick m s d).WallRunCameraTiltAngle = s.WallRunCameraTiltAngle := by
  simp only [Tick, SmoothCameraTilt_WallRunCameraTiltAngle, GradualCrouch_WallRunCameraTiltAngle, GradualSlide_WallRunCameraTiltAngle, WallRun_WallRunCameraTiltAngle, apply_ite Prod.fst, apply_ite AFPSCharacter.WallRunCameraTiltAngle,
    ite_self]

@[simp]
theorem LaunchCharacter_WallRunTransitionSpeed (s : AFPSCharacter R) (L : FVector R) (b1 b2 : Bool) :
    (s.LaunchCharacter L b1 b2).WallRunTransitionSpeed = s.WallRunTransitionSpeed := by
  simp only [LaunchCharacter, apply_ite Prod.fst, apply_ite AFPSCharacter.WallRunTransitionSpeed,
    ite_self]

@[simp]
theorem AddMovementInput_WallRunTransitionSpeed (s : AFPSCharacter R) (W : FVector R) :
    (s.AddMovementInput W).WallRunTransitionSpeed = s.WallRunTransitionSpeed := by
  simp only [AddMovementInput, apply_ite Prod.fst, apply_ite AFPSCharacter.WallRunTransitionSpeed,
    ite_self]

@[simp]
theorem BeginPlay_WallRunTransitionSpeed (s : AFPSCharacter R) :
    s.BeginPlay.WallRunTransitionSpeed = s.WallRunTransitionSpeed := by
  simp only [BeginPlay, apply_ite Prod.fst, apply_ite AFPSCharacter.WallRunTransitionSpeed,
    ite_self]

@[simp]
theorem AirAccelerate_WallRunTransitionSpeed (m : MathLib R) (s : AFPSCharacter R) (W : FVector R) :
    (AirAccelerate m s W).WallRunTransitionSpeed = s.WallRunTransitionSpeed := by
  simp only [AirAccelerate, apply_ite Prod.fst, apply_ite AFPSCharacter.WallRunTransitionSpeed,
    ite_self]

@[simp]
theorem Walk_WallRunTransitionSpeed (m : MathLib R) (s : AFPSCharacter R) (W : FVector R) :
    (Walk m s W).WallRunTransitionSpeed = s.WallRunTransitionSpeed := by
  simp only [Walk, AirAccelerate_WallRunTransitionSpeed, AddMovementInput_WallRunTransitionSpeed, apply_ite Prod.fst, apply_ite AFPSCharacter.WallRunTransitionSpeed,
    ite_self]

@[simp]
theorem StartSlide_WallRunTransitionSpeed (m : MathLib R) (s : AFPSCharacter R) :
    (StartSlide m s).WallRunTransitionSpeed = s.WallRunTransitionSpeed := by
  simp only [StartSlide, apply_ite Prod.fst, apply_ite AFPSCharacter.WallRunTransitionSpeed,
    ite_self]

@[simp]
theorem StartCrouch_WallRunTransitionSpeed (m : MathLib R) (s : AFPSCharacter R) :
    (StartCrouch m s).WallRunTransitionSpeed = s.WallRunTransitionSpeed := by
  simp only [StartCrouch, StartSlide_WallRunTransitionSpeed, apply_ite Prod.fst, apply_ite AFPSCharacter.WallRunTransitionSpeed,
    ite_self]

@[simp]
theorem StopCrouch_WallRunTransitionSpeed (s : AFPSCharacter R) :
    s.StopCrouch.WallRunTransitionSpeed = s.WallRunTransitionSpeed := by
  simp only [StopCrouch, apply_ite Prod.fst, apply_ite AFPSCharacter.WallRunTransitionSpeed,
    ite_self]

@[simp]
theorem GradualCrouch_WallRunTransitionSpeed (s : AFPSCharacter R) (z d : R) :
    (s.GradualCrouch z d).WallRunTransitionSpeed = s.WallRunTransitionSpeed := by
  simp only [GradualCrouch, apply_ite Prod.fst, apply_ite AFPSCharacter.WallRunTransitionSpeed,
    ite_self]

@[simp]
theorem GradualSlide_WallRunTransitionSpeed (m : MathLib R) (s : AFPSCharacter R) (d : R) :
    (GradualSlide m s d).1.WallRunTransitionSpeed = s.WallRunTransitionSpeed := by
  simp only [GradualSlide, apply_ite Prod.fst, apply_ite AFPSCharacter.WallRunTransitionSpeed,
    ite_self]

@[simp]
theorem SmoothCameraTilt_WallRunTransitionSpeed (s : AFPSCharacter R) (a b d : R) :
    (s.SmoothCameraTilt a b d).WallRunTransitionSpeed = s.WallRunTransitionSpeed := by
  simp only [SmoothCameraTilt, apply_ite Prod.fst, apply_ite AFPSCharacter.WallRunTransitionSpeed,
    ite_self]

@[simp]
theorem WallRun_WallRunTransitionSpeed (s : AFPSCharacter R) (d : R) :
    (s.WallRun d).WallRunTransitionSpeed = s.WallRunTransitionSpeed := by
  simp only [WallRun, apply_ite Prod.fst, apply_ite AFPSCharacter.WallRunTransitionSpeed,
    ite_self]

@[simp]
theorem StopWallRun_WallRunTransitionSpeed (s : AFPSCharacter R) :
    s.StopWallRun.WallRunTransitionSpeed = s.WallRunTransitionSpeed := by
  simp only [StopWallRun, apply_ite Prod.fst, apply_ite AFPSCharacter.WallRunTransitionSpeed,
    ite_self]

@[simp]
theorem WallJump_WallRunTransitionSpeed (s : AFPSCharacter R) :
    s.WallJump.WallRunTransitionSpeed = s.WallRunTransitionSpeed := by
  simp only [WallJump, StopWallRun_WallRunTransitionSpeed, LaunchCharacter_WallRunTransitionSpeed, apply_ite Prod.fst, apply_ite AFPSCharacter.WallRunTransitionSpeed,
    ite_self]

@[simp]
theorem StartWallRun_WallRunTransitionSpeed (m : MathLib R) (s : AFPSCharacter R) (H : FHitResult R) :
    (StartWallRun m s H).WallRunTransitionSpeed = s.WallRunTransitionSpeed := by
  simp only [StartWallRun, apply_ite Prod.fst, apply_ite AFPSCharacter.WallRunTransitionSpeed,
    ite_self]

@[simp]
theorem OnLineWallTraceHit_WallRunTransitionSpeed (m : MathLib R) (s : AFPSCharacter R) (H : FHitResult R) :
    (OnLineWallTraceHit m s H).WallRunTransitionSpeed = s.WallRunTransitionSpeed := by
  simp only [OnLineWallTraceHit, StartWallRun_WallRunTransitionSpeed, apply_ite Prod.fst, apply_ite AFPSCharacter.WallRunTransitionSpeed,
    ite_self]

@[simp]
theorem OnJumpLand_WallRunTransitionSpeed (m : MathLib R) (s : AFPSCharacter R) (H : FHitResult R) :
    (OnJumpLand m s H).WallRunTransitionSpeed = s.WallRunTransitionSpeed := by
  simp only [OnJumpLand, StartSlide_WallRunTransitionSpeed, StopWallRun_WallRunTransitionSpeed, apply_ite Prod.fst, apply_ite AFPSCharacter.WallRunTransitionSpeed,
    ite_self]

@[simp]
theorem AirJump_WallRunTransitionSpeed (s : AFPSCharacter R) :
    s.AirJump.WallRunTransitionSpeed = s.WallRunTransitionSpeed := by
  simp only [AirJump, LaunchCharacter_WallRunTransitionSpeed, apply_ite Prod.fst, apply_ite AFPSCharacter.WallRunTransitionSpeed,
    ite_self]

@[simp]
theorem Tick_WallRunTransitionSpeed (m : MathLib R) (s : AFPSCharacter R) (d : R) :
    (Tick m s d).WallRunTransitionSpeed = s.WallRunTransitionSpeed := by
  simp only [Tick, SmoothCameraTilt_WallRunTransitionSpeed, GradualCrouch_WallRunTransitionSpeed, GradualSlide_WallRunTransitionSpeed, WallRun_WallRunTransitionSpeed, apply_ite Prod.fst, apply_ite AFPSCharacter.WallRunTransitionSpeed,
    ite_self]

@[simp]
theorem LaunchCharacter_SlideCameraTiltSpeed (s : AFPSCharacter R) (L : FVector R) (b1 b2 : Bool) :
    (s.LaunchCharacter L b1 b2).SlideCameraTiltSpeed = s.SlideCameraTiltSpeed := by
  simp only [LaunchCharacter, apply_ite Prod.fst, apply_ite AFPSCharacter.SlideCameraTiltSpeed,
    ite_self]

@[simp]
theorem AddMovementInput_SlideCameraTiltSpeed (s : AFPSCharacter R) (W : FVector R) :
    (s.AddMovementInput W).SlideCameraTiltSpeed = s.SlideCameraTiltSpeed := by
  simp only [AddMovementInput, apply_ite Prod.fst, apply_ite AFPSCharacter.SlideCameraTiltSpeed,
    ite_self]

@[simp]
theorem BeginPlay_SlideCameraTiltSpeed (s : AFPSCharacter R) :
    s.BeginPlay.SlideCameraTiltSpeed = s.SlideCameraTiltSpeed := by
  simp only [BeginPlay, apply_ite Prod.fst, apply_ite AFPSCharacter.SlideCameraTiltSpeed,
    ite_self]

@[simp]
theorem AirAccelerate_SlideCameraTiltSpeed (m : MathLib R) (s : AFPSCharacter R) (W : FVector R) :
    (AirAccelerate m s W).SlideCameraTiltSpeed = s.SlideCameraTiltSpeed := by
  simp only [AirAccelerate, apply_ite Prod.fst, apply_ite AFPSCharacter.SlideCameraTiltSpeed,
    ite_self]

@[simp]
theorem Walk_SlideCameraTiltSpeed (m : MathLib R) (s : AFPSCharacter R) (W : FVector R) :
    (Walk m s W).SlideCameraTiltSpeed = s.SlideCameraTiltSpeed := by
  simp only [Walk, AirAccelerate_SlideCameraTiltSpeed, AddMovementInput_SlideCameraTiltSpeed, apply_ite Prod.fst, apply_ite AFPSCharacter.SlideCameraTiltSpeed,
    ite_self]

@[simp]
theorem StartSlide_SlideCameraTiltSpeed (m : MathLib R) (s : AFPSCharacter R) :
    (StartSlide m s).SlideCameraTiltSpeed = s.SlideCameraTiltSpeed := by
  simp only [StartSlide, apply_ite Prod.fst, apply_ite AFPSCharacter.SlideCameraTiltSpeed,
    ite_self]

@[simp]
theorem StartCrouch_SlideCameraTiltSpeed (m : MathLib R) (s : AFPSCharacter R) :
    (StartCrouch m s).SlideCameraTiltSpeed = s.SlideCameraTiltSpeed := by
  simp only [StartCrouch, StartSlide_SlideCameraTiltSpeed, apply_ite Prod.fst, apply_ite AFPSCharacter.SlideCameraTiltSpeed,
    ite_self]

@[simp]
theorem StopCrouch_SlideCameraTiltSpeed (s : AFPSCharacter R) :
    s.StopCrouch.SlideCameraTiltSpeed = s.SlideCameraTiltSpeed := by
  simp only [StopCrouch, apply_ite Prod.fst, apply_ite AFPSCharacter.SlideCameraTiltSpeed,
    ite_self]

@[simp]
theorem GradualCrouch_SlideCameraTiltSpeed (s : AFPSCharacter R) (z d : R) :
    (s.GradualCrouch z d).SlideCameraTiltSpeed = s.SlideCameraTiltSpeed := by
  simp only [GradualCrouch, apply_ite Prod.fst, apply_ite AFPSCharacter.SlideCameraTiltSpeed,
    ite_self]

@[simp]
theorem GradualSlide_SlideCameraTiltSpeed (m : MathLib R) (s : AFPSCharacter R) (d : R) :
    (GradualSlide m s d).1.SlideCameraTiltSpeed = s.SlideCameraTiltSpeed := by
  simp only [GradualSlide, apply_ite Prod.fst, apply_ite AFPSCharacter.SlideCameraTiltSpeed,
    ite_self]

@[simp]
theorem SmoothCameraTilt_SlideCameraTiltSpeed (s : AFPSCharacter R) (a b d : R) :
    (s.SmoothCameraTilt a b d).SlideCameraTiltSpeed = s.SlideCameraTiltSpeed := by
  simp only [SmoothCameraTilt, apply_ite Prod.fst, apply_ite AFPSCharacter.SlideCameraTiltSpeed,
    ite_self]

@[simp]
theorem WallRun_SlideCameraTiltSpeed (s : AFPSCharacter R) (d : R) :
    (s.WallRun d).SlideCameraTiltSpeed = s.SlideCameraTiltSpeed := by
  simp only [WallRun, apply_ite Prod.fst, apply_ite AFPSCharacter.SlideCameraTiltSpeed,
    ite_self]

@[simp]
theorem StopWallRun_SlideCameraTiltSpeed (s : AFPSCharacter R) :
    s.StopWallRun.SlideCameraTiltSpeed = s.SlideCameraTiltSpeed := by
  simp only [StopWallRun, apply_ite Prod.fst, apply_ite AFPSCharacter.SlideCameraTiltSpeed,
    ite_self]

@[simp]
theorem WallJump_SlideCameraTiltSpeed (s : AFPSCharacter R) :
    s.WallJump.SlideCameraTiltSpeed = s.SlideCameraTiltSpeed := by
  simp only [WallJump, StopWallRun_SlideCameraTiltSpeed, LaunchCharacter_SlideCameraTiltSpeed, apply_ite Prod.fst, apply_ite AFPSCharacter.SlideCameraTiltSpeed,
    ite_self]

@[simp]
theorem StartWallRun_SlideCameraTiltSpeed (m : MathLib R) (s : AFPSCharacter R) (H : FHitResult R) :
    (StartWallRun m s H).SlideCameraTiltSpeed = s.SlideCameraTiltSpeed := by
  simp only [StartWallRun, apply_ite Prod.fst, apply_ite AFPSCharacter.SlideCameraTiltSpeed,
    ite_self]

@[simp]
theorem OnLineWallTraceHit_SlideCameraTiltSpeed (m : MathLib R) (s : AFPSCharacter R) (H : FHitResult R) :
    (OnLineWallTraceHit m s H).SlideCameraTiltSpeed = s.SlideCameraTiltSpeed := by
  simp only [OnLineWallTraceHit, StartWallRun_SlideCameraTiltSpeed, apply_ite Prod.fst, apply_ite AFPSCharacter.SlideCameraTiltSpeed,
    ite_self]

@[simp]
theorem OnJumpLand_SlideCameraTiltSpeed (m : MathLib R) (s : AFPSCharacter R) (H : FHitResult R) :
    (OnJumpLand m s H).SlideCameraTiltSpeed = s.SlideCameraTiltSpeed := by
  simp only [OnJumpLand, StartSlide_SlideCameraTiltSpeed, StopWallRun_SlideCameraTiltSpeed, apply_ite Prod.fst, apply_ite AFPSCharacter.SlideCameraTiltSpeed,
    ite_self]

@[simp]
theorem AirJump_SlideCameraTiltSpeed (s : AFPSCharacter R) :
    s.AirJump.SlideCameraTiltSpeed = s.SlideCameraTiltSpeed := by
  simp only [AirJump, LaunchCharacter_SlideCameraTiltSpeed, apply_ite Prod.fst, apply_ite AFPSCharacter.SlideCameraTiltSpeed,
    ite_self]

@[simp]
theorem Tick_SlideCameraTiltSpeed (m : MathLib R) (s : AFPSCharacter R) (d : R) :
    (Tick m s d).SlideCameraTiltSpeed = s.SlideCameraTiltSpeed := by
  simp only [Tick, SmoothCameraTilt_SlideCameraTiltSpeed, GradualCrouch_SlideCameraTiltSpeed, GradualSlide_SlideCameraTiltSpeed, WallRun_SlideCameraTiltSpeed, apply_ite Prod.fst, apply_ite AFPSCharacter.SlideCameraTiltSpeed,
    ite_self]

@[simp]
theorem LaunchCharacter_AirControlResetTimer (s : AFPSCharacter R) (L : FVector R) (b1 b2 : Bool) :
    (s.LaunchCharacter L b1 b2).AirControlResetTimer = s.AirControlResetTimer := by
  simp only [LaunchCharacter, apply_ite Prod.fst, apply_ite AFPSCharacter.AirControlResetTimer,
    ite_self]

@[simp]
theorem AddMovementInput_AirControlResetTimer (s : AFPSCharacter R) (W : FVector R) :
    (s.AddMovementInput W).AirControlResetTimer = s.AirControlResetTimer := by
  simp only [AddMovementInput, apply_ite Prod.fst, apply_ite AFPSCharacter.AirControlResetTimer,
    ite_self]

@[simp]
theorem BeginPlay_AirControlResetTimer (s : AFPSCharacter R) :
    s.BeginPlay.AirControlResetTimer = s.AirControlResetTimer := by
  simp only [BeginPlay, apply_ite Prod.fst, apply_ite AFPSCharacter.AirControlResetTimer,
    ite_self]

@[simp]
theorem AirAccelerate_AirControlResetTimer (m : MathLib R) (s : AFPSCharacter R) (W : FVector R) :
    (AirAccelerate m s W).AirControlResetTimer = s.AirControlResetTimer := by
  simp only [AirAccelerate, apply_ite Prod.fst, apply_ite AFPSCharacter.AirControlResetTimer,
    ite_self]

@[simp]
theorem Walk_AirControlResetTimer (m : MathLib R) (s : AFPSCharacter R) (W : FVector R) :
    (Walk m s W).AirControlResetTimer = s.AirControlResetTimer := by
  simp only [Walk, AirAccelerate_AirControlResetTimer, AddMovementInput_AirControlResetTimer, apply_ite Prod.fst, apply_ite AFPSCharacter.AirControlResetTimer,
    ite_self]

@[simp]
theorem StartSlide_AirControlResetTimer (m : MathLib R) (s : AFPSCharacter R) :
    (StartSlide m s).AirControlResetTimer = s.AirControlResetTimer := by
  simp only [StartSlide, apply_ite Prod.fst, apply_ite AFPSCharacter.AirControlResetTimer,
    ite_self]

@[simp]
theorem StartCrouch_AirControlResetTimer (m : MathLib R) (s : AFPSCharacter R) :
    (StartCrouch m s).AirControlResetTimer = s.AirControlResetTimer := by
  simp only [StartCrouch, StartSlide_AirControlResetTimer, apply_ite Prod.fst, apply_ite AFPSCharacter.AirControlResetTimer,
    ite_self]

@[simp]
theorem StopCrouch_AirControlResetTimer (s : AFPSCharacter R) :
    s.StopCrouch.AirControlResetTimer = s.AirControlResetTimer := by
  simp only [StopCrouch, apply_ite Prod.fst, apply_ite AFPSCharacter.AirControlResetTimer,
    ite_self]

@[simp]
theorem GradualCrouch_AirControlResetTimer (s : AFPSCharacter R) (z d : R) :
    (s.GradualCrouch z d).AirControlResetTimer = s.AirControlResetTimer := by
  simp only [GradualCrouch, apply_ite Prod.fst, apply_ite AFPSCharacter.AirControlResetTimer,
    ite_self]

@[simp]
theorem GradualSlide_AirControlResetTimer (m : MathLib R) (s : AFPSCharacter R) (d : R) :
    (GradualSlide m s d).1.AirControlResetTimer = s.AirControlResetTimer := by
  simp only [GradualSlide, apply_ite Prod.fst, apply_ite AFPSCharacter.AirControlResetTimer,
    ite_self]

@[simp]
theorem SmoothCameraTilt_AirControlResetTimer (s : AFPSCharacter R) (a b d : R) :
    (s.SmoothCameraTilt a b d).AirControlResetTimer = s.AirControlResetTimer := by
  simp only [SmoothCameraTilt, apply_ite Prod.fst, apply_ite AFPSCharacter.AirControlResetTimer,
    ite_self]

@[simp]
theorem WallRun_AirControlResetTimer (s : AFPSCharacter R) (d : R) :
    (s.WallRun d).AirControlResetTimer = s.AirControlResetTimer := by
  simp only [WallRun, apply_ite Prod.fst, apply_ite AFPSCharacter.AirControlResetTimer,
    ite_self]

@[simp]
theorem StartWallRun_AirControlResetTimer (m : MathLib R) (s : AFPSCharacter R) (H : FHitResult R) :
    (StartWallRun m s H).AirControlResetTimer = s.AirControlResetTimer := by
  simp only [StartWallRun, apply_ite Prod.fst, apply_ite AFPSCharacter.AirControlResetTimer,
    ite_self]

@[simp]
theorem OnLineWallTraceHit_AirControlResetTimer (m : MathLib R) (s : AFPSCharacter R) (H : FHitResult R) :
    (OnLineWallTraceHit m s H).AirControlResetTimer = s.AirControlResetTimer := by
  simp only [OnLineWallTraceHit, StartWallRun_AirControlResetTimer, apply_ite Prod.fst, apply_ite AFPSCharacter.AirControlResetTimer,
    ite_self]

@[simp]
theorem AirJump_AirControlResetTimer (s : AFPSCharacter R) :
    s.AirJump.AirControlResetTimer = s.AirControlResetTimer := by
  simp only [AirJump, LaunchCharacter_AirControlResetTimer, apply_ite Prod.fst, apply_ite AFPSCharacter.AirControlResetTimer,
    ite_self]

@[simp]
theorem Tick_AirControlResetTimer (m : MathLib R) (s : AFPSCharacter R) (d : R) :
    (Tick m s d).AirControlResetTimer = s.AirControlResetTimer := by
  simp only [Tick, SmoothCameraTilt_AirControlResetTimer, GradualCrouch_AirControlResetTimer, GradualSlide_AirControlResetTimer, WallRun_AirControlResetTimer, apply_ite Prod.fst, apply_ite AFPSCharacter.AirControlResetTimer,
    ite_self]

@[simp]
theorem LaunchCharacter_NormalScale (s : AFPSCharacter R) (L : FVector R) (b1 b2 : Bool) :
    (s.LaunchCharacter L b1 b2).NormalScale = s.NormalScale := by
  simp only [LaunchCharacter, apply_ite Prod.fst, apply_ite AFPSCharacter.NormalScale,
    ite_self]

@[simp]
theorem AddMovementInput_NormalScale (s : AFPSCharacter R) (W : FVector R) :
    (s.AddMovementInput W).NormalScale = s.NormalScale := by
  simp only [AddMovementInput, apply_ite Prod.fst, apply_ite AFPSCharacter.NormalScale,
    ite_self]

@[simp]
theorem BeginPlay_NormalScale (s : AFPSCharacter R) :
    s.BeginPlay.NormalScale = s.NormalScale := by
  simp only [BeginPlay, apply_ite Prod.fst, apply_ite AFPSCharacter.NormalScale,
    ite_self]

@[simp]
theorem AirAccelerate_NormalScale (m : MathLib R) (s : AFPSCharacter R) (W : FVector R) :
    (AirAccelerate m s W).NormalScale = s.NormalScale := by
  simp only [AirAccelerate, apply_ite Prod.fst, apply_ite AFPSCharacter.NormalScale,
    ite_self]

@[simp]
theorem Walk_NormalScale (m : MathLib R) (s : AFPSCharacter R) (W : FVector R) :
    (Walk m s W).NormalScale = s.NormalScale := by
  simp only [Walk, AirAccelerate_NormalScale, AddMovementInput_NormalScale, apply_ite Prod.fst, apply_ite AFPSCharacter.NormalScale,
    ite_self]

@[simp]
theorem StartSlide_NormalScale (m : MathLib R) (s : AFPSCharacter R) :
    (StartSlide m s).NormalScale = s.NormalScale := by
  simp only [StartSlide, apply_ite Prod.fst, apply_ite AFPSCharacter.NormalScale,
    ite_self]

@[simp]
theorem StartCrouch_NormalScale (m : MathLib R) (s : AFPSCharacter R) :
    (StartCrouch m s).NormalScale = s.NormalScale := by
  simp only [StartCrouch, StartSlide_NormalScale, apply_ite Prod.fst, apply_ite AFPSCharacter.NormalScale,
    ite_self]

@[simp]
theorem StopCrouch_NormalScale (s : AFPSCharacter R) :
    s.StopCrouch.NormalScale = s.NormalScale := by
  simp only [StopCrouch, apply_ite Prod.fst, apply_ite AFPSCharacter.NormalScale,
    ite_self]

@[simp]
theorem GradualCrouch_NormalScale (s : AFPSCharacter R) (z d : R) :
    (s.GradualCrouch z d).NormalScale = s.NormalScale := by
  simp only [GradualCrouch, apply_ite Prod.fst, apply_ite AFPSCharacter.NormalScale,
    ite_self]

@[simp]
theorem GradualSlide_NormalScale (m : MathLib R) (s : AFPSCharacter R) (d : R) :
    (GradualSlide m s d).1.NormalScale = s.NormalScale := by
  simp only [GradualSlide, apply_ite Prod.fst, apply_ite AFPSCharacter.NormalScale,
    ite_self]

@[simp]
theorem SmoothCameraTilt_NormalScale (s : AFPSCharacter R) (a b d : R) :
    (s.SmoothCameraTilt a b d).NormalScale = s.NormalScale := by
  simp only [SmoothCameraTilt, apply_ite Prod.fst, apply_ite AFPSCharacter.NormalScale,
    ite_self]

@[simp]
theorem WallRun_NormalScale (s : AFPSCharacter R) (d : R) :
    (s.WallRun d).NormalScale = s.NormalScale := by
  simp only [WallRun, apply_ite Prod.fst, apply_ite AFPSCharacter.NormalScale,
    ite_self]

@[simp]
theorem StopWallRun_NormalScale (s : AFPSCharacter R) :
    s.StopWallRun.NormalScale = s.NormalScale := by
  simp only [StopWallRun, apply_ite Prod.fst, apply_ite AFPSCharacter.NormalScale,
    ite_self]

@[simp]
theorem WallJump_NormalScale (s : AFPSCharacter R) :
    s.WallJump.NormalScale = s.NormalScale := by
  simp only [WallJump, StopWallRun_NormalScale, LaunchCharacter_NormalScale, apply_ite Prod.fst, apply_ite AFPSCharacter.NormalScale,
    ite_self]

@[simp]
theorem StartWallRun_NormalScale (m : MathLib R) (s : AFPSCharacter R) (H : FHitResult R) :
    (StartWallRun m s H).NormalScale = s.NormalScale := by
  simp only [StartWallRun, apply_ite Prod.fst, apply_ite AFPSCharacter.NormalScale,
    ite_self]

@[simp]
theorem OnLineWallTraceHit_NormalScale (m : MathLib R) (s : AFPSCharacter R) (H : FHitResult R) :
    (OnLineWallTraceHit m s H).NormalScale = s.NormalScale := by
  simp only [OnLineWallTraceHit, StartWallRun_NormalScale, apply_ite Prod.fst, apply_ite AFPSCharacter.NormalScale,
    ite_self]

@[simp]
theorem OnJumpLand_NormalScale (m : MathLib R) (s : AFPSCharacter R) (H : FHitResult R) :
    (OnJumpLand m s H).NormalScale = s.NormalScale := by
  simp only [OnJumpLand, StartSlide_NormalScale, StopWallRun_NormalScale, apply_ite Prod.fst, apply_ite AFPSCharacter.NormalScale,
    ite_self]

@[simp]
theorem AirJump_NormalScale (s : AFPSCharacter R) :
    s.AirJump.NormalScale = s.NormalScale := by
  simp only [AirJump, LaunchCharacter_NormalScale, apply_ite Prod.fst, apply_ite AFPSCharacter.NormalScale,
    ite_self]

@[simp]
theorem Tick_NormalScale (m : MathLib R) (s : AFPSCharacter R) (d : R) :
    (Tick m s d).NormalScale = s.NormalScale := by
  simp only [Tick, SmoothCameraTilt_NormalScale, GradualCrouch_NormalScale, GradualSlide_NormalScale, WallRun_NormalScale, apply_ite Prod.fst, apply_ite AFPSCharacter.NormalScale,
    ite_self]

@[simp]
theorem LaunchCharacter_CrouchScale (s : AFPSCharacter R) (L : FVector R) (b1 b2 : Bool) :
    (s.LaunchCharacter L b1 b2).CrouchScale = s.CrouchScale := by
  simp only [LaunchCharacter, apply_ite Prod.fst, apply_ite AFPSCharacter.CrouchScale,
    ite_self]

@[simp]
theorem AddMovementInput_CrouchScale (s : AFPSCharacter R) (W : FVector R) :
    (s.AddMovementInput W).CrouchScale = s.CrouchScale := by
  simp only [AddMovementInput, apply_ite Prod.fst, apply_ite AFPSCharacter.CrouchScale,
    ite_self]

@[simp]
theorem AirAccelerate_CrouchScale (m : MathLib R) (s : AFPSCharacter R) (W : FVector R) :
    (AirAccelerate m s W).CrouchScale = s.CrouchScale := by
  simp only [AirAccelerate, apply_ite Prod.fst, apply_ite AFPSCharacter.CrouchScale,
    ite_self]

@[simp]
theorem Walk_CrouchScale (m : MathLib R) (s : AFPSCharacter R) (W : FVector R) :
    (Walk m s W).CrouchScale = s.CrouchScale := by
  simp only [Walk, AirAccelerate_CrouchScale, AddMovementInput_CrouchScale, apply_ite Prod.fst, apply_ite AFPSCharacter.CrouchScale,
    ite_self]

@[simp]
theorem StartSlide_CrouchScale (m : MathLib R) (s : AFPSCharacter R) :
    (StartSlide m s).CrouchScale = s.CrouchScale := by
  simp only [StartSlide, apply_ite Prod.fst, apply_ite AFPSCharacter.CrouchScale,
    ite_self]

@[simp]
theorem StartCrouch_CrouchScale (m : MathLib R) (s : AFPSCharacter R) :
    (StartCrouch m s).CrouchScale = s.CrouchScale := by
  simp only [StartCrouch, StartSlide_CrouchScale, apply_ite Prod.fst, apply_ite AFPSCharacter.CrouchScale,
    ite_self]

@[simp]
theorem StopCrouch_CrouchScale (s : AFPSCharacter R) :
    s.StopCrouch.CrouchScale = s.CrouchScale := by
  simp only [StopCrouch, apply_ite Prod.fst, apply_ite AFPSCharacter.CrouchScale,
    ite_self]

@[simp]
theorem GradualCrouch_CrouchScale (s : AFPSCharacter R) (z d : R) :
    (s.GradualCrouch z d).CrouchScale = s.CrouchScale := by
  simp only [GradualCrouch, apply_ite Prod.fst, apply_ite AFPSCharacter.CrouchScale,
    ite_self]

@[simp]
theorem GradualSlide_CrouchScale (m : MathLib R) (s : AFPSCharacter R) (d : R) :
    (GradualSlide m s d).1.CrouchScale = s.CrouchScale := by
  simp only [GradualSlide, apply_ite Prod.fst, apply_ite AFPSCharacter.CrouchScale,
    ite_self]

@[simp]
theorem SmoothCameraTilt_CrouchScale (s : AFPSCharacter R) (a b d : R) :
    (s.SmoothCameraTilt a b d).CrouchScale = s.CrouchScale := by
  simp only [SmoothCameraTilt, apply_ite Prod.fst, apply_ite AFPSCharacter.CrouchScale,
    ite_self]

@[simp]
theorem WallRun_CrouchScale (s : AFPSCharacter R) (d : R) :
    (s.WallRun d).CrouchScale = s.CrouchScale := by
  simp only [WallRun, apply_ite Prod.fst, apply_ite AFPSCharacter.CrouchScale,
    ite_self]

@[simp]
theorem StopWallRun_CrouchScale (s : AFPSCharacter R) :
    s.StopWallRun.CrouchScale = s.CrouchScale := by
  simp only [StopWallRun, apply_ite Prod.fst, apply_ite AFPSCharacter.CrouchScale,
    ite_self]

@[simp]
theorem WallJump_CrouchScale (s : AFPSCharacter R) :
    s.WallJump.CrouchScale = s.CrouchScale := by
  simp only [WallJump, StopWallRun_CrouchScale, LaunchCharacter_CrouchScale, apply_ite Prod.fst, apply_ite AFPSCharacter.CrouchScale,
    ite_self]

@[simp]
theorem StartWallRun_CrouchScale (m : MathLib R) (s : AFPSCharacter R) (H : FHitResult R) :
    (StartWallRun m s H).CrouchScale = s.CrouchScale := by
  simp only [StartWallRun, apply_ite Prod.fst, apply_ite AFPSCharacter.CrouchScale,
    ite_self]

@[simp]
theorem OnLineWallTraceHit_CrouchScale (m : MathLib R) (s : AFPSCharacter R) (H : FHitResult R) :
    (OnLineWallTraceHit m s H).CrouchScale = s.CrouchScale := by
  simp only [OnLineWallTraceHit, StartWallRun_CrouchScale, apply_ite Prod.fst, apply_ite AFPSCharacter.CrouchScale,
    ite_self]

@[simp]
theorem OnJumpLand_CrouchScale (m : MathLib R) (s : AFPSCharacter R) (H : FHitResult R) :
    (OnJumpLand m s H).CrouchScale = s.CrouchScale := by
  simp only [OnJumpLand, StartSlide_CrouchScale, StopWallRun_CrouchScale, apply_ite Prod.fst, apply_ite AFPSCharacter.CrouchScale,
    ite_self]

@[simp]
theorem AirJump_CrouchScale (s : AFPSCharacter R) :
    s.AirJump.CrouchScale = s.CrouchScale := by
  simp only [AirJump, LaunchCharacter_CrouchScale, apply_ite Prod.fst, apply_ite AFPSCharacter.CrouchScale,
    ite_self]

@[simp]
theorem Tick_CrouchScale (m : MathLib R) (s : AFPSCharacter R) (d : R) :
    (Tick m s d).CrouchScale = s.CrouchScale := by
  simp only [Tick, SmoothCameraTilt_CrouchScale, GradualCrouch_CrouchScale, GradualSlide_CrouchScale, WallRun_CrouchScale, apply_ite Prod.fst, apply_ite AFPSCharacter.CrouchScale,
    ite_self]

@[simp]
theorem LaunchCharacter_ActorScale3D (s : AFPSCharacter R) (L : FVector R) (b1 b2 : Bool) :
    (s.LaunchCharacter L b1 b2).ActorScale3D = s.ActorScale3D := by
  simp only [LaunchCharacter, apply_ite Prod.fst, apply_ite AFPSCharacter.ActorScale3D,
    ite_self]

@[simp]
theorem AddMovementInput_ActorScale3D (s : AFPSCharacter R) (W : FVector R) :
    (s.AddMovementInput W).ActorScale3D = s.ActorScale3D := by
  simp only [AddMovementInput, apply_ite Prod.fst, apply_ite AFPSCharacter.ActorScale3D,
    ite_self]

@[simp]
theorem AirAccelerate_ActorScale3D (m : MathLib R) (s : AFPSCharacter R) (W : FVector R) :
    (AirAccelerate m s W).ActorScale3D = s.ActorScale3D := by
  simp only [AirAccelerate, apply_ite Prod.fst, apply_ite AFPSCharacter.ActorScale3D,
    ite_self]

@[simp]
theorem Walk_ActorScale3D (m : MathLib R) (s : AFPSCharacter R) (W : FVector R) :
    (Walk m s W).ActorScale3D = s.ActorScale3D := by
  simp only [Walk, AirAccelerate_ActorScale3D, AddMovementInput_ActorScale3D, apply_ite Prod.fst, apply_ite AFPSCharacter.ActorScale3D,
    ite_self]

@[simp]
theorem StartSlide_ActorScale3D (m : MathLib R) (s : AFPSCharacter R) :
    (StartSlide m s).ActorScale3D = s.ActorScale3D := by
  simp only [StartSlide, apply_ite Prod.fst, apply_ite AFPSCharacter.ActorScale3D,
    ite_self]

@[simp]
theorem StartCrouch_ActorScale3D (m : MathLib R) (s : AFPSCharacter R) :
    (StartCrouch m s).ActorScale3D = s.ActorScale3D := by
  simp only [StartCrouch, StartSlide_ActorScale3D, apply_ite Prod.fst, apply_ite AFPSCharacter.ActorScale3D,
    ite_self]

@[simp]
theorem StopCrouch_ActorScale3D (s : AFPSCharacter R) :
    s.StopCrouch.ActorScale3D = s.ActorScale3D := by
  simp only [StopCrouch, apply_ite Prod.fst, apply_ite AFPSCharacter.ActorScale3D,
    ite_self]

@[simp]
theorem GradualSlide_ActorScale3D (m : MathLib R) (s : AFPSCharacter R) (d : R) :
    (GradualSlide m s d).1.ActorScale3D = s.ActorScale3D := by
  simp only [GradualSlide, apply_ite Prod.fst, apply_ite AFPSCharacter.ActorScale3D,
    ite_self]

@[simp]
theorem SmoothCameraTilt_ActorScale3D (s : AFPSCharacter R) (a b d : R) :
    (s.SmoothCameraTilt a b d).ActorScale3D = s.ActorScale3D := by
  simp only [SmoothCameraTilt, apply_ite Prod.fst, apply_ite AFPSCharacter.ActorScale3D,
    ite_self]

@[simp]
theorem WallRun_ActorScale3D (s : AFPSCharacter R) (d : R) :
    (s.WallRun d).ActorScale3D = s.ActorScale3D := by
  simp only [WallRun, apply_ite Prod.fst, apply_ite AFPSCharacter.ActorScale3D,
    ite_self]

@[simp]
theorem StopWallRun_ActorScale3D (s : AFPSCharacter R) :
    s.StopWallRun.ActorScale3D = s.ActorScale3D := by
  simp only [StopWallRun, apply_ite Prod.fst, apply_ite AFPSCharacter.ActorScale3D,
    ite_self]

@[simp]
theorem WallJump_ActorScale3D (s : AFPSCharacter R) :
    s.WallJump.ActorScale3D = s.ActorScale3D := by
  simp only [WallJump, StopWallRun_ActorScale3D, LaunchCharacter_ActorScale3D, apply_ite Prod.fst, apply_ite AFPSCharacter.ActorScale3D,
    ite_self]

@[simp]
theorem StartWallRun_ActorScale3D (m : MathLib R) (s : AFPSCharacter R) (H : FHitResult R) :
    (StartWallRun m s H).ActorScale3D = s.ActorScale3D := by
  simp only [StartWallRun, apply_ite Prod.fst, apply_ite AFPSCharacter.ActorScale3D,
    ite_self]

@[simp]
theorem OnLineWallTraceHit_ActorScale3D (m : MathLib R) (s : AFPSCharacter R) (H : FHitResult R) :
    (OnLineWallTraceHit m s H).ActorScale3D = s.ActorScale3D := by
  simp only [OnLineWallTraceHit, StartWallRun_ActorScale3D, apply_ite Prod.fst, apply_ite AFPSCharacter.ActorScale3D,
    ite_self]

@[simp]
theorem OnJumpLand_ActorScale3D (m : MathLib R) (s : AFPSCharacter R) (H : FHitResult R) :
    (OnJumpLand m s H).ActorScale3D = s.ActorScale3D := by
  simp only [OnJumpLand, StartSlide_ActorScale3D, StopWallRun_ActorScale3D, apply_ite Prod.fst, apply_ite AFPSCharacter.ActorScale3D,
    ite_self]

@[simp]
theorem AirJump_ActorScale3D (s : AFPSCharacter R) :
    s.AirJump.ActorScale3D = s.ActorScale3D := by
  simp only [AirJump, LaunchCharacter_ActorScale3D, apply_ite Prod.fst, apply_ite AFPSCharacter.ActorScale3D,
    ite_self]

@[simp]
theorem LaunchCharacter_ActorLocation (s : AFPSCharacter R) (L : FVector R) (b1 b2 : Bool) :
    (s.LaunchCharacter L b1 b2).ActorLocation = s.ActorLocation := by
  simp only [LaunchCharacter, apply_ite Prod.fst, apply_ite AFPSCharacter.ActorLocation,
    ite_self]

@[simp]
theorem AddMovementInput_ActorLocation (s : AFPSCharacter R) (W : FVector R) :
    (s.AddMovementInput W).ActorLocation = s.ActorLocation := by
  simp only [AddMovementInput, apply_ite Prod.fst, apply_ite AFPSCharacter.ActorLocation,
    ite_self]

@[simp]
theorem BeginPlay_ActorLocation (s : AFPSCharacter R) :
    s.BeginPlay.ActorLocation = s.ActorLocation := by
  simp only [BeginPlay, apply_ite Prod.fst, apply_ite AFPSCharacter.ActorLocation,
    ite_self]

@[simp]
theorem AirAccelerate_ActorLocation (m : MathLib R) (s : AFPSCharacter R) (W : FVector R) :
    (AirAccelerate m s W).ActorLocation = s.ActorLocation := by
  simp only [AirAccelerate, apply_ite Prod.fst, apply_ite AFPSCharacter.ActorLocation,
    ite_self]

@[simp]
theorem Walk_ActorLocation (m : MathLib R) (s : AFPSCharacter R) (W : FVector R) :
    (Walk m s W).ActorLocation = s.ActorLocation := by
  simp only [Walk, AirAccelerate_ActorLocation, AddMovementInput_ActorLocation, apply_ite Prod.fst, apply_ite AFPSCharacter.ActorLocation,
    ite_self]

@[simp]
theorem StartSlide_ActorLocation (m : MathLib R) (s : AFPSCharacter R) :
    (StartSlide m s).ActorLocation = s.ActorLocation := by
  simp only [StartSlide, apply_ite Prod.fst, apply_ite AFPSCharacter.ActorLocation,
    ite_self]

@[simp]
theorem StartCrouch_ActorLocation (m : MathLib R) (s : AFPSCharacter R) :
    (StartCrouch m s).ActorLocation = s.ActorLocation := by
  simp only [StartCrouch, StartSlide_ActorLocation, apply_ite Prod.fst, apply_ite AFPSCharacter.ActorLocation,
    ite_self]

@[simp]
theorem StopCrouch_ActorLocation (s : AFPSCharacter R) :
    s.StopCrouch.ActorLocation = s.ActorLocation := by
  simp only [StopCrouch, apply_ite Prod.fst, apply_ite AFPSCharacter.ActorLocation,
    ite_self]

@[simp]
theorem GradualSlide_ActorLocation (m : MathLib R) (s : AFPSCharacter R) (d : R) :
    (GradualSlide m s d).1.ActorLocation = s.ActorLocation := by
  simp only [GradualSlide, apply_ite Prod.fst, apply_ite AFPSCharacter.ActorLocation,
    ite_self]

@[simp]
theorem SmoothCameraTilt_ActorLocation (s : AFPSCharacter R) (a b d : R) :
    (s.SmoothCameraTilt a b d).ActorLocation = s.ActorLocation := by
  simp only [SmoothCameraTilt, apply_ite Prod.fst, apply_ite AFPSCharacter.ActorLocation,
    ite_self]

@[simp]
theorem WallRun_ActorLocation (s : AFPSCharacter R) (d : R) :
    (s.WallRun d).ActorLocation = s.ActorLocation := by
  simp only [WallRun, apply_ite Prod.fst, apply_ite AFPSCharacter.ActorLocation,
    ite_self]

@[simp]
theorem StopWallRun_ActorLocation (s : AFPSCharacter R) :
    s.StopWallRun.ActorLocation = s.ActorLocation := by
  simp only [StopWallRun, apply_ite Prod.fst, apply_ite AFPSCharacter.ActorLocation,
    ite_self]

@[simp]
theorem WallJump_ActorLocation (s : AFPSCharacter R) :
    s.WallJump.ActorLocation = s.ActorLocation := by
  simp only [WallJump, StopWallRun_ActorLocation, LaunchCharacter_ActorLocation, apply_ite Prod.fst, apply_ite AFPSCharacter.ActorLocation,
    ite_self]

@[simp]
theorem StartWallRun_ActorLocation (m : MathLib R) (s : AFPSCharacter R) (H : FHitResult R) :
    (StartWallRun m s H).ActorLocation = s.ActorLocation := by
  simp only [StartWallRun, apply_ite Prod.fst, apply_ite AFPSCharacter.ActorLocation,
    ite_self]

@[simp]
theorem OnLineWallTraceHit_ActorLocation (m : MathLib R) (s : AFPSCharacter R) (H : FHitResult R) :
    (OnLineWallTraceHit m s H).ActorLocation = s.ActorLocation := by
  simp only [OnLineWallTraceHit, StartWallRun_ActorLocation, apply_ite Prod.fst, apply_ite AFPSCharacter.ActorLocation,
    ite_self]

@[simp]
theorem OnJumpLand_ActorLocation (m : MathLib R) (s : AFPSCharacter R) (H : FHitResult R) :
    (OnJumpLand m s H).ActorLocation = s.ActorLocation := by
  simp only [OnJumpLand, StartSlide_ActorLocation, StopWallRun_ActorLocation, apply_ite Prod.fst, apply_ite AFPSCharacter.ActorLocation,
    ite_self]

@[simp]
theorem AirJump_ActorLocation (s : AFPSCharacter R) :
    s.AirJump.ActorLocation = s.ActorLocation := by
  simp only [AirJump, LaunchCharacter_ActorLocation, apply_ite Prod.fst, apply_ite AFPSCharacter.ActorLocation,
    ite_self]
end Frames3

/-! ### Re-entering a wall run and the air-control reset -/

section AirControlReset

variable {R : Type} [LinearOrderedField R]

open AFPSCharacter

theorem StartWallRun_AirControl_of_falling (m : MathLib R) (s : AFPSCharacter R)
    (H : FHitResult R) (hf : s.IsFalling = true) :
    (StartWallRun m s H).AirControl = s.WallRunAirControl := by
  cases hw : s.bIsWallrunning <;> simp [StartWallRun, hf, hw]

/-- The air-control reset timer firing while pending: air control becomes 0.7,
the timer is no longer pending and the wall-run flag is not touched. -/
theorem AirControlResetTimerFire_effect (m : MathLib R) (s : AFPSCharacter R)
    (hp : s.AirControlResetTimer.Pending = true) :
    (step m s Event.AirControlResetTimerFire).AirControl = 7 / 10 ∧
      (step m s Event.AirControlResetTimerFire).bIsWallrunning = s.bIsWallrunning ∧
      (step m s Event.AirControlResetTimerFire).AirControlResetTimer.Pending = false := by
  simp only [step, hp, if_true, AirControlResetCallback, FTimerHandle.Fired]
  refine ⟨?_, ?_, ?_⟩ <;> trivial

/-- C21, as stated, fails: after a wall jump the reset timer is pending; the
character (wall-run air control 1) touches wall 8 and enters a new wall run,
and the timer is still pending; when it fires, air control goes from 1 to 0.7
during the wall run.  With the default wall-run air control 0.7 the timer is
still pending after the re-entry as well. -/
theorem air_control_reset_survives_wall_run_entry :
    ((sampleAfterWallJump 1).AirControlResetTimer = ⟨true, true, 4 / 10⟩ ∧
        (sampleAfterWallJump 1).IsFalling = true ∧
        (sampleAfterWallJump 1).bIsWallrunning = false) ∧
      ((StartWallRun ratMath (sampleAfterWallJump 1) ⟨some 8, ⟨0, -1, 0⟩⟩).bIsWallrunning = true ∧
        (StartWallRun ratMath (sampleAfterWallJump 1)
          ⟨some 8, ⟨0, -1, 0⟩⟩).AirControlResetTimer.Pending = true ∧
        (StartWallRun ratMath (sampleAfterWallJump 1) ⟨some 8, ⟨0, -1, 0⟩⟩).AirControl = 1) ∧
      ((step ratMath (StartWallRun ratMath (sampleAfterWallJump 1) ⟨some 8, ⟨0, -1, 0⟩⟩)
          Event.AirControlResetTimerFire).AirControl = 7 / 10 ∧
        (step ratMath (StartWallRun ratMath (sampleAfterWallJump 1) ⟨some 8, ⟨0, -1, 0⟩⟩)
          Event.AirControlResetTimerFire).bIsWallrunning = true) ∧
      (StartWallRun ratMath (sampleAfterWallJump (7 / 10))
        ⟨some 8, ⟨0, -1, 0⟩⟩).AirControlResetTimer.Pending = true := by
  decide!

/-- C21, amended: re-entering a wall run does not cancel a pending air-control
restoration.  `StartWallRun` leaves the reset timer as it is and, in the
falling state, sets air control to `WallRunAirControl`; if the timer was
pending and fires during the new wall-run session, air control is set to 0.7,
the wall run goes on and the timer is no longer pending. -/
theorem StartWallRun_keeps_air_control_reset_timer (m : MathLib R) (s : AFPSCharacter R)
    (H : FHitResult R) :
    (StartWallRun m s H).AirControlResetTimer = s.AirControlResetTimer ∧
      (s.IsFalling = true → (StartWallRun m s H).AirControl = s.WallRunAirControl) ∧
      (s.AirControlResetTimer.Pending = true →
        (StartWallRun m s H).AirControlResetTimer.Pending = true ∧
          (step m (StartWallRun m s H) Event.AirControlResetTimerFire).AirControl = 7 / 10 ∧
          (step m (StartWallRun m s H) Event.AirControlResetTimerFire).bIsWallrunning =
            (StartWallRun m s H).bIsWallrunning ∧
          (step m (StartWallRun m s H)
            Event.AirControlResetTimerFire).AirControlResetTimer.Pending = false) := by
  refine ⟨StartWallRun_AirControlResetTimer m s H, StartWallRun_AirControl_of_falling m s H, ?_⟩
  intro hp
  have hp2 : (StartWallRun m s H).AirControlResetTimer.Pending = true := by
    rw [StartWallRun_AirControlResetTimer]; exact hp
  exact ⟨hp2, AirControlResetTimerFire_effect m _ hp2⟩

/-- Witness for C21 (amended): the sample character after its wall jump
touches wall 8. -/
theorem StartWallRun_keeps_air_control_reset_timer_witness :
    (sampleAfterWallJump 1).IsFalling = true ∧
      (sampleAfterWallJump 1).AirControlResetTimer.Pending = true ∧
      (StartWallRun ratMath (sampleAfterWallJump 1) ⟨some 8, ⟨0, -1, 0⟩⟩).AirControl =
        (sampleAfterWallJump 1).WallRunAirControl ∧
      (step ratMath (StartWallRun ratMath (sampleAfterWallJump 1) ⟨some 8, ⟨0, -1, 0⟩⟩)
        Event.AirControlResetTimerFire).AirControl = 7 / 10 :=
  ⟨by decide!, by decide!,
    (StartWallRun_keeps_air_control_reset_timer ratMath (sampleAfterWallJump 1)
      ⟨some 8, ⟨0, -1, 0⟩⟩).2.1 (by decide!),
    ((StartWallRun_keeps_air_control_reset_timer ratMath (sampleAfterWallJump 1)
      ⟨some 8, ⟨0, -1, 0⟩⟩).2.2 (by decide!)).2.1⟩

end AirControlReset

/-! ### Camera roll and transform in `Tick` -/

section CameraRollTick

variable {R : Type} [LinearOrderedField R]

open AFPSCharacter

/-- One `SmoothCameraTilt` step on the roll. -/
theorem SmoothCameraTilt_CameraRoll_eq (s : AFPSCharacter R) (a b d : R) :
    (s.SmoothCameraTilt a b d).CameraRoll =
      if IsNearlyEqual s.CameraRoll a = true then s.CameraRoll
      else FInterpTo s.CameraRoll a d b := by
  unfold SmoothCameraTilt
  cases h : IsNearlyEqual s.CameraRoll a <;> simp

/-- The roll after `Tick` while wall running: the step towards the wall-run
tilt, whatever the crouch state. -/
theorem Tick_CameraRoll_wallrunning (m : MathLib R) (s : AFPSCharacter R) (d : R)
    (hw : s.bIsWallrunning = true) :
    (Tick m s d).CameraRoll =
      (s.SmoothCameraTilt (s.WallRunTiltDirection * s.WallRunCameraTiltAngle)
        s.WallRunTransitionSpeed d).CameraRoll := by
  simp only [Tick, hw, Bool.not_true, Bool.false_eq_true, if_false, if_true,
    SmoothCameraTilt_CameraRoll_eq, apply_ite AFPSCharacter.CameraRoll,
    apply_ite AFPSCharacter.bIsWallrunning, apply_ite AFPSCharacter.WallRunTiltDirection,
    apply_ite AFPSCharacter.WallRunCameraTiltAngle,
    apply_ite AFPSCharacter.WallRunTransitionSpeed,
    WallRun_CameraRoll, WallRun_WallRunTiltDirection, WallRun_WallRunCameraTiltAngle,
    WallRun_WallRunTransitionSpeed, WallRun_bIsWallrunning,
    GradualCrouch_CameraRoll, GradualCrouch_WallRunTiltDirection,
    GradualCrouch_WallRunCameraTiltAngle, GradualCrouch_WallRunTransitionSpeed,
    GradualCrouch_bIsWallrunning,
    GradualSlide_CameraRoll, GradualSlide_WallRunTiltDirection,
    GradualSlide_WallRunCameraTiltAngle, GradualSlide_WallRunTransitionSpeed,
    GradualSlide_bIsWallrunning, ite_self]

/-- The roll after `Tick` outside a wall run: the step towards -3 when
crouching and towards 0 otherwise. -/
theorem Tick_CameraRoll_not_wallrunning (m : MathLib R) (s : AFPSCharacter R) (d : R)
    (hw : s.bIsWallrunning = false) :
    (Tick m s d).CameraRoll =
      (s.SmoothCameraTilt (if s.bIsCrouching = true then -3 else 0)
        s.SlideCameraTiltSpeed d).CameraRoll := by
  cases hc : s.bIsCrouching <;>
  simp only [Tick, hw, hc, Bool.not_false, Bool.false_eq_true, if_false, if_true,
    SmoothCameraTilt_CameraRoll_eq, apply_ite AFPSCharacter.CameraRoll,
    apply_ite AFPSCharacter.bIsWallrunning,
    SmoothCameraTilt_bIsWallrunning,
    GradualCrouch_CameraRoll, GradualCrouch_bIsWallrunning,
    GradualSlide_CameraRoll, GradualSlide_bIsWallrunning, ite_self]

/-- C22: in a `Tick` with `bIsWallrunning` true, crouching or not, the camera
roll after the tick is the result of one `SmoothCameraTilt` step from the roll
before the tick towards `WallRunTiltDirection * WallRunCameraTiltAngle` at rate
`WallRunTransitionSpeed` (the tilt towards -3 or 0 is not applied); with
`bIsWallrunning` false the roll makes one step at rate `SlideCameraTiltSpeed`
towards -3 if crouching and towards 0 otherwise. -/
theorem Tick_camera_roll (m : MathLib R) (s : AFPSCharacter R) (d : R) :
    (s.bIsWallrunning = true →
        (Tick m s d).CameraRoll =
          (s.SmoothCameraTilt (s.WallRunTiltDirection * s.WallRunCameraTiltAngle)
            s.WallRunTransitionSpeed d).CameraRoll) ∧
      (s.bIsWallrunning = false → s.bIsCrouching = true →
        (Tick m s d).CameraRoll =
          (s.SmoothCameraTilt (-3) s.SlideCameraTiltSpeed d).CameraRoll) ∧
      (s.bIsWallrunning = false → s.bIsCrouching = false →
        (Tick m s d).CameraRoll =
          (s.SmoothCameraTilt 0 s.SlideCameraTiltSpeed d).CameraRoll) := by
  refine ⟨Tick_CameraRoll_wallrunning m s d, ?_, ?_⟩
  · intro hw hc
    rw [Tick_CameraRoll_not_wallrunning m s d hw, hc]
    rfl
  · intro hw hc
    rw [Tick_CameraRoll_not_wallrunning m s d hw, hc]
    rfl

/-- Witness for C22: a tick of the wall-running sample character (tilt
direction 1, angle 10, speed 10, frame 1/100) takes the roll from 0 to 1; a
tick of the standing sample character leaves its roll at 0. -/
theorem Tick_camera_roll_witness :
    sampleWallRunning.bIsWallrunning = true ∧
      (Tick ratMath sampleWallRunning (1 / 100)).CameraRoll =
        (sampleWallRunning.SmoothCameraTilt
          (sampleWallRunning.WallRunTiltDirection * sampleWallRunning.WallRunCameraTiltAngle)
          sampleWallRunning.WallRunTransitionSpeed (1 / 100)).CameraRoll ∧
      (Tick ratMath sampleWallRunning (1 / 100)).CameraRoll = 1 ∧
      sampleCharacter.bIsWallrunning = false ∧ sampleCharacter.bIsCrouching = false ∧
      (Tick ratMath sampleCharacter (1 / 100)).CameraRoll =
        (sampleCharacter.SmoothCameraTilt 0 sampleCharacter.SlideCameraTiltSpeed
          (1 / 100)).CameraRoll :=
  ⟨by decide!, (Tick_camera_roll ratMath sampleWallRunning (1 / 100)).1 (by decide!),
    by decide!, by decide!, by decide!,
    (Tick_camera_roll ratMath sampleCharacter (1 / 100)).2.2 (by decide!) (by decide!)⟩

end CameraRollTick

/-! ### Steady states of the interpolated transitions -/

section SteadyState

variable {R : Type} [LinearOrderedField R]

open AFPSCharacter

theorem IsNearlyEqual_self (x : R) : IsNearlyEqual x x = true := by
  simp [IsNearlyEqual, Abs, SMALL_NUMBER]

/-- `GradualCrouch` towards the scale the actor already has, with a zero
location offset, writes nothing. -/
theorem GradualCrouch_at_target_no_offset (s : AFPSCharacter R) (z d : R)
    (hz : s.ActorScale3D.Z = z) (hn : s.NormalScale.Z = z) : s.GradualCrouch z d = s := by
  simp [GradualCrouch, hz, hn, IsNearlyEqual_self]

/-- The standing steady state is a fixed point of `Tick`: not wall running, not
crouching, roll 0 and Z scale equal to the normal scale. -/
theorem Tick_standing_steady (m : MathLib R) (s : AFPSCharacter R) (d : R)
    (hw : s.bIsWallrunning = false) (hc : s.bIsCrouching = false) (hr : s.CameraRoll = 0)
    (hz : s.ActorScale3D.Z = s.NormalScale.Z) : Tick m s d = s := by
  have h1 : s.SmoothCameraTilt 0 s.SlideCameraTiltSpeed d = s := by
    simp [SmoothCameraTilt, hr, IsNearlyEqual_self]
  simp only [Tick, hw, hc, Bool.not_false, Bool.false_eq_true, if_false, if_true, h1,
    GradualCrouch_at_target_no_offset s s.NormalScale.Z d hz rfl]

/-- In the crouching steady state (roll and Z scale at their targets) outside a
wall run, `Tick` leaves roll and scale alone but interpolates the location
towards a target that lies `NormalScale.Z - CrouchScale` below the current
location. -/
theorem Tick_crouching_steady (m : MathLib R) (s : AFPSCharacter R) (d : R)
    (hw : s.bIsWallrunning = false) (hc : s.bIsCrouching = true) (hr : s.CameraRoll = -3)
    (hz : s.ActorScale3D.Z = s.CrouchScale)
    (hne : IsNearlyEqual s.ActorLocation.Z
      (s.ActorLocation.Z + (s.NormalScale.Z - s.CrouchScale) * -1) = false) :
    (Tick m s d).CameraRoll = s.CameraRoll ∧ (Tick m s d).ActorScale3D = s.ActorScale3D ∧
      (Tick m s d).ActorLocation.Z =
        FInterpTo s.ActorLocation.Z
          (s.ActorLocation.Z + (s.NormalScale.Z - s.CrouchScale) * -1) d
          s.CrouchTransitionSpeed := by
  have h1 : s.SmoothCameraTilt (-3) s.SlideCameraTiltSpeed d = s := by
    simp [SmoothCameraTilt, hr, IsNearlyEqual_self]
  have h0 : IsNearlyEqual s.ActorScale3D.Z s.CrouchScale = true := by
    rw [hz]; exact IsNearlyEqual_self _
  have h2 : (s.GradualCrouch s.CrouchScale d).ActorScale3D = s.ActorScale3D := by
    simp only [GradualCrouch, h0, Bool.not_true, Bool.false_eq_true, if_false,
      apply_ite AFPSCharacter.ActorScale3D, ite_self]
  have h3 : (s.GradualCrouch s.CrouchScale d).ActorLocation.Z =
      FInterpTo s.ActorLocation.Z
        (s.ActorLocation.Z + (s.NormalScale.Z - s.CrouchScale) * -1) d
        s.CrouchTransitionSpeed := by
    simp only [GradualCrouch, h0, hc, hne, Bool.not_true, Bool.not_false, Bool.false_eq_true,
      if_false, if_true]
  have h4 : (Tick m s d).ActorScale3D = (s.GradualCrouch s.CrouchScale d).ActorScale3D := by
    simp only [Tick, hw, hc, Bool.not_false, Bool.false_eq_true, if_false, if_true, h1,
      apply_ite AFPSCharacter.ActorScale3D, apply_ite AFPSCharacter.bIsWallrunning,
      GradualSlide_ActorScale3D, GradualSlide_bIsWallrunning, GradualCrouch_bIsWallrunning,
      ite_self]
  have h5 : (Tick m s d).ActorLocation = (s.GradualCrouch s.CrouchScale d).ActorLocation := by
    simp only [Tick, hw, hc, Bool.not_false, Bool.false_eq_true, if_false, if_true, h1,
      apply_ite AFPSCharacter.ActorLocation, apply_ite AFPSCharacter.bIsWallrunning,
      GradualSlide_ActorLocation, GradualSlide_bIsWallrunning, GradualCrouch_bIsWallrunning,
      ite_self]
  refine ⟨?_, ?_, ?_⟩
  · rw [Tick_CameraRoll_not_wallrunning m s d hw, hc, if_pos rfl, h1]
  · rw [h4, h2]
  · rw [h5, h3]

/-- C23, the code at the failing input: the default character, crouched and at
rest with camera roll -3 and Z scale 0.75 at their crouch targets, not wall
running.  A tick of 1/100 s leaves roll and scale alone but moves the actor
location from z = -3/4 to z = -15/16: the location is written again although
roll and scale are at their targets.  (The standing steady state, reached by
releasing crouch, is left unchanged by a tick.) -/
theorem Tick_rewrites_location_when_crouched :
    (sampleCrouchedSteady.bIsCrouching = true ∧ sampleCrouchedSteady.bIsWallrunning = false ∧
        sampleCrouchedSteady.CameraRoll = -3 ∧
        sampleCrouchedSteady.ActorScale3D.Z = sampleCrouchedSteady.CrouchScale ∧
        sampleCrouchedSteady.ActorLocation.Z = -3 / 4) ∧
      ((Tick ratMath sampleCrouchedSteady (1 / 100)).CameraRoll = -3 ∧
        (Tick ratMath sampleCrouchedSteady (1 / 100)).ActorScale3D =
          sampleCrouchedSteady.ActorScale3D ∧
        (Tick ratMath sampleCrouchedSteady (1 / 100)).ActorLocation.Z = -15 / 16 ∧
        (Tick ratMath sampleCrouchedSteady (1 / 100)).ActorLocation ≠
          sampleCrouchedSteady.ActorLocation) ∧
      Tick ratMath (run ratMath sampleCrouchedSteady [Event.StopCrouch, Event.Tick (1 / 5)])
          (1 / 100) =
        run ratMath sampleCrouchedSteady [Event.StopCrouch, Event.Tick (1 / 5)] := by
  refine ⟨by decide!, by decide!, ?_⟩
  exact Tick_standing_steady ratMath _ (1 / 100) (by decide!) (by decide!) (by decide!)
    (by decide!)

end SteadyState

/-! ### Leaving a wall run -/

section WallRunExit

variable {R : Type} [LinearOrderedField R]

open AFPSCharacter

/-- Outside the falling state `StopWallRun` leaves gravity scale, air control
and the reset timer alone. -/
theorem StopWallRun_of_not_falling (s : AFPSCharacter R) (hf : s.IsFalling = false) :
    s.StopWallRun.GravityScale = s.GravityScale ∧ s.StopWallRun.AirControl = s.AirControl ∧
      s.StopWallRun.AirControlResetTimer = s.AirControlResetTimer := by
  have hf2 : ¬ (s.MovementMode = EMovementMode.MOVE_Falling) := by
    simpa [IsFalling] using hf
  refine ⟨?_, ?_, ?_⟩ <;> simp [StopWallRun, IsFalling, hf2]

/-- C24: `StopWallRun` adds the outward impulse n * WallRunSpeed * dt to the
velocity and clears `bIsWallrunning` and `CurrentWall`.  If the character is
falling it sets gravity scale 1.5 and air control 0.1 and leaves the reset timer
pending with delay 0.4 (a valid handle is cleared before the timer is set), and
the firing of that timer sets air control to 0.7 and leaves nothing pending.  If
the character is not falling, gravity scale, air control and the reset timer
are unchanged. -/
theorem StopWallRun_postcondition (m : MathLib R) (s : AFPSCharacter R) :
    (s.StopWallRun.Velocity =
          s.Velocity + (s.WallNormalVector.scale s.WallRunSpeed).scale s.DeltaSeconds ∧
        s.StopWallRun.bIsWallrunning = false ∧ s.StopWallRun.CurrentWall = none) ∧
      (s.IsFalling = true →
        s.StopWallRun.GravityScale = 15 / 10 ∧ s.StopWallRun.AirControl = 1 / 10 ∧
          s.StopWallRun.AirControlResetTimer =
            (if s.AirControlResetTimer.Valid = true then s.AirControlResetTimer.ClearTimer
              else s.AirControlResetTimer).SetTimer (4 / 10) ∧
          s.StopWallRun.AirControlResetTimer = ⟨true, true, 4 / 10⟩ ∧
          (step m s.StopWallRun Event.AirControlResetTimerFire).AirControl = 7 / 10 ∧
          (step m s.StopWallRun
            Event.AirControlResetTimerFire).AirControlResetTimer.Pending = false) ∧
      (s.IsFalling = false →
        s.StopWallRun.GravityScale = s.GravityScale ∧ s.StopWallRun.AirControl = s.AirControl ∧
          s.StopWallRun.AirControlResetTimer = s.AirControlResetTimer) := by
  refine ⟨⟨StopWallRun_Velocity s, StopWallRun_bIsWallrunning_eq s, StopWallRun_CurrentWall_eq s⟩,
    ?_, StopWallRun_of_not_falling s⟩
  intro hf
  obtain ⟨h1, h2, h3⟩ := StopWallRun_of_falling s hf
  have hp : s.StopWallRun.AirControlResetTimer.Pending = true := by rw [h3]
  obtain ⟨f1, _, f3⟩ := AirControlResetTimerFire_effect m s.StopWallRun hp
  refine ⟨h1, h2, ?_, h3, f1, f3⟩
  rw [h3]
  rfl

/-- Witness for C24: the wall-running sample character (falling) leaves its
wall; the standing sample character calls `StopWallRun` on the ground. -/
theorem StopWallRun_postcondition_witness :
    sampleWallRunning.IsFalling = true ∧
      sampleWallRunning.StopWallRun.AirControlResetTimer = ⟨true, true, 4 / 10⟩ ∧
      sampleWallRunning.StopWallRun.Velocity = ⟨600, 10, 250⟩ ∧
      sampleCharacter.IsFalling = false ∧
      sampleCharacter.StopWallRun.AirControl = sampleCharacter.AirControl :=
  ⟨by decide!,
    ((StopWallRun_postcondition ratMath sampleWallRunning).2.1 (by decide!)).2.2.2.1,
    by decide!, by decide!,
    ((StopWallRun_postcondition ratMath sampleCharacter).2.2 (by decide!)).2.1⟩

end WallRunExit

/-! ### The air-strafe increment -/

section AirStrafeIncrement

variable {R : Type} [LinearOrderedField R]

open AFPSCharacter

theorem AirAccelerate_Velocity_of_pos (m : MathLib R) (s : AFPSCharacter R) (w : FVector R)
    (h : 0 < min (w.Length m) 30 -
      FVector.DotProduct (w.GetSafeNormal m) ⟨s.Velocity.X, s.Velocity.Y, 0⟩) :
    (AirAccelerate m s w).Velocity =
      s.Velocity + (w.GetSafeNormal m).scale
        (s.WalkingInput.Length m * s.DeltaSeconds * 10 * s.AirStrafeMagnitude * (143 / 100) *
          s.AirControl) := by
  simp only [AirAccelerate, wishSpeed_clamp]
  rw [if_neg (not_le.mpr h)]
  show s.Velocity + _ = s.Velocity + _
  congr 1
  ext <;> simp only [FVector.scale] <;> ring

/-- C25: when addSpeed = min(|w|, 30) - dot(d, (v.x, v.y, 0)) is positive, with
d the safe normal of the wish vector w, `AirAccelerate` sets the velocity to
v + d * (|WalkingInput| * dt * 10 * AirStrafeMagnitude * 1.43 * AirControl).
The increment is that multiple of d (of squared length the square of the factor
when d is a unit vector), and it does not depend on addSpeed: another wish
vector with the same direction and positive addSpeed gives the same velocity. -/
theorem AirAccelerate_increment (m : MathLib R) (s : AFPSCharacter R) (w : FVector R)
    (h : 0 < min (w.Length m) 30 -
      FVector.DotProduct (w.GetSafeNormal m) ⟨s.Velocity.X, s.Velocity.Y, 0⟩) :
    (AirAccelerate m s w).Velocity =
        s.Velocity + (w.GetSafeNormal m).scale
          (s.WalkingInput.Length m * s.DeltaSeconds * 10 * s.AirStrafeMagnitude * (143 / 100) *
            s.AirControl) ∧
      ((w.GetSafeNormal m).SizeSquared = 1 →
        ((w.GetSafeNormal m).scale
            (s.WalkingInput.Length m * s.DeltaSeconds * 10 * s.AirStrafeMagnitude *
              (143 / 100) * s.AirControl)).SizeSquared =
          (s.WalkingInput.Length m * s.DeltaSeconds * 10 * s.AirStrafeMagnitude * (143 / 100) *
              s.AirControl) *
            (s.WalkingInput.Length m * s.DeltaSeconds * 10 * s.AirStrafeMagnitude * (143 / 100) *
              s.AirControl)) ∧
      (∀ w2 : FVector R, w2.GetSafeNormal m = w.GetSafeNormal m →
        0 < min (w2.Length m) 30 -
          FVector.DotProduct (w2.GetSafeNormal m) ⟨s.Velocity.X, s.Velocity.Y, 0⟩ →
        (AirAccelerate m s w2).Velocity = (AirAccelerate m s w).Velocity) := by
  refine ⟨AirAccelerate_Velocity_of_pos m s w h, ?_, ?_⟩
  · intro hu
    simp only [FVector.SizeSquared, FVector.scale] at hu ⊢
    linear_combination
      (s.WalkingInput.Length m * s.DeltaSeconds * 10 * s.AirStrafeMagnitude * (143 / 100) *
          s.AirControl) *
        (s.WalkingInput.Length m * s.DeltaSeconds * 10 * s.AirStrafeMagnitude * (143 / 100) *
          s.AirControl) * hu
  · intro w2 hd h2
    rw [AirAccelerate_Velocity_of_pos m s w2 h2, AirAccelerate_Velocity_of_pos m s w h, hd]

/-- Witness for C25: the falling sample character, with stored input
(0, 50, 0), strafes to the right; the velocity gains 5.005 along (0,1,0). -/
theorem AirAccelerate_increment_witness :
    0 < min (FVector.Length ratMath (⟨0, 50, 0⟩ : FVector ℚ)) 30 -
        FVector.DotProduct (FVector.GetSafeNormal ratMath (⟨0, 50, 0⟩ : FVector ℚ))
          ⟨600, 0, 0⟩ ∧
      (AirAccelerate ratMath { sampleFalling with WalkingInput := ⟨0, 50, 0⟩ }
        ⟨0, 50, 0⟩).Velocity = ⟨600, 1001 / 200, -100⟩ ∧
      (AirAccelerate ratMath { sampleFalling with WalkingInput := ⟨0, 50, 0⟩ }
          ⟨0, 50, 0⟩).Velocity =
        ({ sampleFalling with WalkingInput := ⟨0, 50, 0⟩ } : AFPSCharacter ℚ).Velocity +
          (FVector.GetSafeNormal ratMath (⟨0, 50, 0⟩ : FVector ℚ)).scale
            (FVector.Length ratMath
                ({ sampleFalling with WalkingInput := ⟨0, 50, 0⟩ } :
                  AFPSCharacter ℚ).WalkingInput *
              ({ sampleFalling with WalkingInput := ⟨0, 50, 0⟩ } :
                AFPSCharacter ℚ).DeltaSeconds * 10 *
              ({ sampleFalling with WalkingInput := ⟨0, 50, 0⟩ } :
                AFPSCharacter ℚ).AirStrafeMagnitude * (143 / 100) *
              ({ sampleFalling with WalkingInput := ⟨0, 50, 0⟩ } :
                AFPSCharacter ℚ).AirControl) :=
  ⟨by decide!, by decide!,
    (AirAccelerate_increment ratMath { sampleFalling with WalkingInput := ⟨0, 50, 0⟩ }
      ⟨0, 50, 0⟩ (by decide!)).1⟩

end AirStrafeIncrement

/-! ### A second wall during a wall run -/

section SecondWall

variable {R : Type} [LinearOrderedField R]

open AFPSCharacter

/-- A hit on a component other than the tracked wall does not touch the
debounce timer: `OnLineWallTraceHit` reduces to the wall test and
`StartWallRun`. -/
theorem OnLineWallTraceHit_other_component (m : MathLib R) (s : AFPSCharacter R)
    (H : FHitResult R) (hB : H.Component ≠ s.CurrentWall) :
    OnLineWallTraceHit m s H = if IsWall H.Normal = true then StartWallRun m s H else s := by
  unfold OnLineWallTraceHit
  have hc : (H.Component.isSome && s.CurrentWall.isSome &&
      decide (H.Component = s.CurrentWall)) = false := by
    simp [hB]
  simp only [hc, Bool.false_eq_true, if_false]

/-- C26: during a wall run on surface A, in the falling state, a contact that
`IsWall` accepts with a component other than A overwrites `WallNormalVector`,
`WallRunTiltDirection` and `WallPerpendicularNormalVector` with the values
computed from the new hit, and leaves `CurrentWall = A`, `bIsWallrunning`, the
velocity (its vertical component in particular), `AirJumpCount`, the gravity
scale and the debounce timer as they were. -/
theorem second_wall_contact_during_wall_run (m : MathLib R) (s : AFPSCharacter R)
    (H : FHitResult R) (A : Nat) (hw : s.bIsWallrunning = true) (hA : s.CurrentWall = some A)
    (hf : s.IsFalling = true) (hwall : IsWall H.Normal = true) (hB : H.Component ≠ some A) :
    ((OnLineWallTraceHit m s H).WallNormalVector = H.Normal ∧
        (OnLineWallTraceHit m s H).WallRunTiltDirection =
          Sign (FVector.DotProduct s.ActorRightVector H.Normal) ∧
        (OnLineWallTraceHit m s H).WallPerpendicularNormalVector =
          (VectorRotate m H.Normal (m.PI / 2) 0 0).scale
            (Sign (FVector.DotProduct s.Velocity (VectorRotate m H.Normal (m.PI / 2) 0 0)))) ∧
      ((OnLineWallTraceHit m s H).CurrentWall = some A ∧
        (OnLineWallTraceHit m s H).bIsWallrunning = true ∧
        (OnLineWallTraceHit m s H).Velocity = s.Velocity ∧
        (OnLineWallTraceHit m s H).Velocity.Z = s.Velocity.Z ∧
        (OnLineWallTraceHit m s H).AirJumpCount = s.AirJumpCount ∧
        (OnLineWallTraceHit m s H).GravityScale = s.GravityScale ∧
        (OnLineWallTraceHit m s H).WallRunTimer = s.WallRunTimer) := by
  have hB2 : H.Component ≠ s.CurrentWall := by rw [hA]; exact hB
  rw [OnLineWallTraceHit_other_component m s H hB2, if_pos hwall]
  have hv : (StartWallRun m s H).Velocity = s.Velocity := by
    simp [StartWallRun, hf, hw]
  refine ⟨⟨?_, ?_, ?_⟩, ?_, ?_, hv, ?_, ?_, ?_, ?_⟩
  · simp [StartWallRun, hf, hw]
  · simp [StartWallRun, hf, hw]
  · simp [StartWallRun, hf, hw]
  · rw [StartWallRun_CurrentWall_eq, if_neg (by simp [hw]), hA]
  · rw [StartWallRun_bIsWallrunning_eq, hf]; rfl
  · rw [hv]
  · rw [StartWallRun_AirJumpCount, if_neg (by simp [hw])]
  · simp [StartWallRun, hf, hw]
  · simp [StartWallRun, hf, hw]

/-- Witness for C26: the wall-running sample character (wall 7) touches wall 8
with normal (-1, 0, 0). -/
theorem second_wall_contact_during_wall_run_witness :
    sampleWallRunning.bIsWallrunning = true ∧ sampleWallRunning.CurrentWall = some 7 ∧
      sampleWallRunning.IsFalling = true ∧ IsWall (⟨-1, 0, 0⟩ : FVector ℚ) = true ∧
      (OnLineWallTraceHit ratMath sampleWallRunning ⟨some 8, ⟨-1, 0, 0⟩⟩).WallNormalVector =
        ⟨-1, 0, 0⟩ ∧
      (OnLineWallTraceHit ratMath sampleWallRunning ⟨some 8, ⟨-1, 0, 0⟩⟩).CurrentWall = some 7 :=
  ⟨by decide!, by decide!, by decide!, by decide!,
    (second_wall_contact_during_wall_run ratMath sampleWallRunning ⟨some 8, ⟨-1, 0, 0⟩⟩ 7
      (by decide!) (by decide!) (by decide!) (by decide!) (by decide!)).1.1,
    (second_wall_contact_during_wall_run ratMath sampleWallRunning ⟨some 8, ⟨-1, 0, 0⟩⟩ 7
      (by decide!) (by decide!) (by decide!) (by decide!) (by decide!)).2.1⟩

end SecondWall

end MovementRemake
